import Mathlib

/-!
# Name cracking (`source4/dsdb/samdb/cracknames.c`)

A shallow embedding of the DsCrackNames engine.  C strings are Lean strings,
a `NULL` pointer is `none`.  The directory (ldb), the Kerberos principal
parser and the SID/GUID codecs are collaborators of the engine whose code is
not part of the sources at hand; they are the fields of `Env`.  Every
directory search the engine issues is recorded, in order, in the `log` of the
run.  Memory allocation (`talloc_*`) is taken to succeed.

The engine is recursive without a bound in the source (service principal
alias fallback), so the two mutually recursive entry points carry a fuel
argument that bounds the nesting depth of the recursive calls; `none` means
that the fuel ran out.
-/

namespace Cracknames

/-! ## C string helpers -/

/-- The part of a character list before the first `c` and the part after it
(`strchr` followed by writing a NUL at the place found). -/
def splitAtChar (c : Char) : List Char → Option (List Char × List Char)
  | [] => none
  | x :: xs =>
    if x = c then some ([], xs)
    else match splitAtChar c xs with
      | none => none
      | some (a, b) => some (x :: a, b)

/-- The C idiom `p = strchr(s, c); if (p) { p[0] = 0; p++; }`: `none` when `c`
does not occur, otherwise the text before the first `c` and the text after. -/
def strchr_split (s : String) (c : Char) : Option (String × String) :=
  match splitAtChar c s.data with
  | none => none
  | some (a, b) => some (String.mk a, String.mk b)

/-- Replace the last occurrence of `c` by `d` on a character list; `none`
when `c` does not occur. -/
def replaceLastChar (c d : Char) : List Char → Option (List Char)
  | [] => none
  | x :: xs =>
    match replaceLastChar c d xs with
    | some ys => some (x :: ys)
    | none => if x = c then some (d :: xs) else none

/-- The C idiom `s = strrchr(str, c); if (s) s[0] = d;`. -/
def strrchr_replace (s : String) (c d : Char) : Option String :=
  (replaceLastChar c d s.data).map String.mk

/-- The length of the initial segment free of `c` (`strcspn` with a one
character reject set), as the segment itself. -/
def takeUntilChar (c : Char) : List Char → List Char
  | [] => []
  | x :: xs => if x = c then [] else x :: takeUntilChar c xs

/-- All pieces of a character list between occurrences of `c`. -/
def splitAllChar (c : Char) : List Char → List (List Char)
  | [] => [[]]
  | x :: xs =>
    match splitAllChar c xs with
    | [] => [[x]]
    | p :: ps => if x = c then [] :: p :: ps else (x :: p) :: ps

/-- ASCII lower-casing of one character, as the C locale `tolower`. -/
def asciiLower (c : Char) : Char :=
  if 65 ≤ c.toNat ∧ c.toNat ≤ 90 then Char.ofNat (c.toNat + 32) else c

/-- The test `strcasecmp(a, b) == 0`. -/
def strcasecmp_eq (a b : String) : Bool :=
  a.data.map asciiLower == b.data.map asciiLower

/-! ## Data model -/

/-- The name formats named in the source (`enum drsuapi_DsNameFormat`). -/
inductive drsuapi_DsNameFormat
  | UNKNOWN
  | FQDN_1779
  | NT4_ACCOUNT
  | DISPLAY
  | GUID
  | CANONICAL
  | USER_PRINCIPAL
  | CANONICAL_EX
  | SERVICE_PRINCIPAL
  | SID_OR_SID_HISTORY
  | DNS_DOMAIN
  deriving DecidableEq, Repr

/-- The per-name statuses set by the source (`enum drsuapi_DsNameStatus`). -/
inductive drsuapi_DsNameStatus
  | OK
  | RESOLVE_ERROR
  | NOT_FOUND
  | NOT_UNIQUE
  | NO_MAPPING
  | DOMAIN_ONLY
  | NO_SYNTACTICAL_MAPPING
  deriving DecidableEq, Repr

/-- The hard results returned by the engine. -/
inductive WERROR
  | WERR_OK
  | WERR_INVALID_PARAMETER
  | WERR_NOT_ENOUGH_MEMORY
  | WERR_INTERNAL_ERROR
  | WERR_FOOBAR
  deriving DecidableEq, Repr

/-- The two bits of `format_flags` the engine tests. -/
structure FormatFlags where
  SYNTACTICAL_ONLY : Bool
  GCVERIFY : Bool
  deriving DecidableEq, Repr

/-- The result record `struct drsuapi_DsNameInfo1`. -/
structure drsuapi_DsNameInfo1 where
  status : drsuapi_DsNameStatus
  dns_domain_name : Option String
  result_name : Option String
  deriving DecidableEq, Repr

/-- One attribute of a directory object with its values. -/
structure ldb_message_element where
  name : String
  values : List String
  deriving DecidableEq, Repr

/-- A directory object as returned by a search: DN (linearized) and attributes. -/
structure ldb_message where
  dn : String
  elements : List ldb_message_element
  deriving DecidableEq, Repr

/-- Search scopes of ldb. -/
inductive ldb_scope
  | LDB_SCOPE_BASE
  | LDB_SCOPE_ONELEVEL
  | LDB_SCOPE_SUBTREE
  deriving DecidableEq, Repr

/-- The search entry point used at a call site. -/
inductive SearchApi
  | ldb_search
  | dsdb_search
  | gendb_search_dn
  deriving DecidableEq, Repr

/-- The two dsdb search flags the engine sets. -/
structure DsdbFlags where
  SEARCH_ALL_PARTITIONS : Bool
  SHOW_RECYCLED : Bool
  deriving DecidableEq, Repr

/-- One directory search as issued by the engine. -/
structure SearchReq where
  api : SearchApi
  base : Option String
  scope : ldb_scope
  attrs : List String
  dsdb_flags : DsdbFlags
  filter : Option String
  deriving DecidableEq, Repr

/-- The answer of the directory: the ldb return code (0 is `LDB_SUCCESS`) and
the messages found. -/
structure SearchRes where
  ret : Nat
  msgs : List ldb_message
  deriving DecidableEq, Repr

/-- A parsed Kerberos principal. -/
structure krb5_principal where
  components : List String
  realm : String
  deriving DecidableEq, Repr

/-- The parse modes of `krb5_parse_name_flags` used by the engine. -/
inductive ParseFlags
  | NONE
  | REQUIRE_REALM
  | NO_REALM
  deriving DecidableEq, Repr

/-- A security identifier (`struct dom_sid`); `num_auths` is kept apart from
the array because the engine decrements it in place. -/
structure dom_sid where
  sid_rev_num : Nat
  num_auths : Int
  id_auth : Nat
  sub_auths : List Nat
  deriving DecidableEq, Repr

/-- A GUID, as the 128 bit number it holds. -/
structure GUID where
  bits : Nat
  deriving DecidableEq, Repr

/-- The collaborators of the engine: the directory handle `sam_ctx` with its
search interface and well-known DNs, the ldb string and DN helpers, the
Kerberos principal parser, the SID and GUID codecs, and the two constants the
filters print. -/
structure Env where
  search : SearchReq → SearchRes
  samdb_partitions_dn : Option String
  ldb_get_config_basedn : Option String
  ldb_get_default_basedn : Option String
  ldb_binary_encode_string : String → String
  ldb_dn_validate : String → Bool
  ldb_dn_canonical_string : String → Option String
  ldb_dn_canonical_ex_string : String → Option String
  samdb_result_dn : ldb_message → String → Option String
  samdb_find_attribute : ldb_message → String → String → Bool
  strcasecmp_m_eq : String → String → Bool
  krb5_parse_name_flags : ParseFlags → String → Option krb5_principal
  /-- First flag: `KRB5_PRINCIPAL_UNPARSE_NO_REALM`; second flag:
  `KRB5_PRINCIPAL_UNPARSE_DISPLAY`. -/
  krb5_unparse_name_flags : Bool → Bool → krb5_principal → Option String
  GUID_from_string : String → Option GUID
  ldap_encode_ndr_GUID : GUID → Option String
  samdb_result_guid : ldb_message → String → GUID
  GUID_string2 : GUID → String
  dom_sid_parse_talloc : String → Option dom_sid
  ldap_encode_ndr_dom_sid : dom_sid → Option String
  samdb_result_dom_sid : ldb_message → String → Option dom_sid
  dom_sid_in_domain : Option dom_sid → dom_sid → Bool
  dom_sid_string : dom_sid → String
  LDB_OID_COMPARATOR_AND : String
  SYSTEM_FLAG_CR_NTDS_DOMAIN : String
  SID_BUILTIN : String
  smb_krb5_init_context : Bool

/-- The outcome of one call of the engine: the hard result, the result record
and the directory searches issued, in order. -/
structure Run where
  werr : WERROR
  info1 : drsuapi_DsNameInfo1
  log : List SearchReq
  deriving DecidableEq, Repr

/-- Put the searches `pre`, issued earlier, in front of the log of a run. -/
def Run.after (pre : List SearchReq) (r : Run) : Run :=
  { r with log := pre ++ r.log }

/-- The `LDB_ERR_NO_SUCH_OBJECT` return code. -/
def LDB_ERR_NO_SUCH_OBJECT : Nat := 32

/-- No dsdb flag set. -/
def noDsdbFlags : DsdbFlags := ⟨false, false⟩

/-- A call of `ldb_search`. -/
def ldbSearchReq (base : Option String) (scope : ldb_scope) (attrs : List String)
    (filter : String) : SearchReq :=
  ⟨SearchApi.ldb_search, base, scope, attrs, noDsdbFlags, some filter⟩

/-- A call of `gendb_search_dn`: a base search without filter. -/
def gendbSearchDnReq (dn : Option String) (attrs : List String) : SearchReq :=
  ⟨SearchApi.gendb_search_dn, dn, ldb_scope.LDB_SCOPE_BASE, attrs, noDsdbFlags, none⟩

/-- The first element of a message whose name equals `attr` without regard to
case (`ldb_msg_find_element`). -/
def ldb_msg_find_element (msg : ldb_message) (attr : String) : Option ldb_message_element :=
  msg.elements.find? (fun el => strcasecmp_eq el.name attr)

/-- The first value of attribute `attr`, or `none` (`ldb_msg_find_attr_as_string`
with a `NULL` default). -/
def ldb_msg_find_attr_as_string (msg : ldb_message) (attr : String) : Option String :=
  match ldb_msg_find_element msg attr with
  | none => none
  | some el => el.values.head?

/-! ## The engine -/

open drsuapi_DsNameFormat drsuapi_DsNameStatus WERROR ldb_scope

/-- The initial content of the result record set at the entry of
`DsCrackNameOneName`. -/
def info1_init : drsuapi_DsNameInfo1 :=
  ⟨RESOLVE_ERROR, none, none⟩

/-- Source `dns_domain_from_principal`: the realm of a realm-qualified
principal as the domain of a domain-only answer. -/
def dns_domain_from_principal (env : Env) (name : String)
    (info1 : drsuapi_DsNameInfo1) : WERROR × drsuapi_DsNameInfo1 :=
  match env.krb5_parse_name_flags ParseFlags.REQUIRE_REALM name with
  | none => (WERR_OK, { info1 with status := NOT_FOUND })
  | some principal =>
    (WERR_OK, { info1 with dns_domain_name := some principal.realm, status := DOMAIN_ONLY })

/-- The inner `do ... while` of `LDB_lookup_spn_alias`: is `alias_from` one of
the comma separated aliases, without regard to case. -/
def spn_alias_listed (aliases : String) (alias_from : String) : Bool :=
  (splitAllChar ',' aliases.data).any (fun str => strcasecmp_eq (String.mk str) alias_from)

/-- The `for` loop of `LDB_lookup_spn_alias` over the values of `sPNMappings`:
a value without `=` ends the lookup with NOT_FOUND, the first value listing
`alias_from` gives its service name. -/
def spn_mappings_scan (alias_from : String) :
    List String → drsuapi_DsNameStatus × Option String
  | [] => (NOT_FOUND, none)
  | mapping :: rest =>
    match strchr_split mapping '=' with
    | none => (NOT_FOUND, none)
    | some (service, aliases) =>
      if spn_alias_listed aliases alias_from then (OK, some service)
      else spn_mappings_scan alias_from rest

/-- The DN of the object holding `sPNMappings`, below the configuration NC. -/
def spn_service_dn (env : Env) : Option String :=
  match env.ldb_get_config_basedn with
  | none => none
  | some base => some ("CN=Directory Service,CN=Windows NT,CN=Services," ++ base)

/-- Source `LDB_lookup_spn_alias`: status, `alias_to` and the searches issued. -/
def LDB_lookup_spn_alias (env : Env) (alias_from : String) :
    drsuapi_DsNameStatus × Option String × List SearchReq :=
  match spn_service_dn env with
  | none => (RESOLVE_ERROR, none, [])
  | some service_dn =>
    let req := ldbSearchReq (some service_dn) LDB_SCOPE_BASE ["sPNMappings"]
      "(objectClass=nTDSService)"
    let res := env.search req
    if res.ret ≠ 0 ∧ res.ret ≠ LDB_ERR_NO_SUCH_OBJECT then (RESOLVE_ERROR, none, [req])
    else if res.ret = LDB_ERR_NO_SUCH_OBJECT then (NOT_FOUND, none, [req])
    else match res.msgs with
      | [msg] =>
        match ldb_msg_find_element msg "sPNMappings" with
        | none => (NOT_FOUND, none, [req])
        | some spnmappings =>
          if spnmappings.values.length = 0 then (NOT_FOUND, none, [req])
          else
            let r := spn_mappings_scan alias_from spnmappings.values
            (r.1, r.2, [req])
      | _ => (NOT_FOUND, none, [req])

/-- The signature of `DsCrackNameOneName` below the fuel. -/
abbrev OneNameFn :=
  FormatFlags → drsuapi_DsNameFormat → drsuapi_DsNameFormat → Option String → Option Run

/-- The arguments of `DsCrackNameOneFilter` after the contexts. -/
structure FilterArgs where
  format_flags : FormatFlags
  format_offered : drsuapi_DsNameFormat
  format_desired : drsuapi_DsNameFormat
  name_dn : Option String
  name : String
  domain_filter : Option String
  result_filter : Option String
  info1 : drsuapi_DsNameInfo1
  scope : ldb_scope
  search_dn : Option String
  deriving DecidableEq, Repr

/-- The signature of `DsCrackNameOneFilter` below the fuel. -/
abbrev OneFilterFn := FilterArgs → Option Run

/-- Source `DsCrackNameSPNAlias`; `recName` is the recursive call of
`DsCrackNameOneName`. -/
def DsCrackNameSPNAlias (env : Env) (recName : OneNameFn) (format_flags : FormatFlags)
    (format_offered format_desired : drsuapi_DsNameFormat) (name : String)
    (info1 : drsuapi_DsNameInfo1) : Option Run :=
  match env.krb5_parse_name_flags ParseFlags.NO_REALM name with
  | none => some ⟨WERR_NOT_ENOUGH_MEMORY, info1, []⟩
  | some principal =>
    match principal.components[0]? with
    | none => some ⟨WERR_OK, { info1 with status := NOT_FOUND }, []⟩
    | some service =>
      match principal.components[1]? with
      | none => some ⟨WERR_OK, { info1 with status := NOT_FOUND }, []⟩
      | some dns_name =>
        match LDB_lookup_spn_alias env service with
        | (namestatus, new_service, log) =>
          if namestatus = NOT_FOUND then
            some ⟨WERR_OK, { info1 with status := DOMAIN_ONLY,
                                        dns_domain_name := some dns_name }, log⟩
          else if namestatus ≠ OK then
            some ⟨WERR_OK, { info1 with status := namestatus }, log⟩
          else
            let new_princ := new_service.getD "" ++ "/" ++ dns_name
            match recName format_flags format_offered format_desired (some new_princ) with
            | none => none
            | some r =>
              if r.werr = WERR_OK ∧ r.info1.status = NOT_FOUND then
                some ⟨r.werr, { r.info1 with status := DOMAIN_ONLY,
                                             dns_domain_name := some dns_name }, log ++ r.log⟩
              else some (r.after log)

/-- The crossRef filter of `DsCrackNameUPN` for an encoded realm. -/
def upn_domain_filter (env : Env) (realm_encoded : String) : String :=
  "(&(objectClass=crossRef)(|(dnsRoot=" ++ realm_encoded ++ ")(netbiosName=" ++ realm_encoded
    ++ "))(systemFlags:" ++ env.LDB_OID_COMPARATOR_AND ++ ":=" ++ env.SYSTEM_FLAG_CR_NTDS_DOMAIN
    ++ "))"

/-- Source `DsCrackNameUPN`; `recFilter` is the call of `DsCrackNameOneFilter`. -/
def DsCrackNameUPN (env : Env) (recFilter : OneFilterFn) (format_flags : FormatFlags)
    (format_offered format_desired : drsuapi_DsNameFormat) (name : Option String)
    (info1 : drsuapi_DsNameInfo1) : Option Run :=
  match name with
  | none => some ⟨WERR_OK, { info1 with status := NOT_FOUND }, []⟩
  | some name =>
    match env.krb5_parse_name_flags ParseFlags.REQUIRE_REALM name with
    | none => some ⟨WERR_OK, { info1 with status := NOT_FOUND }, []⟩
    | some principal =>
      let realm_encoded := env.ldb_binary_encode_string principal.realm
      let req := ldbSearchReq env.samdb_partitions_dn LDB_SCOPE_ONELEVEL []
        (upn_domain_filter env realm_encoded)
      let domain_res := env.search req
      if domain_res.ret ≠ 0 then
        some ⟨WERR_OK, { info1 with status := RESOLVE_ERROR }, [req]⟩
      else match domain_res.msgs with
        | [] =>
          let r := dns_domain_from_principal env name info1
          some ⟨r.1, r.2, [req]⟩
        | [crossRef] =>
          match env.krb5_unparse_name_flags true true principal with
          | none => some ⟨WERR_NOT_ENOUGH_MEMORY, info1, [req]⟩
          | some unparsed_name_short =>
            let unparsed_name_short_encoded := env.ldb_binary_encode_string unparsed_name_short
            let result_filter :=
              "(&(samAccountName=" ++ unparsed_name_short_encoded ++ ")(objectClass=user))"
            let domain_filter := "(distinguishedName=" ++ crossRef.dn ++ ")"
            (recFilter ⟨format_flags, format_offered, format_desired, none,
              unparsed_name_short, some domain_filter, some result_filter, info1,
              LDB_SCOPE_SUBTREE, none⟩).map (Run.after [req])
        | _ => some ⟨WERR_OK, { info1 with status := NOT_UNIQUE }, [req]⟩

/-- The outputs of `get_format_functional_filtering_param`. -/
structure FunctionalParam where
  werr : WERROR
  info1 : drsuapi_DsNameInfo1
  search_dn : Option String
  result_filter : Option String
  log : List SearchReq
  deriving DecidableEq, Repr

/-- The `while` loop of `get_format_functional_filtering_param` over the
segments of the path, and the statements after it: every segment but the last
is looked up by name among the children of the current base, the last one
becomes the result filter. -/
def functional_walk (env : Env) (info1 : drsuapi_DsNameInfo1) :
    List String → Option String → Option String → List SearchReq → FunctionalParam
  | [], _, search_dn, log =>
    ⟨WERR_OK, info1, search_dn, some ("(name=" ++ env.ldb_binary_encode_string "" ++ ")"), log⟩
  | [account], _, search_dn, log =>
    ⟨WERR_OK, info1, search_dn,
      some ("(name=" ++ env.ldb_binary_encode_string account ++ ")"), log⟩
  | account :: s :: rest, tmp_dn, _, log =>
    let req := ldbSearchReq tmp_dn LDB_SCOPE_ONELEVEL ["name"] ("name=" ++ account)
    let domain_res := env.search req
    if domain_res.ret ≠ 0 then
      ⟨WERR_OK, { info1 with status := RESOLVE_ERROR }, none, none, log ++ [req]⟩
    else match domain_res.msgs with
      | [msg] => functional_walk env info1 (s :: rest) (some msg.dn) (some msg.dn) (log ++ [req])
      | [] => ⟨WERR_OK, { info1 with status := NOT_FOUND }, none, none, log ++ [req]⟩
      | _ => ⟨WERR_OK, { info1 with status := NOT_UNIQUE }, none, none, log ++ [req]⟩

/-- The `/` delimited segments of a path. -/
def path_segments (name : String) : List String :=
  (splitAllChar '/' name.data).map String.mk

/-- Source `get_format_functional_filtering_param`. -/
def get_format_functional_filtering_param (env : Env) (name : String)
    (info1 : drsuapi_DsNameInfo1) (domain_filter : String) : FunctionalParam :=
  let req := ldbSearchReq env.samdb_partitions_dn LDB_SCOPE_ONELEVEL ["ncName"] domain_filter
  let domain_res := env.search req
  if domain_res.ret ≠ 0 then
    ⟨WERR_FOOBAR, { info1 with status := RESOLVE_ERROR }, none, none, [req]⟩
  else match domain_res.msgs with
    | [msg] =>
      functional_walk env info1 (path_segments name) (env.samdb_result_dn msg "ncName") none [req]
    | _ => ⟨WERR_OK, info1, none, none, [req]⟩

/-- Source `DsCrackNameOneSyntactical`. -/
def DsCrackNameOneSyntactical (env : Env) (format_offered format_desired : drsuapi_DsNameFormat)
    (name_dn : Option String) (info1 : drsuapi_DsNameInfo1) : WERROR × drsuapi_DsNameInfo1 :=
  if format_offered ≠ FQDN_1779 then
    (WERR_OK, { info1 with status := NO_SYNTACTICAL_MAPPING })
  else
    let finish (cracked : Option String) : WERROR × drsuapi_DsNameInfo1 :=
      (if cracked.isNone then WERR_NOT_ENOUGH_MEMORY else WERR_OK,
        { info1 with status := OK, result_name := cracked })
    match format_desired with
    | CANONICAL => finish (name_dn.bind env.ldb_dn_canonical_string)
    | CANONICAL_EX => finish (name_dn.bind env.ldb_dn_canonical_ex_string)
    | _ => (WERR_OK, { info1 with status := NO_SYNTACTICAL_MAPPING })

/-- The attribute lists chosen at the head of `DsCrackNameOneFilter`:
`domain_attrs` and `result_attrs`. -/
def filter_attrs (format_desired : drsuapi_DsNameFormat) : List String × List String :=
  match format_desired with
  | FQDN_1779 => (["ncName", "dnsRoot"], [])
  | CANONICAL_EX => (["ncName", "dnsRoot"], [])
  | CANONICAL => (["ncName", "dnsRoot"], ["canonicalName"])
  | NT4_ACCOUNT => (["ncName", "dnsRoot", "nETBIOSName"],
      ["sAMAccountName", "objectSid", "objectClass"])
  | .GUID => (["ncName", "dnsRoot"], ["objectGUID"])
  | DISPLAY => (["ncName", "dnsRoot"], ["displayName", "samAccountName"])
  | USER_PRINCIPAL => (["ncName", "dnsRoot"], ["userPrincipalName"])
  | SERVICE_PRINCIPAL => (["ncName", "dnsRoot"], ["servicePrincipalName"])
  | SID_OR_SID_HISTORY => (["ncName", "dnsRoot"], ["objectSid"])
  | _ => (["ncName", "dnsRoot"], [])

/-- What the domain stage of `DsCrackNameOneFilter` leaves behind: the result
record, the crossRef found (`domain_res`, `NULL` without domain filter) and
the searches issued. -/
structure DomainStage where
  info1 : drsuapi_DsNameInfo1
  domain_res : Option ldb_message
  log : List SearchReq
  deriving DecidableEq, Repr

/-- The domain stage of `DsCrackNameOneFilter` (`if (domain_filter) ... else`):
either the function returns (left) or it goes on (right). -/
def filter_domain_stage (env : Env) (a : FilterArgs) : Run ⊕ DomainStage :=
  match a.domain_filter with
  | some domain_filter =>
    let req := ldbSearchReq env.samdb_partitions_dn LDB_SCOPE_ONELEVEL
      (filter_attrs a.format_desired).1 domain_filter
    let domain_res := env.search req
    if domain_res.ret ≠ 0 then
      Sum.inl ⟨WERR_OK, { a.info1 with status := RESOLVE_ERROR }, [req]⟩
    else match domain_res.msgs with
      | [crossRef] =>
        match ldb_msg_find_attr_as_string crossRef "dnsRoot" with
        | none => Sum.inl ⟨WERR_NOT_ENOUGH_MEMORY, { a.info1 with dns_domain_name := none }, [req]⟩
        | some dnsRoot =>
          Sum.inr ⟨{ a.info1 with dns_domain_name := some dnsRoot, status := DOMAIN_ONLY },
            some crossRef, [req]⟩
      | [] => Sum.inl ⟨WERR_OK, { a.info1 with status := NOT_FOUND }, [req]⟩
      | _ => Sum.inl ⟨WERR_OK, { a.info1 with status := NOT_UNIQUE }, [req]⟩
  | none =>
    Sum.inr ⟨{ a.info1 with dns_domain_name := none, status := RESOLVE_ERROR }, none, []⟩

/-- What the locating stage leaves behind: the result record, the value of
`ldb_ret` with `result_res` (`none` stands for -1, otherwise the count is the
length of the list) and the searches issued so far. -/
structure LocateStage where
  info1 : drsuapi_DsNameInfo1
  result_res : Option (List ldb_message)
  log : List SearchReq
  deriving DecidableEq, Repr

/-- The messages of a `gendb_search_dn` answer, `none` when it returns -1. -/
def gendb_result (r : SearchRes) : Option (List ldb_message) :=
  if r.ret ≠ 0 then none else some r.msgs

/-- The base DN `real_search_dn` of the result search: `NULL` for a search over
all partitions (GCVERIFY, or a GUID offered), else the search DN handed in or
the naming context of the crossRef found, else the default base DN. -/
def locate_search_dn (env : Env) (a : FilterArgs) (d : DomainStage) : Option String :=
  if a.format_flags.GCVERIFY || decide (a.format_offered = .GUID) then none
  else match d.domain_res with
    | some crossRef =>
      match a.search_dn with
      | none => env.samdb_result_dn crossRef "ncName"
      | some search_dn => some search_dn
    | none => env.ldb_get_default_basedn

/-- The result search (`dsdb_search`) of `DsCrackNameOneFilter`. -/
def reqLocate (env : Env) (a : FilterArgs) (d : DomainStage) (result_filter : String) :
    SearchReq :=
  ⟨SearchApi.dsdb_search, locate_search_dn env a d, a.scope, (filter_attrs a.format_desired).2,
    ⟨a.format_flags.GCVERIFY || decide (a.format_offered = .GUID),
      decide (a.format_offered = .GUID)⟩, some result_filter⟩

/-- The locating stage of `DsCrackNameOneFilter` (`if (result_filter) ... else
if ... else`). -/
def filter_locate_stage (env : Env) (a : FilterArgs) (d : DomainStage) : Run ⊕ LocateStage :=
  match a.result_filter with
  | some result_filter =>
    let res := env.search (reqLocate env a d result_filter)
    if res.ret ≠ 0 then
      Sum.inl ⟨WERR_OK, { d.info1 with status := RESOLVE_ERROR },
        d.log ++ [reqLocate env a d result_filter]⟩
    else
      Sum.inr ⟨{ d.info1 with status := NOT_FOUND }, some res.msgs,
        d.log ++ [reqLocate env a d result_filter]⟩
  | none =>
    if a.format_offered = FQDN_1779 then
      let req := gendbSearchDnReq a.name_dn (filter_attrs a.format_desired).2
      Sum.inr ⟨d.info1, gendb_result (env.search req), d.log ++ [req]⟩
    else match d.domain_res with
      | some crossRef =>
        let req := gendbSearchDnReq (env.samdb_result_dn crossRef "ncName")
          (filter_attrs a.format_desired).2
        Sum.inr ⟨d.info1, gendb_result (env.search req), d.log ++ [req]⟩
      | none => Sum.inl ⟨WERR_OK, { d.info1 with status := RESOLVE_ERROR }, d.log⟩

/-- The text `printf` gives for a `%s` argument that may be `NULL`. -/
def printf_s (s : Option String) : String :=
  s.getD "(null)"

/-- The lookup of a crossRef by naming context in the NT4 rendering, with the
status for a failed search, no hit and several hits: the crossRef found, or
the run that ends the function. -/
def lookup_crossRef_by_ncName (env : Env) (domain_attrs : List String) (dn : String)
    (info1 : drsuapi_DsNameInfo1) (log : List SearchReq) : Run ⊕ (ldb_message × List SearchReq) :=
  let req := ldbSearchReq env.samdb_partitions_dn LDB_SCOPE_ONELEVEL domain_attrs
    ("(ncName=" ++ dn ++ ")")
  let domain_res := env.search req
  if domain_res.ret ≠ 0 then
    Sum.inl ⟨WERR_OK, { info1 with status := RESOLVE_ERROR }, log ++ [req]⟩
  else match domain_res.msgs with
    | [crossRef] => Sum.inr (crossRef, log ++ [req])
    | [] => Sum.inl ⟨WERR_OK, { info1 with status := NOT_FOUND }, log ++ [req]⟩
    | _ => Sum.inl ⟨WERR_OK, { info1 with status := NOT_UNIQUE }, log ++ [req]⟩

/-- The last statements of the NT4 rendering: `DOMAIN\account`. -/
def render_nt4_finish (crossRef : ldb_message) (_acc : String)
    (info1 : drsuapi_DsNameInfo1) (log : List SearchReq) : Run :=
  match ldb_msg_find_attr_as_string crossRef "nETBIOSName" with
  | none => ⟨WERR_NOT_ENOUGH_MEMORY, info1, log⟩
  | some _dom =>
    ⟨WERR_OK, { info1 with result_name := some (_dom ++ "\\" ++ _acc), status := OK }, log⟩

/-- The branch `case DRSUAPI_DS_NAME_FORMAT_NT4_ACCOUNT` of the rendering
switch of `DsCrackNameOneFilter`. -/
def render_nt4 (env : Env) (domain_attrs : List String) (result : ldb_message)
    (info1 : drsuapi_DsNameInfo1) (log : List SearchReq) : Run :=
  match env.samdb_result_dom_sid result "objectSid" with
  | none => ⟨WERR_OK, { info1 with status := NO_MAPPING }, log⟩
  | some sid =>
    if env.samdb_find_attribute result "objectClass" "domain" then
      match lookup_crossRef_by_ncName env domain_attrs result.dn info1 log with
      | Sum.inl r => r
      | Sum.inr (crossRef, log1) => render_nt4_finish crossRef "" info1 log1
    else
      match ldb_msg_find_attr_as_string result "sAMAccountName" with
      | none => ⟨WERR_OK, { info1 with status := NO_MAPPING }, log⟩
      | some _acc =>
        if env.dom_sid_in_domain (env.dom_sid_parse_talloc env.SID_BUILTIN) sid then
          ⟨WERR_OK, { info1 with result_name := some ("BUILTIN" ++ "\\" ++ _acc), status := OK },
            log⟩
        else
          let dom_sid : dom_sid := { sid with num_auths := sid.num_auths - 1 }
          let req := ldbSearchReq none LDB_SCOPE_BASE []
            ("(&(objectSid=" ++ printf_s (env.ldap_encode_ndr_dom_sid dom_sid)
              ++ ")(objectClass=domain))")
          let domain_res := env.search req
          if domain_res.ret ≠ 0 then
            ⟨WERR_OK, { info1 with status := RESOLVE_ERROR }, log ++ [req]⟩
          else match domain_res.msgs with
            | [domain] =>
              match lookup_crossRef_by_ncName env domain_attrs domain.dn info1 (log ++ [req]) with
              | Sum.inl r => r
              | Sum.inr (crossRef, log2) => render_nt4_finish crossRef _acc info1 log2
            | [] => ⟨WERR_OK, { info1 with status := NOT_FOUND }, log ++ [req]⟩
            | _ => ⟨WERR_OK, { info1 with status := NOT_UNIQUE }, log ++ [req]⟩

/-- The rendering switch at the end of `DsCrackNameOneFilter`
(`switch (format_desired)`), entered with the object located and
`dns_domain_name` already set from its canonical name. -/
def filter_render (env : Env) (format_desired : drsuapi_DsNameFormat) (result : ldb_message)
    (info1 : drsuapi_DsNameInfo1) (log : List SearchReq) : Run :=
  match format_desired with
  | FQDN_1779 => ⟨WERR_OK, { info1 with result_name := some result.dn, status := OK }, log⟩
  | CANONICAL =>
    ⟨WERR_OK, { info1 with result_name := ldb_msg_find_attr_as_string result "canonicalName",
                           status := OK }, log⟩
  | CANONICAL_EX =>
    let r := DsCrackNameOneSyntactical env FQDN_1779 CANONICAL_EX (some result.dn) info1
    ⟨r.1, r.2, log⟩
  | NT4_ACCOUNT => render_nt4 env (filter_attrs format_desired).1 result info1 log
  | .GUID =>
    ⟨WERR_OK, { info1 with result_name := some (env.GUID_string2
                             (env.samdb_result_guid result "objectGUID")),
                           status := OK }, log⟩
  | DISPLAY =>
    let result_name :=
      match ldb_msg_find_attr_as_string result "displayName" with
      | some n => some n
      | none => ldb_msg_find_attr_as_string result "sAMAccountName"
    ⟨WERR_OK, { info1 with result_name := result_name,
                           status := if result_name.isNone then NOT_FOUND else OK }, log⟩
  | SERVICE_PRINCIPAL =>
    match ldb_msg_find_element result "servicePrincipalName" with
    | none => ⟨WERR_OK, { info1 with status := NOT_FOUND }, log⟩
    | some el =>
      if el.values.length > 1 then ⟨WERR_OK, { info1 with status := NOT_UNIQUE }, log⟩
      else
        let result_name := ldb_msg_find_attr_as_string result "servicePrincipalName"
        ⟨WERR_OK, { info1 with result_name := result_name,
                               status := if result_name.isNone then NO_MAPPING else OK }, log⟩
  | DNS_DOMAIN =>
    ⟨WERR_OK, { info1 with dns_domain_name := none, status := RESOLVE_ERROR }, log⟩
  | SID_OR_SID_HISTORY =>
    match env.samdb_result_dom_sid result "objectSid" with
    | none => ⟨WERR_OK, { info1 with status := NO_MAPPING }, log⟩
    | some sid =>
      ⟨WERR_OK, { info1 with result_name := some (env.dom_sid_string sid), status := OK }, log⟩
  | USER_PRINCIPAL =>
    let result_name := ldb_msg_find_attr_as_string result "userPrincipalName"
    ⟨WERR_OK, { info1 with result_name := result_name,
                           status := if result_name.isNone then NO_MAPPING else OK }, log⟩
  | UNKNOWN => ⟨WERR_OK, { info1 with status := NO_MAPPING }, log⟩

/-- The C idiom `p = strchr(s, '/'); if (p) p[0] = 0;`: the string cut before
its first `/`. -/
def cut_at_slash (s : String) : String :=
  match strchr_split s '/' with
  | some (head, _) => head
  | none => s

/-- The statements between the selection of `result` and the rendering
switch: `dns_domain_name` becomes the canonical name of the object cut at its
first `/`. -/
def filter_finish (env : Env) (format_desired : drsuapi_DsNameFormat) (result : ldb_message)
    (info1 : drsuapi_DsNameInfo1) (log : List SearchReq) : Run :=
  match env.ldb_dn_canonical_string result.dn with
  | none => ⟨WERR_NOT_ENOUGH_MEMORY, { info1 with dns_domain_name := none }, log⟩
  | some canonical =>
    filter_render env format_desired result
      { info1 with dns_domain_name := some (cut_at_slash canonical) } log

/-- The manual filter over several hits for an offered canonical name: the
first hit whose canonical rendering equals `name` without regard to case. -/
def canonical_pick (env : Env) (format_offered : drsuapi_DsNameFormat) (name : String)
    (result_res : List ldb_message) : Option ldb_message :=
  result_res.find? (fun msg =>
    let canonical_name :=
      match format_offered with
      | CANONICAL => env.ldb_dn_canonical_string msg.dn
      | CANONICAL_EX => env.ldb_dn_canonical_ex_string msg.dn
      | _ => none
    match canonical_name with
    | some c => env.strcasecmp_m_eq c name
    | none => false)

/-- Source `DsCrackNameOneFilter`; `recName` and `recFilter` are the calls
made through the fallbacks. -/
def DsCrackNameOneFilter_body (env : Env) (recName : OneNameFn) (recFilter : OneFilterFn)
    (a : FilterArgs) : Option Run :=
  match filter_domain_stage env a with
  | Sum.inl r => some r
  | Sum.inr d =>
    match filter_locate_stage env a d with
    | Sum.inl r => some r
    | Sum.inr l =>
      match l.result_res with
      | some [result] => some (filter_finish env a.format_desired result l.info1 l.log)
      | some [] =>
        match a.format_offered with
        | SERVICE_PRINCIPAL =>
          (DsCrackNameSPNAlias env recName a.format_flags a.format_offered a.format_desired
            a.name l.info1).map (Run.after l.log)
        | USER_PRINCIPAL =>
          (DsCrackNameUPN env recFilter a.format_flags a.format_offered a.format_desired
            (some a.name) l.info1).map (Run.after l.log)
        | _ => some ⟨WERR_OK, { l.info1 with status := NOT_FOUND }, l.log⟩
      | none => some ⟨WERR_OK, { l.info1 with status := RESOLVE_ERROR }, l.log⟩
      | some result_res =>
        match a.format_offered with
        | CANONICAL | CANONICAL_EX =>
          match canonical_pick env a.format_offered a.name result_res with
          | none => some ⟨WERR_OK, { l.info1 with status := NOT_FOUND }, l.log⟩
          | some _ => some ⟨WERR_OK, { l.info1 with status := NOT_UNIQUE }, l.log⟩
        | _ => some ⟨WERR_OK, { l.info1 with status := NOT_UNIQUE }, l.log⟩

/-- The array `formats[]` probed for an offered format UNKNOWN, in order. -/
def probe_formats : List drsuapi_DsNameFormat :=
  [FQDN_1779, USER_PRINCIPAL, NT4_ACCOUNT, CANONICAL, .GUID, DISPLAY, SERVICE_PRINCIPAL,
    SID_OR_SID_HISTORY, CANONICAL_EX]

/-- The condition under which the probing loop returns after a probe of
format `f` that gave `werr` and `status`. -/
def probe_returns (f : drsuapi_DsNameFormat) (werr : WERROR) (status : drsuapi_DsNameStatus) :
    Bool :=
  decide (werr ≠ WERR_OK) ||
    (decide (status ≠ NOT_FOUND) && (decide (f ≠ CANONICAL) || decide (status ≠ RESOLVE_ERROR)))

/-- The `for` loop over `formats[]` in `DsCrackNameOneName`: `call f` is the
recursive crack with offered format `f`, `last` the outcome of the loop so
far (hard result and record of the latest probe, all searches issued). -/
def probe_loop (call : drsuapi_DsNameFormat → Option Run) :
    List drsuapi_DsNameFormat → Run → Option Run
  | [], last => some last
  | f :: rest, last =>
    match call f with
    | none => none
    | some r =>
      if probe_returns f r.werr r.info1.status then some (r.after last.log)
      else probe_loop call rest (r.after last.log)

/-- The crossRef filter built for an offered canonical name. -/
def canonical_domain_filter (env : Env) (str_encoded : String) : String :=
  "(&(objectClass=crossRef)(dnsRoot=" ++ str_encoded ++ ")(systemFlags:"
    ++ env.LDB_OID_COMPARATOR_AND ++ ":=" ++ env.SYSTEM_FLAG_CR_NTDS_DOMAIN ++ "))"

/-- The crossRef filter built for an offered NT4 account name. -/
def nt4_domain_filter (env : Env) (domain_encoded : String) : String :=
  "(&(objectClass=crossRef)(netbiosName=" ++ domain_encoded ++ ")(systemFlags:"
    ++ env.LDB_OID_COMPARATOR_AND ++ ":=" ++ env.SYSTEM_FLAG_CR_NTDS_DOMAIN ++ "))"

/-- The statements of `DsCrackNameOneName` after its `switch`: the syntactical
crack when the flag is set, the filter crack otherwise. -/
def crack_after_switch (env : Env) (recName : OneNameFn) (recFilter : OneFilterFn)
    (a : FilterArgs) (log : List SearchReq) : Option Run :=
  if a.format_flags.SYNTACTICAL_ONLY then
    let r := DsCrackNameOneSyntactical env a.format_offered a.format_desired a.name_dn a.info1
    some ⟨r.1, r.2, log⟩
  else
    (DsCrackNameOneFilter_body env recName recFilter a).map (Run.after log)

/-- Source `DsCrackNameOneName`; `recName` and `recFilter` are the recursive
calls (probing of an UNKNOWN name, fallbacks). -/
def DsCrackNameOneName_body (env : Env) (recName : OneNameFn) (recFilter : OneFilterFn)
    (format_flags : FormatFlags) (format_offered format_desired : drsuapi_DsNameFormat)
    (name : Option String) : Option Run :=
  match name with
  | none => some ⟨WERR_INVALID_PARAMETER, info1_init, []⟩
  | some name =>
    if format_desired = UNKNOWN then some ⟨WERR_OK, info1_init, []⟩
    else
      let args (name_dn domain_filter result_filter : Option String) (scope : ldb_scope)
          (search_dn : Option String) : FilterArgs :=
        ⟨format_flags, format_offered, format_desired, name_dn, name, domain_filter,
          result_filter, info1_init, scope, search_dn⟩
      let ends (status : drsuapi_DsNameStatus) : Option Run :=
        some ⟨WERR_OK, { info1_init with status := status }, []⟩
      let fails (werr : WERROR) : Option Run := some ⟨werr, info1_init, []⟩
      match format_offered with
      | UNKNOWN =>
        probe_loop (fun f => recName format_flags f format_desired (some name)) probe_formats
          ⟨WERR_OK, info1_init, []⟩
      | CANONICAL | CANONICAL_EX =>
        if name.length = 0 then ends RESOLVE_ERROR
        else
          let str : Option String :=
            if format_offered = CANONICAL_EX then strrchr_replace name '\n' '/' else some name
          match str with
          | none => ends RESOLVE_ERROR
          | some str =>
            match strchr_split str '/' with
            | none => ends RESOLVE_ERROR
            | some (str, account) =>
              let domain_filter :=
                canonical_domain_filter env (env.ldb_binary_encode_string str)
              if account.length ≠ 0 then
                let p := get_format_functional_filtering_param env account info1_init
                  domain_filter
                if p.werr ≠ WERR_OK then some ⟨p.werr, p.info1, p.log⟩
                else if p.info1.status ≠ RESOLVE_ERROR then some ⟨WERR_OK, p.info1, p.log⟩
                else
                  crack_after_switch env recName recFilter
                    { args none (some domain_filter) p.result_filter LDB_SCOPE_ONELEVEL
                        p.search_dn with info1 := p.info1 } p.log
              else
                crack_after_switch env recName recFilter
                  (args none (some domain_filter) none LDB_SCOPE_ONELEVEL none) []
      | NT4_ACCOUNT =>
        match strchr_split name '\\' with
        | none => ends NOT_FOUND
        | some (domain, rest) =>
          let domain_filter := nt4_domain_filter env (env.ldb_binary_encode_string domain)
          let result_filter : Option String :=
            if rest.length ≠ 0 then
              some ("(sAMAccountName=" ++ env.ldb_binary_encode_string rest ++ ")")
            else none
          crack_after_switch env recName recFilter
            (args none (some domain_filter) result_filter LDB_SCOPE_SUBTREE none) []
      | FQDN_1779 =>
        if ¬ env.ldb_dn_validate name then ends NOT_FOUND
        else
          crack_after_switch env recName recFilter
            (args (some name) none none LDB_SCOPE_SUBTREE none) []
      | .GUID =>
        match env.GUID_from_string name with
        | none => ends NOT_FOUND
        | some guid =>
          match env.ldap_encode_ndr_GUID guid with
          | none => fails WERR_NOT_ENOUGH_MEMORY
          | some ldap_guid =>
            crack_after_switch env recName recFilter
              (args none none (some ("(objectGUID=" ++ ldap_guid ++ ")")) LDB_SCOPE_SUBTREE
                none) []
      | DISPLAY =>
        let name_encoded := env.ldb_binary_encode_string name
        crack_after_switch env recName recFilter
          (args none none
            (some ("(|(displayName=" ++ name_encoded ++ ")(samAccountName=" ++ name_encoded
              ++ "))")) LDB_SCOPE_SUBTREE none) []
      | SID_OR_SID_HISTORY =>
        match env.dom_sid_parse_talloc name with
        | none => ends NOT_FOUND
        | some sid =>
          match env.ldap_encode_ndr_dom_sid sid with
          | none => fails WERR_NOT_ENOUGH_MEMORY
          | some ldap_sid =>
            crack_after_switch env recName recFilter
              (args none none (some ("(objectSid=" ++ ldap_sid ++ ")")) LDB_SCOPE_SUBTREE none)
              []
      | USER_PRINCIPAL =>
        if ¬ env.smb_krb5_init_context then fails WERR_NOT_ENOUGH_MEMORY
        else
          match env.krb5_parse_name_flags ParseFlags.NONE name with
          | none => ends NOT_FOUND
          | some principal =>
            match env.krb5_unparse_name_flags false true principal with
            | none => fails WERR_NOT_ENOUGH_MEMORY
            | some unparsed_name =>
              crack_after_switch env recName recFilter
                (args none none
                  (some ("(&(userPrincipalName=" ++ env.ldb_binary_encode_string unparsed_name
                    ++ ")(objectClass=user))")) LDB_SCOPE_SUBTREE none) []
      | SERVICE_PRINCIPAL =>
        if ¬ env.smb_krb5_init_context then fails WERR_NOT_ENOUGH_MEMORY
        else
          let too_short : Bool :=
            match env.krb5_parse_name_flags ParseFlags.NONE name with
            | some principal => decide (principal.components.length < 2)
            | none => false
          if too_short then ends NOT_FOUND
          else
            match env.krb5_parse_name_flags ParseFlags.NO_REALM name with
            | none =>
              let r := dns_domain_from_principal env name info1_init
              some ⟨r.1, r.2, []⟩
            | some principal =>
              match env.krb5_unparse_name_flags true false principal with
              | none => fails WERR_NOT_ENOUGH_MEMORY
              | some unparsed_name_short =>
                let unparsed_name_short_encoded :=
                  env.ldb_binary_encode_string unparsed_name_short
                let component0 : Option String :=
                  if principal.components.length = 2 then principal.components[0]? else none
                let principal_is_host : Bool :=
                  match component0 with
                  | some component => strcasecmp_eq component "host"
                  | none => false
                if principal_is_host then
                  match principal.components[1]? with
                  | none => fails WERR_INTERNAL_ERROR
                  | some component =>
                    let computer_name := String.mk (takeUntilChar '.' component.data)
                    crack_after_switch env recName recFilter
                      (args none none
                        (some ("(|(&(servicePrincipalName=" ++ unparsed_name_short_encoded
                          ++ ")(objectClass=user))(&(cn="
                          ++ env.ldb_binary_encode_string computer_name
                          ++ ")(objectClass=computer)))")) LDB_SCOPE_SUBTREE none) []
                else
                  crack_after_switch env recName recFilter
                    (args none none
                      (some ("(&(servicePrincipalName=" ++ unparsed_name_short_encoded
                        ++ ")(objectClass=user))")) LDB_SCOPE_SUBTREE none) []
      | DNS_DOMAIN => ends NOT_FOUND

/-- The two entry points of the engine at a given fuel. -/
structure CrackFns where
  oneName : OneNameFn
  oneFilter : OneFilterFn

/-- The engine with its recursion bounded by the fuel: no fuel, no answer. -/
def crackFuel (env : Env) : Nat → CrackFns
  | 0 => ⟨fun _ _ _ _ => none, fun _ => none⟩
  | n + 1 =>
    ⟨DsCrackNameOneName_body env (crackFuel env n).oneName (crackFuel env n).oneFilter,
      DsCrackNameOneFilter_body env (crackFuel env n).oneName (crackFuel env n).oneFilter⟩

/-- Source `DsCrackNameOneName`, at fuel `fuel`. -/
def DsCrackNameOneName (env : Env) (fuel : Nat) (format_flags : FormatFlags)
    (format_offered format_desired : drsuapi_DsNameFormat) (name : Option String) :
    Option Run :=
  (crackFuel env fuel).oneName format_flags format_offered format_desired name

/-- Source `DsCrackNameOneFilter`, at fuel `fuel`. -/
def DsCrackNameOneFilter (env : Env) (fuel : Nat) (a : FilterArgs) : Option Run :=
  (crackFuel env fuel).oneFilter a

/-- The NTSTATUS values returned by the typed wrappers; `werror_to_ntstatus`
stands for the conversion of a hard result of the engine. -/
inductive NTSTATUS
  | NT_STATUS_OK
  | NT_STATUS_NO_SUCH_USER
  | NT_STATUS_UNSUCCESSFUL
  | NT_STATUS_NO_MEMORY
  | NT_STATUS_INVALID_PARAMETER
  | werror_to_ntstatus (werr : WERROR)
  deriving DecidableEq, Repr

/-- The outcome of `crack_name_to_nt4_name`: result code, the two output
strings as far as they were assigned, and the searches issued. -/
structure Nt4Name where
  status : NTSTATUS
  nt4_domain : Option String
  nt4_account : Option String
  log : List SearchReq
  deriving DecidableEq, Repr

/-- The test `!name || !*name`. -/
def is_anonymous (name : Option String) : Bool :=
  match name with
  | none => true
  | some n => decide (n.length = 0)

/-- Source `crack_name_to_nt4_name`. -/
def crack_name_to_nt4_name (env : Env) (fuel : Nat) (format_offered : drsuapi_DsNameFormat)
    (name : Option String) : Option Nt4Name :=
  if is_anonymous name then some ⟨NTSTATUS.NT_STATUS_OK, some "", some "", []⟩
  else
    match DsCrackNameOneName env fuel ⟨false, false⟩ format_offered NT4_ACCOUNT name with
    | none => none
    | some r =>
      if r.werr ≠ WERR_OK then some ⟨NTSTATUS.werror_to_ntstatus r.werr, none, none, r.log⟩
      else match r.info1.status with
        | OK =>
          match r.info1.result_name with
          | none => some ⟨NTSTATUS.NT_STATUS_NO_MEMORY, none, none, r.log⟩
          | some result_name =>
            match strchr_split result_name '\\' with
            | none => some ⟨NTSTATUS.NT_STATUS_INVALID_PARAMETER, some result_name, none, r.log⟩
            | some (domain, account) =>
              some ⟨NTSTATUS.NT_STATUS_OK, some domain, some account, r.log⟩
        | NOT_FOUND => some ⟨NTSTATUS.NT_STATUS_NO_SUCH_USER, none, none, r.log⟩
        | DOMAIN_ONLY => some ⟨NTSTATUS.NT_STATUS_NO_SUCH_USER, none, none, r.log⟩
        | NOT_UNIQUE => some ⟨NTSTATUS.NT_STATUS_NO_SUCH_USER, none, none, r.log⟩
        | _ => some ⟨NTSTATUS.NT_STATUS_UNSUCCESSFUL, none, none, r.log⟩

/-- Does the character occur in the string (`strchr_m(name, c) != NULL`). -/
def strchr_m (name : String) (c : Char) : Bool :=
  name.data.contains c

/-- Source `crack_auto_name_to_nt4_name`. -/
def crack_auto_name_to_nt4_name (env : Env) (fuel : Nat) (name : Option String) :
    Option Nt4Name :=
  match name with
  | none => some ⟨NTSTATUS.NT_STATUS_OK, some "", some "", []⟩
  | some n =>
    if n.length = 0 then some ⟨NTSTATUS.NT_STATUS_OK, some "", some "", []⟩
    else if strchr_m n '=' then crack_name_to_nt4_name env fuel FQDN_1779 name
    else if strchr_m n '@' then crack_name_to_nt4_name env fuel USER_PRINCIPAL name
    else if strchr_m n '\\' then crack_name_to_nt4_name env fuel NT4_ACCOUNT name
    else if strchr_m n '\n' then crack_name_to_nt4_name env fuel CANONICAL_EX name
    else if strchr_m n '/' then crack_name_to_nt4_name env fuel CANONICAL name
    else if (n.data[0]? = some 'S' ∨ n.data[0]? = some 's') ∧ n.data[1]? = some '-' then
      crack_name_to_nt4_name env fuel SID_OR_SID_HISTORY name
    else some ⟨NTSTATUS.NT_STATUS_NO_SUCH_USER, none, none, []⟩

/-! ## Reference collaborators

Concrete stand-ins for the libraries around the engine, used to run it on
example directories: the ldb filter escaping, a DN parser and canonical
renderer for DNs without escaped characters, and a Kerberos name parser for
names without backslash escapes. -/

/-- One hexadecimal digit, upper case. -/
def hexDigit (n : Nat) : Char :=
  if n < 10 then Char.ofNat (48 + n) else Char.ofNat (55 + n)

/-- The UTF-8 bytes of a character. -/
def utf8Bytes (c : Char) : List Nat :=
  let n := c.toNat
  if n < 128 then [n]
  else if n < 2048 then [192 + n / 64, 128 + n % 64]
  else if n < 65536 then [224 + n / 4096, 128 + (n / 64) % 64, 128 + n % 64]
  else [240 + n / 262144, 128 + (n / 4096) % 64, 128 + (n / 64) % 64, 128 + n % 64]

/-- The characters ldb escapes in a filter value: controls, non-ASCII bytes
and the filter metacharacters. -/
def ref_need_encode (c : Char) : Bool :=
  decide (c.toNat < 32) || decide (c.toNat > 126) || " *()\\&|!\"".data.contains c

/-- The filter escaping of ldb: every byte that needs it becomes a backslash
and two hexadecimal digits. -/
def ref_binary_encode (s : String) : String :=
  String.mk (s.data.flatMap (fun c =>
    if ref_need_encode c then
      (utf8Bytes c).flatMap (fun b => ['\\', hexDigit (b / 16), hexDigit (b % 16)])
    else [c]))

/-- The components of a DN without escapes, as (attribute, value) pairs;
`none` when a component has no `=`.  The empty DN has no component. -/
def ref_dn_components (dn : String) : Option (List (String × String)) :=
  if dn.length = 0 then some []
  else (splitAllChar ',' dn.data).mapM (fun comp => strchr_split (String.mk comp) '=')

/-- A DN is valid when it splits into components. -/
def ref_dn_validate (dn : String) : Bool :=
  (ref_dn_components dn).isSome

/-- The trailing `DC` components of a reversed component list joined with
dots, and the remaining components (still reversed). -/
def ref_take_dcs : List (String × String) → Option String → Option String × List (String × String)
  | [], acc => (acc, [])
  | (attr, val) :: rest, acc =>
    if strcasecmp_eq attr "dc" then
      ref_take_dcs rest (some (match acc with
        | none => val
        | some cracked => val ++ "." ++ cracked))
    else (acc, (attr, val) :: rest)

/-- The remaining components of the canonical name: all but the last joined
with `/`, the last one after the separator `sep`. -/
def ref_canonical_tail (sep : String) : List (String × String) → String
  | [] => sep
  | [(_, val)] => sep ++ val
  | (_, val) :: rest => "/" ++ val ++ ref_canonical_tail sep rest

/-- The canonical rendering of a DN, the leaf introduced by `sep`. -/
def ref_dn_canonical (sep : String) (dn : String) : Option String :=
  match ref_dn_components dn with
  | none => none
  | some comps =>
    match ref_take_dcs comps.reverse none with
    | (cracked, rest) => some (cracked.getD "" ++ ref_canonical_tail sep rest)

/-- The realm used for a principal written without one. -/
def ref_default_realm : String := "EXAMPLE.COM"

/-- A Kerberos name parser for names without backslash escapes: the realm is
what follows the first `@`, the components are separated by `/`. -/
def ref_krb5_parse (flags : ParseFlags) (name : String) : Option krb5_principal :=
  match strchr_split name '@' with
  | none =>
    if flags = ParseFlags.REQUIRE_REALM then none
    else some ⟨path_segments name, if flags = ParseFlags.NO_REALM then "" else ref_default_realm⟩
  | some (comps, realm) =>
    if flags = ParseFlags.NO_REALM then none
    else some ⟨path_segments comps, realm⟩

/-- The rendering of a principal without escaping. -/
def ref_krb5_unparse (no_realm : Bool) (_display : Bool) (p : krb5_principal) : Option String :=
  let short := String.intercalate "/" p.components
  some (if no_realm then short else short ++ "@" ++ p.realm)

/-- The value of attribute `attr` of a message read as a DN. -/
def ref_result_dn (msg : ldb_message) (attr : String) : Option String :=
  (ldb_msg_find_attr_as_string msg attr).filter ref_dn_validate

/-- Does attribute `name` of the message hold `value`. -/
def ref_find_attribute (msg : ldb_message) (name value : String) : Bool :=
  match ldb_msg_find_element msg name with
  | none => false
  | some el => el.values.any (fun v => strcasecmp_eq v value)

/-- One row of an example directory: the searches with this base, scope and
filter are answered with this result. -/
structure DirRow where
  base : Option String
  scope : ldb_scope
  filter : Option String
  res : SearchRes
  deriving DecidableEq, Repr

/-- The directory given by a table of answers; a search not in the table
succeeds without a hit. -/
def tableSearch (rows : List DirRow) (req : SearchReq) : SearchRes :=
  match rows.find? (fun row =>
    decide (row.base = req.base) && decide (row.scope = req.scope)
      && decide (row.filter = req.filter)) with
  | some row => row.res
  | none => ⟨0, []⟩

/-- The reference collaborators around the directory given by `rows`; SIDs and
GUIDs are not parsed. -/
def refEnv (rows : List DirRow) : Env where
  search := tableSearch rows
  samdb_partitions_dn := some "CN=Partitions,CN=Configuration,DC=example,DC=com"
  ldb_get_config_basedn := some "CN=Configuration,DC=example,DC=com"
  ldb_get_default_basedn := some "DC=example,DC=com"
  ldb_binary_encode_string := ref_binary_encode
  ldb_dn_validate := ref_dn_validate
  ldb_dn_canonical_string := ref_dn_canonical "/"
  ldb_dn_canonical_ex_string := ref_dn_canonical "\n"
  samdb_result_dn := ref_result_dn
  samdb_find_attribute := ref_find_attribute
  strcasecmp_m_eq := strcasecmp_eq
  krb5_parse_name_flags := ref_krb5_parse
  krb5_unparse_name_flags := ref_krb5_unparse
  GUID_from_string := fun _ => none
  ldap_encode_ndr_GUID := fun _ => none
  samdb_result_guid := fun _ _ => ⟨0⟩
  GUID_string2 := fun _ => "00000000-0000-0000-0000-000000000000"
  dom_sid_parse_talloc := fun _ => none
  ldap_encode_ndr_dom_sid := fun _ => none
  samdb_result_dom_sid := fun _ _ => none
  dom_sid_in_domain := fun _ _ => false
  dom_sid_string := fun _ => "S-0-0"
  LDB_OID_COMPARATOR_AND := "1.2.840.113556.1.4.803"
  SYSTEM_FLAG_CR_NTDS_DOMAIN := "2"
  SID_BUILTIN := "S-1-5-32"
  smb_krb5_init_context := true

/-! ## Example directories and the searches named in the statements -/

/-- No flag set (`format_flags` 0). -/
def noFlags : FormatFlags := ⟨false, false⟩

/-- The user object of the examples, as returned without attributes. -/
def msgAdministrator : ldb_message :=
  ⟨"CN=Administrator,CN=Users,DC=example,DC=com", []⟩

/-- A directory in which exactly one object has the display or account name
`Administrator`. -/
def dirDisplayAdmin : Env :=
  refEnv [⟨some "DC=example,DC=com", LDB_SCOPE_SUBTREE,
    some "(|(displayName=Administrator)(samAccountName=Administrator))", ⟨0, [msgAdministrator]⟩⟩]


/-- The search issued by the user principal probe of `Administrator`. -/
def reqUpnAdministrator : SearchReq :=
  ⟨SearchApi.dsdb_search, some "DC=example,DC=com", LDB_SCOPE_SUBTREE, [], noDsdbFlags,
    some "(&(userPrincipalName=Administrator@EXAMPLE.COM)(objectClass=user))"⟩

/-- The search issued by the display name probe of `Administrator`. -/
def reqDisplayAdministrator : SearchReq :=
  ⟨SearchApi.dsdb_search, some "DC=example,DC=com", LDB_SCOPE_SUBTREE, [], noDsdbFlags,
    some "(|(displayName=Administrator)(samAccountName=Administrator))"⟩

/-- A run that ends with status `status`, no names set, after the searches
`log`. -/
def runStatus (status : drsuapi_DsNameStatus) (log : List SearchReq) : Run :=
  ⟨WERR_OK, ⟨status, none, none⟩, log⟩

/-- The result record of a successful crack of the example user to its DN. -/
def infoAdministratorDn : drsuapi_DsNameInfo1 :=
  ⟨OK, some "example.com", some "CN=Administrator,CN=Users,DC=example,DC=com"⟩


/-- The crossRef of the domain `example.com`. -/
def crossRefExample : ldb_message :=
  ⟨"CN=EXAMPLE,CN=Partitions,CN=Configuration,DC=example,DC=com",
    [⟨"ncName", ["DC=example,DC=com"]⟩, ⟨"dnsRoot", ["example.com"]⟩,
      ⟨"nETBIOSName", ["EXAMPLE"]⟩]⟩

/-- The partitions container of the examples. -/
def partitionsDn : Option String :=
  some "CN=Partitions,CN=Configuration,DC=example,DC=com"

/-- The crossRef filter for the DNS root `example.com`. -/
def filterDnsRootExample : String :=
  "(&(objectClass=crossRef)(dnsRoot=example.com)(systemFlags:1.2.840.113556.1.4.803:=2))"

/-- The object `Admin` of the domain `example.com`. -/
def msgAdminExample : ldb_message :=
  ⟨"CN=Admin,DC=example,DC=com", []⟩

/-- The object `Admin` of the domain `other.com`. -/
def msgAdminOther : ldb_message :=
  ⟨"CN=Admin,DC=other,DC=com", []⟩

/-- A forest in which the search over all partitions for the name `Admin`
finds one object in each of two domains. -/
def dirTwoAdmins : Env :=
  refEnv [⟨partitionsDn, LDB_SCOPE_ONELEVEL, some filterDnsRootExample, ⟨0, [crossRefExample]⟩⟩,
    ⟨none, LDB_SCOPE_ONELEVEL, some "(name=Admin)", ⟨0, [msgAdminOther, msgAdminExample]⟩⟩]

/-- The flag GCVERIFY alone. -/
def gcVerify : FormatFlags := ⟨false, true⟩

/-- The arguments with which `DsCrackNameOneName` calls the filter crack for
the canonical name `example.com/Admin` with GCVERIFY and desired DN. -/
def argsTwoAdmins : FilterArgs :=
  ⟨gcVerify, CANONICAL, FQDN_1779, none, "example.com/Admin", some filterDnsRootExample,
    some "(name=Admin)", info1_init, LDB_SCOPE_ONELEVEL, none⟩

/-- The crossRef search of the path walk for `example.com`. -/
def reqCrossRefWalk : SearchReq :=
  ⟨SearchApi.ldb_search, partitionsDn, LDB_SCOPE_ONELEVEL, ["ncName"], noDsdbFlags,
    some filterDnsRootExample⟩

/-- The crossRef search of the domain stage for `example.com`, desired DN. -/
def reqCrossRefStage : SearchReq :=
  ⟨SearchApi.ldb_search, partitionsDn, LDB_SCOPE_ONELEVEL, ["ncName", "dnsRoot"], noDsdbFlags,
    some filterDnsRootExample⟩

/-- The search for the leaf `Admin` over all partitions. -/
def reqAdminAll : SearchReq :=
  ⟨SearchApi.dsdb_search, none, LDB_SCOPE_ONELEVEL, [], ⟨true, false⟩, some "(name=Admin)"⟩


/-- The crossRef search of the domain stage for the NetBIOS name `domain`
offered as NT4 account name, with the domain attributes of the desired
format. -/
def reqNt4CrossRef (env : Env) (format_desired : drsuapi_DsNameFormat) (domain : String) :
    SearchReq :=
  ldbSearchReq env.samdb_partitions_dn LDB_SCOPE_ONELEVEL (filter_attrs format_desired).1
    (nt4_domain_filter env (env.ldb_binary_encode_string domain))

/-- The fetch of the naming context object of a crossRef, with the result
attributes of the desired format. -/
def reqNcObject (env : Env) (format_desired : drsuapi_DsNameFormat) (crossRef : ldb_message) :
    SearchReq :=
  gendbSearchDnReq (env.samdb_result_dn crossRef "ncName") (filter_attrs format_desired).2


/-- The partitions container search of the domain stage of
`DsCrackNameOneFilter` for the domain filter `domain_filter`. -/
def reqDomainStage (env : Env) (format_desired : drsuapi_DsNameFormat) (domain_filter : String) :
    SearchReq :=
  ldbSearchReq env.samdb_partitions_dn LDB_SCOPE_ONELEVEL (filter_attrs format_desired).1
    domain_filter


/-- The naming context object of `example.com`, as returned without
attributes. -/
def msgDomainExample : ldb_message :=
  ⟨"DC=example,DC=com", []⟩

/-- A directory with one crossRef for the NetBIOS name `EXAMPLE`, whose naming
context object exists. -/
def dirExampleDomain : Env :=
  refEnv [⟨partitionsDn, LDB_SCOPE_ONELEVEL,
      some "(&(objectClass=crossRef)(netbiosName=EXAMPLE)(systemFlags:1.2.840.113556.1.4.803:=2))",
      ⟨0, [crossRefExample]⟩⟩,
    ⟨some "DC=example,DC=com", LDB_SCOPE_BASE, none, ⟨0, [msgDomainExample]⟩⟩]

/-- The object holding the alias table of the examples. -/
def spnServiceDn : String :=
  "CN=Directory Service,CN=Windows NT,CN=Services,CN=Configuration,DC=example,DC=com"

/-- The computer object carrying the SPN `host/host.example.com`. -/
def msgHost : ldb_message :=
  ⟨"CN=HOST,CN=Computers,DC=example,DC=com", []⟩

/-- The result filter built for the principal `host/host.example.com`. -/
def filterHostSpn : String :=
  "(|(&(servicePrincipalName=host/host.example.com)(objectClass=user))(&(cn=host)(objectClass=computer)))"

/-- The result filter built for the principal `cifs/host.example.com`. -/
def filterCifsSpn : String :=
  "(&(servicePrincipalName=cifs/host.example.com)(objectClass=user))"

/-- A directory in which no object carries the SPN `cifs/host.example.com`,
one object carries `host/host.example.com`, and `sPNMappings` holds the single
value `mapping`. -/
def dirSpnAlias (mapping : String) : Env :=
  refEnv [⟨some spnServiceDn, LDB_SCOPE_BASE, some "(objectClass=nTDSService)",
      ⟨0, [⟨spnServiceDn, [⟨"sPNMappings", [mapping]⟩]⟩]⟩⟩,
    ⟨some "DC=example,DC=com", LDB_SCOPE_SUBTREE, some filterHostSpn, ⟨0, [msgHost]⟩⟩]

/-- The result search for `cifs/host.example.com` with desired DN. -/
def reqCifsSpn : SearchReq :=
  ⟨SearchApi.dsdb_search, some "DC=example,DC=com", LDB_SCOPE_SUBTREE, [], noDsdbFlags,
    some filterCifsSpn⟩

/-- The result search for `host/host.example.com` with desired DN. -/
def reqHostSpn : SearchReq :=
  ⟨SearchApi.dsdb_search, some "DC=example,DC=com", LDB_SCOPE_SUBTREE, [], noDsdbFlags,
    some filterHostSpn⟩

/-- The read of the alias table. -/
def reqSpnMappings : SearchReq :=
  ldbSearchReq (some spnServiceDn) LDB_SCOPE_BASE ["sPNMappings"] "(objectClass=nTDSService)"


/-- The result search for the service principal filter `filter` below the
default base DN, with desired DN and no flag. -/
def reqSpnSearch (env : Env) (filter : String) : SearchReq :=
  ⟨SearchApi.dsdb_search, env.ldb_get_default_basedn, LDB_SCOPE_SUBTREE, [], noDsdbFlags,
    some filter⟩

/-- The read of `sPNMappings` below the configuration NC `cfg`. -/
def reqSpnMappingsOf (cfg : String) : SearchReq :=
  ldbSearchReq (some ("CN=Directory Service,CN=Windows NT,CN=Services," ++ cfg)) LDB_SCOPE_BASE
    ["sPNMappings"] "(objectClass=nTDSService)"


/-- The DN of the example user. -/
def dnAdministrator : String :=
  "CN=Administrator,CN=Users,DC=example,DC=com"

/-- A directory whose answer for the example user carries no `canonicalName`
attribute. -/
def dirNoCanonicalName : Env :=
  refEnv [⟨some dnAdministrator, LDB_SCOPE_BASE, none, ⟨0, [msgAdministrator]⟩⟩]

/-- The fetch of the example user for the desired format Canonical. -/
def reqFetchAdministratorCanonical : SearchReq :=
  gendbSearchDnReq (some dnAdministrator) ["canonicalName"]

/-- A directory with the crossRef of `example.com` and nothing else. -/
def dirCrossRefOnly : Env :=
  refEnv [⟨partitionsDn, LDB_SCOPE_ONELEVEL, some filterDnsRootExample, ⟨0, [crossRefExample]⟩⟩]

/-- The child search the path walk issues for the segment `*` below the
naming context of `example.com`. -/
def reqWalkStar : SearchReq :=
  ldbSearchReq (some "DC=example,DC=com") LDB_SCOPE_ONELEVEL ["name"] "name=*"

/-- A directory whose root object (the empty DN) can be fetched. -/
def dirRootDse : Env :=
  refEnv [⟨some "", LDB_SCOPE_BASE, none, ⟨0, [⟨"", []⟩]⟩⟩]

/-- The fetch of the empty DN for the desired format DN. -/
def reqFetchRoot : SearchReq :=
  gendbSearchDnReq (some "") []


/-- The invariant of the result record: a run without hard failure and with
status Ok carries a result name. -/
def Run.named_if_ok (r : Run) : Prop :=
  r.werr = WERR_OK → r.info1.status = OK → r.info1.result_name.isSome = true


/-- The crossRef search of `DsCrackNameUPN` for the realm `realm`. -/
def reqUpnRealm (env : Env) (realm : String) : SearchReq :=
  ldbSearchReq env.samdb_partitions_dn LDB_SCOPE_ONELEVEL []
    (upn_domain_filter env (env.ldb_binary_encode_string realm))

/-- The search for the account name `short` as `samAccountName` in the subtree
of `base`, with the result attributes of the desired format. -/
def reqSamAccount (env : Env) (format_desired : drsuapi_DsNameFormat) (base : Option String)
    (short : String) : SearchReq :=
  ⟨SearchApi.dsdb_search, base, LDB_SCOPE_SUBTREE, (filter_attrs format_desired).2, noDsdbFlags,
    some ("(&(samAccountName=" ++ env.ldb_binary_encode_string short ++ ")(objectClass=user))")⟩


/-- The result filter built for the user principal `alice@EXAMPLE.COM`. -/
def filterAliceUpn : String :=
  "(&(userPrincipalName=alice@EXAMPLE.COM)(objectClass=user))"

/-- The crossRef filter built by `DsCrackNameUPN` for the realm `EXAMPLE.COM`. -/
def filterRealmExample : String :=
  "(&(objectClass=crossRef)(|(dnsRoot=EXAMPLE.COM)(netbiosName=EXAMPLE.COM))(systemFlags:1.2.840.113556.1.4.803:=2))"

/-- The domain filter naming the crossRef of `example.com` by its DN. -/
def filterCrossRefDn : String :=
  "(distinguishedName=CN=EXAMPLE,CN=Partitions,CN=Configuration,DC=example,DC=com)"

/-- The user object with the account name `alice`. -/
def msgAlice : ldb_message :=
  ⟨"CN=alice,CN=Users,DC=example,DC=com", []⟩

/-- A directory in which no object carries the user principal name
`alice@EXAMPLE.COM`, the realm `EXAMPLE.COM` matches the crossRef of
`example.com`, and the account `alice` exists in that domain. -/
def dirUpnAlice : Env :=
  refEnv [⟨partitionsDn, LDB_SCOPE_ONELEVEL, some filterRealmExample, ⟨0, [crossRefExample]⟩⟩,
    ⟨partitionsDn, LDB_SCOPE_ONELEVEL, some filterCrossRefDn, ⟨0, [crossRefExample]⟩⟩,
    ⟨some "DC=example,DC=com", LDB_SCOPE_SUBTREE,
      some "(&(samAccountName=alice)(objectClass=user))", ⟨0, [msgAlice]⟩⟩]

/-- The result search for the user principal `alice@EXAMPLE.COM`. -/
def reqAliceUpn : SearchReq :=
  ⟨SearchApi.dsdb_search, some "DC=example,DC=com", LDB_SCOPE_SUBTREE, [], noDsdbFlags,
    some filterAliceUpn⟩

/-- The domain stage of a filter crack without domain filter, entered with the
initial result record. -/
def stageNoDomain : DomainStage :=
  ⟨⟨RESOLVE_ERROR, none, none⟩, none, []⟩

/-- The locating stage after a result search `req` without hit. -/
def stageNoHit (req : SearchReq) : LocateStage :=
  ⟨⟨NOT_FOUND, none, none⟩, some [], [req]⟩

/-- The arguments with which `DsCrackNameOneName` calls the filter crack for
the service principal `cifs/host.example.com` with desired DN and no flag. -/
def argsCifsSpn : FilterArgs :=
  ⟨noFlags, SERVICE_PRINCIPAL, FQDN_1779, none, "cifs/host.example.com", none,
    some filterCifsSpn, info1_init, LDB_SCOPE_SUBTREE, none⟩


/-! ## The typed wrappers and the batch operations -/

/-- The outcome of `crack_user_principal_name` and
`crack_service_principal_name`: result code, the strings handed to
`ldb_dn_new` for `*user_dn` and `*domain_dn` as far as they were assigned,
and the searches issued. -/
structure PrincipalDns where
  status : NTSTATUS
  user_dn : Option (Option String)
  domain_dn : Option (Option String)
  log : List SearchReq
  deriving DecidableEq, Repr

/-- The `switch (info1.status)` of the typed wrappers: `none` when the wrapper
goes on (`break`), else the NTSTATUS it returns. -/
def wrapper_status_switch (status : drsuapi_DsNameStatus) : Option NTSTATUS :=
  match status with
  | OK => none
  | NOT_FOUND => some NTSTATUS.NT_STATUS_NO_SUCH_USER
  | DOMAIN_ONLY => some NTSTATUS.NT_STATUS_NO_SUCH_USER
  | NOT_UNIQUE => some NTSTATUS.NT_STATUS_NO_SUCH_USER
  | RESOLVE_ERROR => some NTSTATUS.NT_STATUS_UNSUCCESSFUL
  | _ => some NTSTATUS.NT_STATUS_UNSUCCESSFUL

/-- The body shared by `crack_user_principal_name` and
`crack_service_principal_name`, which differ in the offered format of the
first crack only; `want_domain_dn` is the test `domain_dn != NULL`. -/
def crack_principal_name (env : Env) (fuel : Nat) (format_offered : drsuapi_DsNameFormat)
    (principal_name : Option String) (want_domain_dn : Bool) : Option PrincipalDns :=
  match DsCrackNameOneName env fuel ⟨false, false⟩ format_offered FQDN_1779 principal_name with
  | none => none
  | some r1 =>
    if r1.werr ≠ WERR_OK then some ⟨NTSTATUS.werror_to_ntstatus r1.werr, none, none, r1.log⟩
    else match wrapper_status_switch r1.info1.status with
      | some nt => some ⟨nt, none, none, r1.log⟩
      | none =>
        if want_domain_dn then
          match DsCrackNameOneName env fuel ⟨false, false⟩ CANONICAL FQDN_1779
            (some (printf_s r1.info1.dns_domain_name ++ "/")) with
          | none => none
          | some r2 =>
            if r2.werr ≠ WERR_OK then
              some ⟨NTSTATUS.werror_to_ntstatus r2.werr, some r1.info1.result_name, none,
                r1.log ++ r2.log⟩
            else match wrapper_status_switch r2.info1.status with
              | some nt => some ⟨nt, some r1.info1.result_name, none, r1.log ++ r2.log⟩
              | none =>
                some ⟨NTSTATUS.NT_STATUS_OK, some r1.info1.result_name,
                  some r2.info1.result_name, r1.log ++ r2.log⟩
        else some ⟨NTSTATUS.NT_STATUS_OK, some r1.info1.result_name, none, r1.log⟩

/-- Source `crack_user_principal_name`. -/
def crack_user_principal_name (env : Env) (fuel : Nat) (user_principal_name : Option String)
    (want_domain_dn : Bool) : Option PrincipalDns :=
  crack_principal_name env fuel USER_PRINCIPAL user_principal_name want_domain_dn

/-- Source `crack_service_principal_name`. -/
def crack_service_principal_name (env : Env) (fuel : Nat)
    (service_principal_name : Option String) (want_domain_dn : Bool) : Option PrincipalDns :=
  crack_principal_name env fuel SERVICE_PRINCIPAL service_principal_name want_domain_dn

/-- The request `struct drsuapi_DsNameRequest1`; `count` is the length of
`names`, an entry is the `str` of a name. -/
structure drsuapi_DsNameRequest1 where
  format_flags : FormatFlags
  format_offered : drsuapi_DsNameFormat
  format_desired : drsuapi_DsNameFormat
  names : List (Option String)
  deriving DecidableEq, Repr

/-- The container `struct drsuapi_DsNameCtr1`; `array` is `none` for `NULL`. -/
structure drsuapi_DsNameCtr1 where
  count : Nat
  array : Option (List drsuapi_DsNameInfo1)
  deriving DecidableEq, Repr

/-- The outcome of a batch operation: hard result, the container `*ctr1` and
the searches issued. -/
structure BatchRun where
  werr : WERROR
  ctr1 : drsuapi_DsNameCtr1
  log : List SearchReq
  deriving DecidableEq, Repr

/-- The `for` loop of `dcesrv_drsuapi_CrackNamesByNameFormat` over the names
still to crack: `names` holds the entries filled so far, `log` the searches
issued; the hard result of the first crack that fails ends the loop. -/
def crack_names_loop (call : Option String → Option Run) :
    List (Option String) → List drsuapi_DsNameInfo1 → List SearchReq →
      Option (WERROR × List drsuapi_DsNameInfo1 × List SearchReq)
  | [], names, log => some (WERR_OK, names, log)
  | str :: rest, names, log =>
    match call str with
    | none => none
    | some r =>
      if r.werr ≠ WERR_OK then some (r.werr, names, log ++ r.log)
      else crack_names_loop call rest (names ++ [r.info1]) (log ++ r.log)

/-- Source `dcesrv_drsuapi_CrackNamesByNameFormat`: `*ctr1` is zeroed at the
start and filled after the loop. -/
def dcesrv_drsuapi_CrackNamesByNameFormat (env : Env) (fuel : Nat)
    (req1 : drsuapi_DsNameRequest1) : Option BatchRun :=
  match crack_names_loop (DsCrackNameOneName env fuel req1.format_flags req1.format_offered
      req1.format_desired) req1.names [] [] with
  | none => none
  | some (status, names, log) =>
    if status ≠ WERR_OK then some ⟨status, ⟨0, none⟩, log⟩
    else some ⟨WERR_OK, ⟨req1.names.length, some names⟩, log⟩

/-- The collaborators of `dcesrv_drsuapi_ListRoles`: the lookup of a role (hard
result, DN of the role object, DN of the role owner), the removal of the
first component of a DN, and the DNS host name of a server object. -/
structure RolesEnv where
  dsdb_get_fsmo_role_info : Nat → WERROR × String × String
  ldb_dn_remove_child_component : String → String
  samdb_dn_to_dnshostname : String → Option String

/-- The `for` loop of `dcesrv_drsuapi_ListRoles` over the roles still to look
up, `names` holding the entries filled so far. -/
def list_roles_loop (renv : RolesEnv) :
    List Nat → List drsuapi_DsNameInfo1 → WERROR × List drsuapi_DsNameInfo1
  | [], names => (WERR_OK, names)
  | i :: rest, names =>
    match renv.dsdb_get_fsmo_role_info i with
    | (werr, _, role_owner_dn) =>
      if werr ≠ WERR_OK then (werr, names)
      else
        let server_dn := renv.ldb_dn_remove_child_component role_owner_dn
        list_roles_loop renv rest
          (names ++ [⟨OK, renv.samdb_dn_to_dnshostname server_dn, some role_owner_dn⟩])

/-- Source `dcesrv_drsuapi_ListRoles`; the container is `none` when the
function returns before filling it (its memory is not initialised then). -/
def dcesrv_drsuapi_ListRoles (renv : RolesEnv) (_req1 : drsuapi_DsNameRequest1) :
    WERROR × Option drsuapi_DsNameCtr1 :=
  match list_roles_loop renv (List.range 5) [] with
  | (werr, names) =>
    if werr ≠ WERR_OK then (werr, none)
    else (WERR_OK, some ⟨5, some names⟩)

/-- The attribute list `NULL` of a search: all attributes. -/
def attrs_all : List String := ["*"]

/-- The search of `dcesrv_drsuapi_ListInfoServer` for the nTDSDSA children of
the server object. -/
def reqServerDsa (server_dn : String) : SearchReq :=
  ldbSearchReq (some server_dn) LDB_SCOPE_ONELEVEL attrs_all "(objectClass=nTDSDSA)"

/-- The fetch of the server object by `dcesrv_drsuapi_ListInfoServer`. -/
def reqServerObject (server_dn : String) : SearchReq :=
  ldbSearchReq (some server_dn) LDB_SCOPE_BASE ["dNSHostName", "serverReference"]
    "(objectClass=*)"

/-- An entry that was not resolved. -/
def entryNotFound : drsuapi_DsNameInfo1 :=
  ⟨NOT_FOUND, none, none⟩

/-- An entry set from a value that may be absent: Ok with the value, else not
resolved. -/
def entryOfValue (value : Option String) : drsuapi_DsNameInfo1 :=
  match value with
  | some v => ⟨OK, none, some v⟩
  | none => entryNotFound

/-- Source `dcesrv_drsuapi_ListInfoServer`; `ldb_msg_find_attr_as_dn` reads an
attribute of a message as a DN (linearized). -/
def dcesrv_drsuapi_ListInfoServer (env : Env)
    (ldb_msg_find_attr_as_dn : ldb_message → String → Option String)
    (req1 : drsuapi_DsNameRequest1) : BatchRun :=
  let unresolved : List drsuapi_DsNameInfo1 := [entryNotFound, entryNotFound, entryNotFound]
  match req1.names with
  | [none] => ⟨WERR_OK, ⟨3, some unresolved⟩, []⟩
  | [some str] =>
    let res := env.search (reqServerDsa str)
    if res.ret ≠ 0 then ⟨WERR_OK, ⟨3, some unresolved⟩, [reqServerDsa str]⟩
    else match res.msgs with
      | [dsa] =>
        let names0 : drsuapi_DsNameInfo1 := ⟨OK, none, some dsa.dn⟩
        let res2 := env.search (reqServerObject str)
        if res2.ret ≠ 0 then
          ⟨WERR_OK, ⟨3, some [names0, entryNotFound, entryNotFound]⟩,
            [reqServerDsa str, reqServerObject str]⟩
        else match res2.msgs with
          | [server] =>
            ⟨WERR_OK, ⟨3, some [names0,
                entryOfValue (ldb_msg_find_attr_as_string server "dNSHostName"),
                entryOfValue (ldb_msg_find_attr_as_dn server "serverReference")]⟩,
              [reqServerDsa str, reqServerObject str]⟩
          | _ =>
            ⟨WERR_OK, ⟨3, some [names0, entryNotFound, entryNotFound]⟩,
              [reqServerDsa str, reqServerObject str]⟩
      | _ => ⟨WERR_OK, ⟨3, some unresolved⟩, [reqServerDsa str]⟩
  | _ => ⟨WERR_OK, ⟨3, some unresolved⟩, []⟩


/-- The search issued by the display name crack of `Nobody`. -/
def reqDisplayNobody : SearchReq :=
  ⟨SearchApi.dsdb_search, some "DC=example,DC=com", LDB_SCOPE_SUBTREE, [], noDsdbFlags,
    some "(|(displayName=Nobody)(samAccountName=Nobody))"⟩

/-- The run of the display name crack of `Administrator` in `dirDisplayAdmin`. -/
def runAdministrator : Run :=
  ⟨WERR_OK, infoAdministratorDn, [reqDisplayAdministrator]⟩

/-- A request offering display names with desired DN and no flag. -/
def reqDisplayNames (names : List (Option String)) : drsuapi_DsNameRequest1 :=
  ⟨noFlags, DISPLAY, FQDN_1779, names⟩


/-- The entry `dcesrv_drsuapi_ListRoles` writes for role `i`. -/
def roleEntry (renv : RolesEnv) (i : Nat) : drsuapi_DsNameInfo1 :=
  ⟨OK, renv.samdb_dn_to_dnshostname
      (renv.ldb_dn_remove_child_component (renv.dsdb_get_fsmo_role_info i).2.2),
    some (renv.dsdb_get_fsmo_role_info i).2.2⟩

/-- What follows the first `,` of a DN written without escapes. -/
def ref_remove_child (dn : String) : String :=
  match strchr_split dn ',' with
  | some (_, parent) => parent
  | none => ""

/-- The DN of the nTDSDSA object of the example server. -/
def dsaDn : String :=
  "CN=NTDS Settings,CN=DC1,CN=Servers,CN=Site,CN=Sites,CN=Configuration,DC=example,DC=com"

/-- The DN of the example server. -/
def serverDn : String :=
  "CN=DC1,CN=Servers,CN=Site,CN=Sites,CN=Configuration,DC=example,DC=com"

/-- Role collaborators in which every role is owned by the example server,
whose DNS host name cannot be found. -/
def rolesNoHostname : RolesEnv :=
  ⟨fun _ => (WERR_OK, "CN=Role", dsaDn), ref_remove_child, fun _ => none⟩

/-- Role collaborators in which the lookup of role 2 fails. -/
def rolesThirdFails : RolesEnv :=
  ⟨fun i => if i = 2 then (WERR_FOOBAR, "", "") else (WERR_OK, "CN=Role", dsaDn),
    ref_remove_child, fun _ => some "dc1.example.com"⟩

/-- The example server object with its host name and computer account. -/
def msgServer : ldb_message :=
  ⟨serverDn, [⟨"dNSHostName", ["dc1.example.com"]⟩,
    ⟨"serverReference", ["CN=DC1,OU=Domain Controllers,DC=example,DC=com"]⟩]⟩

/-- A directory holding the example server object, which has no nTDSDSA
child. -/
def dirServerNoDsa : Env :=
  refEnv [⟨some serverDn, LDB_SCOPE_BASE, some "(objectClass=*)", ⟨0, [msgServer]⟩⟩]

/-- A directory holding the example server object and its nTDSDSA child. -/
def dirServer : Env :=
  refEnv [⟨some serverDn, LDB_SCOPE_BASE, some "(objectClass=*)", ⟨0, [msgServer]⟩⟩,
    ⟨some serverDn, LDB_SCOPE_ONELEVEL, some "(objectClass=nTDSDSA)", ⟨0, [⟨dsaDn, []⟩]⟩⟩]

/-- A request naming the example server. -/
def reqExampleServer : drsuapi_DsNameRequest1 :=
  ⟨noFlags, FQDN_1779, FQDN_1779, [some serverDn]⟩


/-- The flag SYNTACTICAL_ONLY alone. -/
def syntacticalOnly : FormatFlags := ⟨true, false⟩

/-- The child search the path walk issues for the segment `Users` below the
naming context of `example.com`. -/
def reqWalkUsers : SearchReq :=
  ldbSearchReq (some "DC=example,DC=com") LDB_SCOPE_ONELEVEL ["name"] "name=Users"


/-- The arguments with which `DsCrackNameOneName` calls the filter crack for
the DN of the example user with desired DnsDomain and no flag. -/
def argsAdministratorDnsDomain : FilterArgs :=
  ⟨noFlags, FQDN_1779, DNS_DOMAIN, some dnAdministrator, dnAdministrator, none, none,
    info1_init, LDB_SCOPE_SUBTREE, none⟩

/-- The fetch of the example user without result attributes. -/
def reqFetchAdministrator : SearchReq :=
  gendbSearchDnReq (some dnAdministrator) []


/-! ### SIDs of the examples -/

/-- The SID `S-1-5-21-1-2-3-1105` of the account `alice`. -/
def sidAlice : dom_sid := ⟨1, 5, 5, [21, 1, 2, 3, 1105]⟩

/-- The SID `S-1-5-32` of the builtin domain. -/
def sidBuiltinDomain : dom_sid := ⟨1, 1, 5, [32]⟩

/-- The SID `S-1-5-32-544` of the builtin group `Administrators`. -/
def sidAdministrators : dom_sid := ⟨1, 2, 5, [32, 544]⟩

/-- Is `sid` inside the domain `domain_sid`: same revision and authority, and
the sub-authorities of the domain lead those of `sid`. -/
def ref_sid_in_domain (domain_sid : Option dom_sid) (sid : dom_sid) : Bool :=
  match domain_sid with
  | none => false
  | some d =>
    decide (d.num_auths ≤ sid.num_auths) && decide (d.sid_rev_num = sid.sid_rev_num)
      && decide (d.id_auth = sid.id_auth)
      && decide (d.sub_auths.take d.num_auths.toNat = sid.sub_auths.take d.num_auths.toNat)

/-- The SID held by an `objectSid` value of the examples. -/
def ref_result_sid (msg : ldb_message) (attr : String) : Option dom_sid :=
  match ldb_msg_find_attr_as_string msg attr with
  | none => none
  | some v =>
    if v = "S-1-5-21-1-2-3-1105" then some sidAlice
    else if v = "S-1-5-32-544" then some sidAdministrators
    else none

/-- The reference collaborators around the directory `rows`, with the SIDs of
the examples: the string `S-1-5-32` parses, and the SIDs of the domain
`S-1-5-21-1-2-3` are encoded for a filter. -/
def sidEnv (rows : List DirRow) : Env :=
  { refEnv rows with
    dom_sid_parse_talloc := fun s => if s = "S-1-5-32" then some sidBuiltinDomain else none
    samdb_result_dom_sid := ref_result_sid
    ldap_encode_ndr_dom_sid := fun sid =>
      if sid.sub_auths.take sid.num_auths.toNat = [21, 1, 2, 3] then some "S-1-5-21-1-2-3"
      else none
    dom_sid_in_domain := ref_sid_in_domain }

/-- The user object `alice` with the attributes read for the NT4 rendering. -/
def msgAliceNt4 : ldb_message :=
  ⟨"CN=alice,CN=Users,DC=example,DC=com",
    [⟨"sAMAccountName", ["alice"]⟩, ⟨"objectSid", ["S-1-5-21-1-2-3-1105"]⟩,
      ⟨"objectClass", ["top", "person", "user"]⟩]⟩

/-- The builtin group `Administrators`. -/
def msgAdministrators : ldb_message :=
  ⟨"CN=Administrators,CN=Builtin,DC=example,DC=com",
    [⟨"sAMAccountName", ["Administrators"]⟩, ⟨"objectSid", ["S-1-5-32-544"]⟩,
      ⟨"objectClass", ["top", "group"]⟩]⟩

/-- The search of the NT4 rendering for the domain object with the SID
`S-1-5-21-1-2-3`. -/
def reqDomainBySid : SearchReq :=
  ldbSearchReq none LDB_SCOPE_BASE [] "(&(objectSid=S-1-5-21-1-2-3)(objectClass=domain))"

/-- The search of the NT4 rendering for the crossRef of the naming context
`DC=example,DC=com`. -/
def reqCrossRefByNcName : SearchReq :=
  ldbSearchReq partitionsDn LDB_SCOPE_ONELEVEL ["ncName", "dnsRoot", "nETBIOSName"]
    "(ncName=DC=example,DC=com)"

/-- A directory with the account `alice`, the domain object of its SID and the
crossRef of that domain. -/
def dirNt4Alice : Env :=
  sidEnv [⟨some "CN=alice,CN=Users,DC=example,DC=com", LDB_SCOPE_BASE, none, ⟨0, [msgAliceNt4]⟩⟩,
    ⟨none, LDB_SCOPE_BASE, some "(&(objectSid=S-1-5-21-1-2-3)(objectClass=domain))",
      ⟨0, [msgDomainExample]⟩⟩,
    ⟨partitionsDn, LDB_SCOPE_ONELEVEL, some "(ncName=DC=example,DC=com)",
      ⟨0, [crossRefExample]⟩⟩]

/-- The fetch of the account `alice` with the attributes of the NT4
rendering. -/
def reqFetchAliceNt4 : SearchReq :=
  gendbSearchDnReq (some "CN=alice,CN=Users,DC=example,DC=com")
    ["sAMAccountName", "objectSid", "objectClass"]


/-- The search of the NT4 rendering for the domain object whose SID is `sid`
without its last sub-authority. -/
def reqNt4DomainBySid (env : Env) (sid : dom_sid) : SearchReq :=
  ldbSearchReq none LDB_SCOPE_BASE []
    ("(&(objectSid="
      ++ printf_s (env.ldap_encode_ndr_dom_sid { sid with num_auths := sid.num_auths - 1 })
      ++ ")(objectClass=domain))")

/-- The search of the NT4 rendering for the crossRef whose naming context is
`dn`. -/
def reqNt4CrossRefByNcName (env : Env) (dn : String) : SearchReq :=
  ldbSearchReq env.samdb_partitions_dn LDB_SCOPE_ONELEVEL (filter_attrs NT4_ACCOUNT).1
    ("(ncName=" ++ dn ++ ")")


/-- A crossRef for the NetBIOS name `EXAMPLE` whose `dnsRoot` differs from the
DNS name of its naming context. -/
def crossRefOtherRoot : ldb_message :=
  ⟨"CN=EXAMPLE,CN=Partitions,CN=Configuration,DC=example,DC=com",
    [⟨"ncName", ["DC=example,DC=com"]⟩, ⟨"dnsRoot", ["root.example.org"]⟩,
      ⟨"nETBIOSName", ["EXAMPLE"]⟩]⟩

/-- The crossRef filter built for the NetBIOS name `EXAMPLE`. -/
def filterNetbiosExample : String :=
  "(&(objectClass=crossRef)(netbiosName=EXAMPLE)(systemFlags:1.2.840.113556.1.4.803:=2))"

/-- A directory in which the crossRef of `EXAMPLE` records the DNS root
`root.example.org` and the account `alice` lives below `DC=example,DC=com`. -/
def dirOtherRoot : Env :=
  refEnv [⟨partitionsDn, LDB_SCOPE_ONELEVEL, some filterNetbiosExample, ⟨0, [crossRefOtherRoot]⟩⟩,
    ⟨some "DC=example,DC=com", LDB_SCOPE_SUBTREE, some "(sAMAccountName=alice)",
      ⟨0, [msgAlice]⟩⟩]

/-- The arguments with which `DsCrackNameOneName` calls the filter crack for
the NT4 name `EXAMPLE\alice` with desired DN and no flag. -/
def argsAliceNt4 : FilterArgs :=
  ⟨noFlags, NT4_ACCOUNT, FQDN_1779, none, "EXAMPLE\\alice", some filterNetbiosExample,
    some "(sAMAccountName=alice)", info1_init, LDB_SCOPE_SUBTREE, none⟩

/-- The result search for the account `alice` below `DC=example,DC=com`. -/
def reqSamAlice : SearchReq :=
  ⟨SearchApi.dsdb_search, some "DC=example,DC=com", LDB_SCOPE_SUBTREE, [], noDsdbFlags,
    some "(sAMAccountName=alice)"⟩


/-- The result filter `DsCrackNameOneName` builds for a service principal
whose realm-less rendering is `short`. -/
def spn_user_filter (env : Env) (short : String) : String :=
  "(&(servicePrincipalName=" ++ env.ldb_binary_encode_string short ++ ")(objectClass=user))"

/-- The result filter `DsCrackNameOneName` builds for a host principal whose
realm-less rendering is `short` and whose second component is `component`. -/
def spn_host_filter (env : Env) (short component : String) : String :=
  "(|(&(servicePrincipalName=" ++ env.ldb_binary_encode_string short
    ++ ")(objectClass=user))(&(cn="
    ++ env.ldb_binary_encode_string (String.mk (takeUntilChar '.' component.data))
    ++ ")(objectClass=computer)))"

/-- The arguments with which `DsCrackNameOneName` calls the filter crack for
an offered service principal `name` with the result filter `result_filter`. -/
def spnFilterArgs (format_flags : FormatFlags) (format_desired : drsuapi_DsNameFormat)
    (name result_filter : String) : FilterArgs :=
  ⟨format_flags, SERVICE_PRINCIPAL, format_desired, none, name, none, some result_filter,
    info1_init, LDB_SCOPE_SUBTREE, none⟩

/-- The result search for the service principal filter `filter` below
`DC=example,DC=com`. -/
def reqSpnFilter (filter : String) : SearchReq :=
  ⟨SearchApi.dsdb_search, some "DC=example,DC=com", LDB_SCOPE_SUBTREE, [], noDsdbFlags,
    some filter⟩


/-- A directory with the crossRef and the naming context object of
`example.com`, in which the search for the children of the naming context
named `Users` fails with the error code 1 (operations error). -/
def dirWalkFails : Env :=
  refEnv [⟨partitionsDn, LDB_SCOPE_ONELEVEL, some filterDnsRootExample, ⟨0, [crossRefExample]⟩⟩,
    ⟨some "DC=example,DC=com", LDB_SCOPE_ONELEVEL, some "name=Users", ⟨1, []⟩⟩,
    ⟨some "DC=example,DC=com", LDB_SCOPE_BASE, none, ⟨0, [msgDomainExample]⟩⟩]

/-- The fetch of the naming context object of `example.com` for the desired
format DN. -/
def reqFetchDomainExample : SearchReq :=
  gendbSearchDnReq (some "DC=example,DC=com") []


/-! ### The arguments of the filter crack per offered format -/

end Cracknames


/-! ## ACE ordering (`libcli/security/secace.c`)

An ACE array with its count is a list; the `NULL` array is `none`. The flag
and type constants come from a header that is not part of the sources at hand
and are the fields of `SecConsts`; `qsort` is the C library sort behind
`TYPESAFE_QSORT` and is a parameter of the sorting function. -/

namespace Secace

/-- The fields of `struct security_ace` the ordering reads, and those that
tell two ACEs apart. -/
structure security_ace where
  type : Nat
  flags : Nat
  size : Nat
  access_mask : Nat
  trustee : Cracknames.dom_sid
  deriving DecidableEq, Repr

/-- The constants of the security header used by the comparators. -/
structure SecConsts where
  SEC_ACE_TYPE_ACCESS_DENIED : Nat
  SEC_ACE_FLAG_OBJECT_INHERIT : Nat
  SEC_ACE_FLAG_CONTAINER_INHERIT : Nat
  SEC_ACE_FLAG_INHERIT_ONLY : Nat
  SEC_ACE_FLAG_INHERITED_ACE : Nat
  deriving DecidableEq, Repr

/-- Source `nt_ace_inherit_comp`. -/
def nt_ace_inherit_comp (c : SecConsts) (a1 a2 : security_ace) : Int :=
  let a1_inh := a1.flags &&& c.SEC_ACE_FLAG_INHERITED_ACE
  let a2_inh := a2.flags &&& c.SEC_ACE_FLAG_INHERITED_ACE
  if a1_inh = a2_inh then 0
  else if a1_inh = 0 ∧ a2_inh ≠ 0 then -1
  else 1

/-- Source `nt_ace_canon_comp`. -/
def nt_ace_canon_comp (c : SecConsts) (a1 a2 : security_ace) : Int :=
  if a1.type = c.SEC_ACE_TYPE_ACCESS_DENIED ∧ a2.type ≠ c.SEC_ACE_TYPE_ACCESS_DENIED then -1
  else if a2.type = c.SEC_ACE_TYPE_ACCESS_DENIED ∧ a1.type ≠ c.SEC_ACE_TYPE_ACCESS_DENIED then 1
  else if a1.flags &&& c.SEC_ACE_FLAG_INHERIT_ONLY = 0 ∧
      a2.flags &&& c.SEC_ACE_FLAG_INHERIT_ONLY ≠ 0 then -1
  else if a2.flags &&& c.SEC_ACE_FLAG_INHERIT_ONLY = 0 ∧
      a1.flags &&& c.SEC_ACE_FLAG_INHERIT_ONLY ≠ 0 then 1
  else if
      a1.flags &&& (c.SEC_ACE_FLAG_CONTAINER_INHERIT ||| c.SEC_ACE_FLAG_OBJECT_INHERIT) ≠ 0 ∧
      a2.flags &&& (c.SEC_ACE_FLAG_CONTAINER_INHERIT ||| c.SEC_ACE_FLAG_OBJECT_INHERIT) = 0
    then -1
  else if
      a2.flags &&& (c.SEC_ACE_FLAG_CONTAINER_INHERIT ||| c.SEC_ACE_FLAG_OBJECT_INHERIT) ≠ 0 ∧
      a1.flags &&& (c.SEC_ACE_FLAG_CONTAINER_INHERIT ||| c.SEC_ACE_FLAG_OBJECT_INHERIT) = 0
    then 1
  else 0

/-- The test `curr_ace->flags & SEC_ACE_FLAG_INHERITED_ACE`. -/
def ace_inherited (c : SecConsts) (ace : security_ace) : Bool :=
  decide (ace.flags &&& c.SEC_ACE_FLAG_INHERITED_ACE ≠ 0)

/-- The loop of `dacl_sort_into_canonical_order` that finds the boundary: the
index of the first ACE with the inherited flag, the count when there is
none. -/
def inherited_boundary (c : SecConsts) : List security_ace → Nat
  | [] => 0
  | curr_ace :: rest =>
    if ace_inherited c curr_ace then 0 else inherited_boundary c rest + 1

/-- The type of the C library sort of an ACE array under a comparator. -/
abbrev QsortFn := (security_ace → security_ace → Int) → List security_ace → List security_ace

/-- Source `dacl_sort_into_canonical_order`: the array after the call; the
entries from `num_aces` on are not touched. -/
def dacl_sort_into_canonical_order (c : SecConsts) (qsort : QsortFn)
    (srclist : Option (List security_ace)) (num_aces : Nat) : Option (List security_ace) :=
  match srclist with
  | none => none
  | some aces =>
    if num_aces = 0 then some aces
    else
      let sorted := qsort (nt_ace_inherit_comp c) (aces.take num_aces)
      let i := inherited_boundary c sorted
      some (qsort (nt_ace_canon_comp c) (sorted.take i)
        ++ qsort (nt_ace_canon_comp c) (sorted.drop i) ++ aces.drop num_aces)

/-- A comparator a sort can be used with: an element compares equal to
itself, swapping the arguments negates the result, and "not after" is
transitive. -/
structure ConsistentComparator (cmp : security_ace → security_ace → Int) : Prop where
  refl : ∀ a, cmp a a = 0
  antisymm : ∀ a b, cmp a b = -cmp b a
  trans : ∀ a b d, cmp a b ≤ 0 → cmp b d ≤ 0 → cmp a d ≤ 0

/-- The contract of the C library `qsort` for a consistent comparator: the
array is rearranged, and afterwards no element compares after a later one. -/
structure QsortContract (qsort : QsortFn) : Prop where
  perm : ∀ cmp aces, ConsistentComparator cmp → (qsort cmp aces).Perm aces
  sorted : ∀ cmp aces, ConsistentComparator cmp →
    (qsort cmp aces).Pairwise (fun a b => cmp a b ≤ 0)

/-- The type `SEC_ACE_TYPE_ACCESS_DENIED_OBJECT` of the security IDL, an
access-denied ACE for a property set or a property of the object; the sources
at hand do not name it. -/
def SEC_ACE_TYPE_ACCESS_DENIED_OBJECT : Nat := 6

/-- An access-denied ACE in the sense of the order quoted above
`dacl_sort_into_canonical_order` ("order ACEs according to ACE type"): of type
access denied, be it for the object or for a property set or property. -/
def documented_access_denied (c : SecConsts) (ace : security_ace) : Bool :=
  decide (ace.type = c.SEC_ACE_TYPE_ACCESS_DENIED) ||
    decide (ace.type = SEC_ACE_TYPE_ACCESS_DENIED_OBJECT)

/-- The key `nt_ace_canon_comp` orders by: denied before other types, then
ACEs without inherit-only, then ACEs with a container or object inherit
flag. -/
def canon_key (c : SecConsts) (ace : security_ace) : Nat :=
  (if ace.type = c.SEC_ACE_TYPE_ACCESS_DENIED then 0 else 4)
    + (if ace.flags &&& c.SEC_ACE_FLAG_INHERIT_ONLY = 0 then 0 else 2)
    + (if ace.flags &&& (c.SEC_ACE_FLAG_CONTAINER_INHERIT ||| c.SEC_ACE_FLAG_OBJECT_INHERIT)
        ≠ 0 then 0 else 1)

/-! ### Reference constants, sort and examples -/

/-- The values of the constants in the security IDL: type 1 is access denied,
the flags are the bits 0x01, 0x02, 0x08 and 0x10. -/
def ndrConsts : SecConsts := ⟨1, 1, 2, 8, 16⟩

/-- An insertion sort as stand-in for the C library sort. -/
def ref_qsort : QsortFn :=
  fun cmp aces => List.insertionSort (fun a b => cmp a b ≤ 0) aces

/-- An ACE of the examples with the given type, flags and access mask, for a
trustee that is the same in all of them. -/
def ace (type flags access_mask : Nat) : security_ace :=
  ⟨type, flags, 20, access_mask, ⟨1, 1, 5, [18]⟩⟩

/-- An ACL in no particular order: an inherited allow, an allow for children
only, a deny, an inherited deny, an allow. -/
def aclExample : List security_ace :=
  [ace 0 16 1, ace 0 11 2, ace 1 0 3, ace 1 16 4, ace 0 0 5]

end Secace


/-! ## The SID list of a security token (`source4/dsdb/samdb/samdb.c`)

The comparison of SIDs, the tests on a token and the privilege database are
collaborators whose code is not part of the sources at hand; they are the
fields of `TokenEnv`. Memory allocation is taken to succeed, so the SID array
of the token is never `NULL`. -/

namespace Samdb

open Cracknames

/-- An entry of the SID array handed to `security_token_create`. -/
structure auth_SidAttr where
  sid : dom_sid
  attrs : Nat
  deriving DecidableEq, Repr

/-- The fields of `struct security_token` the function sets. -/
structure security_token where
  num_sids : Nat
  sids : List dom_sid
  privilege_mask : Nat
  deriving DecidableEq, Repr

/-- The collaborators of `security_token_create`: `samdb_privilege_setup` gives
its result code and the privilege mask it stores in the token. -/
structure TokenEnv where
  dom_sid_equal : dom_sid → dom_sid → Bool
  security_token_is_system : security_token → Bool
  security_token_is_anonymous : security_token → Bool
  security_token_has_builtin_administrators : security_token → Bool
  samdb_privilege_setup : security_token → NTSTATUS × Nat
  AUTH_SESSION_INFO_SIMPLE_PRIVILEGES : Nat

/-- The largest `uint32_t`. -/
def UINT32_MAX : Nat := 4294967295

/-- The value `~0` of the 64 bit privilege mask. -/
def all_privileges : Nat := 2 ^ 64 - 1

/-- The body of the outer loop of `security_token_create` for one SID: the SID
is appended unless `dom_sid_equal` matches it with an entry of the token. -/
def token_add_sid (env : TokenEnv) (token_sids : List dom_sid) (sid : dom_sid) :
    List dom_sid :=
  if token_sids.any (fun t => env.dom_sid_equal t sid) then token_sids
  else token_sids ++ [sid]

/-- The outer loop of `security_token_create` over the SIDs still to add. -/
def token_sid_loop (env : TokenEnv) : List auth_SidAttr → List dom_sid → List dom_sid
  | [], token_sids => token_sids
  | s :: rest, token_sids => token_sid_loop env rest (token_add_sid env token_sids s.sid)

/-- Source `security_token_create`: the result code and `*token`, `none` when
no token is handed out. -/
def security_token_create (env : TokenEnv) (num_sids : Nat) (sids : List auth_SidAttr)
    (session_info_flags : Nat) : NTSTATUS × Option security_token :=
  if num_sids > UINT32_MAX - 6 then (NTSTATUS.NT_STATUS_INVALID_PARAMETER, none)
  else
    let token_sids := token_sid_loop env (sids.take num_sids) []
    let ptoken : security_token := ⟨token_sids.length, token_sids, 0⟩
    if session_info_flags &&& env.AUTH_SESSION_INFO_SIMPLE_PRIVILEGES ≠ 0 then
      let privilege_mask :=
        if env.security_token_is_system ptoken then all_privileges
        else if env.security_token_is_anonymous ptoken then 0
        else if env.security_token_has_builtin_administrators ptoken then all_privileges
        else 0
      (NTSTATUS.NT_STATUS_OK, some { ptoken with privilege_mask := privilege_mask })
    else
      match env.samdb_privilege_setup ptoken with
      | (status, privilege_mask) =>
        if status ≠ NTSTATUS.NT_STATUS_OK then (status, none)
        else (NTSTATUS.NT_STATUS_OK, some { ptoken with privilege_mask := privilege_mask })

/-- A SID list with every SID dropped that `equal` matches with an earlier SID
of the list; `earlier` holds the SIDs already passed. -/
def drop_equal_to_earlier (equal : dom_sid → dom_sid → Bool) :
    List dom_sid → List dom_sid → List dom_sid
  | _, [] => []
  | earlier, sid :: rest =>
    if earlier.any (fun t => equal t sid) then drop_equal_to_earlier equal (earlier ++ [sid]) rest
    else sid :: drop_equal_to_earlier equal (earlier ++ [sid]) rest

/-! ### Reference collaborators and examples -/

/-- Collaborators in which two SIDs are equal when they are the same value, no
token is special, and the privilege database gives the mask 0. -/
def tokenEnv : TokenEnv :=
  ⟨fun a b => decide (a = b), fun _ => false, fun _ => false, fun _ => false,
    fun _ => (NTSTATUS.NT_STATUS_OK, 0), 1⟩

/-- The SID list of the examples: a user, two groups, the user again and the
first group again. -/
def sidsExample : List auth_SidAttr :=
  [⟨sidAlice, 7⟩, ⟨sidAdministrators, 7⟩, ⟨sidBuiltinDomain, 7⟩, ⟨sidAlice, 7⟩,
    ⟨sidAdministrators, 0⟩]

end Samdb

namespace Cracknames

open drsuapi_DsNameFormat drsuapi_DsNameStatus WERROR ldb_scope

/-! ## Unfolding the fuel -/

theorem DsCrackNameOneName_succ (env : Env) (fuel : Nat) (format_flags : FormatFlags)
    (format_offered format_desired : drsuapi_DsNameFormat) (name : Option String) :
    DsCrackNameOneName env (fuel + 1) format_flags format_offered format_desired name =
      DsCrackNameOneName_body env (DsCrackNameOneName env fuel) (DsCrackNameOneFilter env fuel)
        format_flags format_offered format_desired name := rfl

theorem DsCrackNameOneFilter_succ (env : Env) (fuel : Nat) (a : FilterArgs) :
    DsCrackNameOneFilter env (fuel + 1) a =
      DsCrackNameOneFilter_body env (DsCrackNameOneName env fuel) (DsCrackNameOneFilter env fuel)
        a := rfl

theorem DsCrackNameOneName_unknown (env : Env) (fuel : Nat) (format_flags : FormatFlags)
    (format_desired : drsuapi_DsNameFormat) (name : String) (hd : format_desired ≠ UNKNOWN) :
    DsCrackNameOneName env (fuel + 1) format_flags UNKNOWN format_desired (some name) =
      probe_loop (fun f => DsCrackNameOneName env fuel format_flags f format_desired (some name))
        probe_formats ⟨WERR_OK, info1_init, []⟩ := by
  rw [DsCrackNameOneName_succ]
  simp only [DsCrackNameOneName_body, if_neg hd]

/-! ## The probing loop (offered format UNKNOWN) -/

theorem probe_loop_stops_at (call : drsuapi_DsNameFormat → Option Run)
    (pre : List drsuapi_DsNameFormat) (rs : List Run) (rest : List drsuapi_DsNameFormat)
    (f : drsuapi_DsNameFormat) (r : Run) (acc : Run)
    (hpre : List.Forall₂ (fun g q => call g = some q ∧
      probe_returns g q.werr q.info1.status = false) pre rs)
    (hf : call f = some r)
    (hstop : probe_returns f r.werr r.info1.status = true ∨ rest = []) :
    probe_loop call (pre ++ f :: rest) acc =
      some ⟨r.werr, r.info1, acc.log ++ (rs.flatMap Run.log ++ r.log)⟩ := by
  induction hpre generalizing acc with
  | nil =>
    simp only [List.nil_append, probe_loop, hf, List.flatMap_nil]
    rcases hstop with h | h
    · simp [h, Run.after]
    · subst h
      by_cases hr : probe_returns f r.werr r.info1.status = true
      · simp [hr, Run.after]
      · simp [hr, probe_loop, Run.after]
  | cons hgq _ ih =>
    rw [List.cons_append, probe_loop, hgq.1]
    simp only [hgq.2, Bool.false_eq_true, if_false]
    rw [ih]
    simp [Run.after, List.flatMap_cons, List.append_assoc]

theorem probe_returns_eq_false (f : drsuapi_DsNameFormat) (werr : WERROR)
    (status : drsuapi_DsNameStatus)
    (h : werr = WERR_OK ∧ (status = NOT_FOUND ∨ (f = CANONICAL ∧ status = RESOLVE_ERROR))) :
    probe_returns f werr status = false := by
  rcases h with ⟨hw, h | ⟨hf, hs⟩⟩ <;> simp [probe_returns, *]

theorem probe_returns_eq_true (f : drsuapi_DsNameFormat) (werr : WERROR)
    (status : drsuapi_DsNameStatus)
    (h : werr ≠ WERR_OK ∨ (status ≠ NOT_FOUND ∧ ¬ (f = CANONICAL ∧ status = RESOLVE_ERROR))) :
    probe_returns f werr status = true := by
  rcases h with hw | ⟨hs, hc⟩
  · simp [probe_returns, hw]
  · simp only [probe_returns, Bool.or_eq_true, Bool.and_eq_true, decide_eq_true_eq]
    right
    refine ⟨hs, ?_⟩
    by_cases hf : f = CANONICAL
    · right
      exact fun h => hc ⟨hf, h⟩
    · left
      exact hf


/-- C1 (amended): with a present name and a desired format other than UNKNOWN,
a crack with offered format UNKNOWN probes the formats DN, UserPrincipal,
NT4Account, Canonical, Guid, Display, ServicePrincipal, SidOrSidHistory,
CanonicalEx in that order.  When the probes of the formats `pre` all end
without hard failure and with status NotFound (or, for the Canonical probe,
ResolveError), and the probe of the next format `f` gives `r` where `r` is a
hard failure, or has a status other than NotFound that is not the
ResolveError of the Canonical probe, or `f` is the last format, then the
crack returns the hard result and record of `r`, having issued the searches
of all probes made, in order. -/
theorem C1_unknown_probe_order (env : Env) (fuel : Nat) (format_flags : FormatFlags)
    (format_desired : drsuapi_DsNameFormat) (name : String)
    (pre post : List drsuapi_DsNameFormat) (f : drsuapi_DsNameFormat)
    (rs : List Run) (r : Run)
    (hd : format_desired ≠ UNKNOWN)
    (horder : [FQDN_1779, USER_PRINCIPAL, NT4_ACCOUNT, CANONICAL, .GUID, DISPLAY,
      SERVICE_PRINCIPAL, SID_OR_SID_HISTORY, CANONICAL_EX] = pre ++ f :: post)
    (hpre : List.Forall₂ (fun g q =>
      DsCrackNameOneName env fuel format_flags g format_desired (some name) = some q ∧
        q.werr = WERR_OK ∧
        (q.info1.status = NOT_FOUND ∨ (g = CANONICAL ∧ q.info1.status = RESOLVE_ERROR))) pre rs)
    (hf : DsCrackNameOneName env fuel format_flags f format_desired (some name) = some r)
    (hstop : r.werr ≠ WERR_OK ∨
      (r.info1.status ≠ NOT_FOUND ∧ ¬ (f = CANONICAL ∧ r.info1.status = RESOLVE_ERROR)) ∨
      post = []) :
    DsCrackNameOneName env (fuel + 1) format_flags UNKNOWN format_desired (some name) =
      some ⟨r.werr, r.info1, rs.flatMap Run.log ++ r.log⟩ := by
  rw [DsCrackNameOneName_unknown env fuel format_flags format_desired name hd]
  have horder' : probe_formats = pre ++ f :: post := horder
  rw [horder']
  have hpre' : List.Forall₂ (fun g q =>
      (fun f => DsCrackNameOneName env fuel format_flags f format_desired (some name)) g = some q ∧
        probe_returns g q.werr q.info1.status = false) pre rs := by
    refine List.Forall₂.imp ?_ hpre
    intro g q h
    exact ⟨h.1, probe_returns_eq_false g q.werr q.info1.status h.2⟩
  have hstop' : probe_returns f r.werr r.info1.status = true ∨ post = [] := by
    rcases hstop with h | h | h
    · exact Or.inl (probe_returns_eq_true f _ _ (Or.inl h))
    · exact Or.inl (probe_returns_eq_true f _ _ (Or.inr h))
    · exact Or.inr h
  rw [probe_loop_stops_at _ pre rs post f r _ hpre' hf hstop']
  simp

/-- C1, witness: in a directory where only the Display probe finds
`Administrator`, the probes before it are passed over and its result is
returned. -/
theorem C1_unknown_probe_order_witness :
    DsCrackNameOneName dirDisplayAdmin 2 noFlags UNKNOWN FQDN_1779 (some "Administrator") =
      some ⟨WERR_OK, infoAdministratorDn, [reqUpnAdministrator, reqDisplayAdministrator]⟩ :=
  C1_unknown_probe_order dirDisplayAdmin 1 noFlags FQDN_1779 "Administrator"
    [FQDN_1779, USER_PRINCIPAL, NT4_ACCOUNT, CANONICAL, .GUID]
    [SERVICE_PRINCIPAL, SID_OR_SID_HISTORY, CANONICAL_EX] DISPLAY
    [runStatus NOT_FOUND [], runStatus NOT_FOUND [reqUpnAdministrator], runStatus NOT_FOUND [],
      runStatus RESOLVE_ERROR [], runStatus NOT_FOUND []]
    ⟨WERR_OK, infoAdministratorDn, [reqDisplayAdministrator]⟩
    (by decide) (by decide)
    (List.Forall₂.cons (by decide) (List.Forall₂.cons (by decide) (List.Forall₂.cons (by decide)
      (List.Forall₂.cons (by decide) (List.Forall₂.cons (by decide) List.Forall₂.nil)))))
    (by decide) (by decide)

/-- C1, counterexample: for the name `Administrator` the probes DN,
UserPrincipal and NT4Account end with NotFound and the Canonical probe ends
with ResolveError, yet the crack with offered format UNKNOWN goes on to the
Guid and Display probes and returns Ok with the DN found by the Display
probe, not the ResolveError of the Canonical probe. -/
theorem C1_counterexample :
    DsCrackNameOneName dirDisplayAdmin 1 noFlags FQDN_1779 FQDN_1779 (some "Administrator") =
        some (runStatus NOT_FOUND []) ∧
      DsCrackNameOneName dirDisplayAdmin 1 noFlags USER_PRINCIPAL FQDN_1779
        (some "Administrator") = some (runStatus NOT_FOUND [reqUpnAdministrator]) ∧
      DsCrackNameOneName dirDisplayAdmin 1 noFlags NT4_ACCOUNT FQDN_1779 (some "Administrator") =
        some (runStatus NOT_FOUND []) ∧
      DsCrackNameOneName dirDisplayAdmin 1 noFlags CANONICAL FQDN_1779 (some "Administrator") =
        some (runStatus RESOLVE_ERROR []) ∧
      DsCrackNameOneName dirDisplayAdmin 2 noFlags UNKNOWN FQDN_1779 (some "Administrator") =
        some ⟨WERR_OK, infoAdministratorDn, [reqUpnAdministrator, reqDisplayAdministrator]⟩ ∧
      DsCrackNameOneName dirDisplayAdmin 2 noFlags UNKNOWN FQDN_1779 (some "Administrator") ≠
        DsCrackNameOneName dirDisplayAdmin 1 noFlags CANONICAL FQDN_1779
          (some "Administrator") := by
  decide


/-! ## Several hits for a canonical name -/

/-- C2 (the code): for an offered Canonical or CanonicalEx name, when the
domain stage and the locating stage of `DsCrackNameOneFilter` pass and the
result search returns two or more objects of which one has a canonical
rendering equal to the name, the function ends with NotUnique: the object
picked by the manual filter is never rendered. -/
theorem C2_several_hits_end_not_unique (env : Env) (fuel : Nat) (a : FilterArgs)
    (d : DomainStage) (l : LocateStage) (m1 m2 hit : ldb_message) (rest : List ldb_message)
    (hoff : a.format_offered = CANONICAL ∨ a.format_offered = CANONICAL_EX)
    (hdom : filter_domain_stage env a = Sum.inr d)
    (hloc : filter_locate_stage env a d = Sum.inr l)
    (hres : l.result_res = some (m1 :: m2 :: rest))
    (hpick : canonical_pick env a.format_offered a.name (m1 :: m2 :: rest) = some hit) :
    DsCrackNameOneFilter env (fuel + 1) a =
      some ⟨WERR_OK, { l.info1 with status := NOT_UNIQUE }, l.log⟩ := by
  rw [DsCrackNameOneFilter_succ]
  unfold DsCrackNameOneFilter_body
  simp only [hdom, hloc, hres]
  rcases hoff with h | h <;> simp only [h] at hpick ⊢ <;> simp only [hpick]

/-- C2, at the failing input: the search over all partitions for the leaf of
`example.com/Admin` finds `CN=Admin` in two domains, only the one of
`example.com` has the canonical rendering `example.com/Admin`, and the crack
ends with NotUnique and without result name. -/
theorem C2_several_hits_end_not_unique_witness :
    canonical_pick dirTwoAdmins CANONICAL "example.com/Admin" [msgAdminOther, msgAdminExample] =
        some msgAdminExample ∧
      dirTwoAdmins.ldb_dn_canonical_string msgAdminOther.dn = some "other.com/Admin" ∧
      DsCrackNameOneFilter dirTwoAdmins 1 argsTwoAdmins =
        some ⟨WERR_OK, ⟨NOT_UNIQUE, some "example.com", none⟩, [reqCrossRefStage, reqAdminAll]⟩ ∧
      DsCrackNameOneName dirTwoAdmins 1 gcVerify CANONICAL FQDN_1779 (some "example.com/Admin") =
        some ⟨WERR_OK, ⟨NOT_UNIQUE, some "example.com", none⟩,
          [reqCrossRefWalk, reqCrossRefStage, reqAdminAll]⟩ :=
  ⟨by decide, by decide,
    C2_several_hits_end_not_unique dirTwoAdmins 0 argsTwoAdmins
      ⟨⟨DOMAIN_ONLY, some "example.com", none⟩, some crossRefExample, [reqCrossRefStage]⟩
      ⟨⟨NOT_FOUND, some "example.com", none⟩, some [msgAdminOther, msgAdminExample],
        [reqCrossRefStage, reqAdminAll]⟩
      msgAdminOther msgAdminExample msgAdminExample [] (by decide) (by decide) (by decide)
      (by decide) (by decide),
    by decide⟩


/-! ## String facts -/

theorem Run_after_nil (r : Run) : Run.after [] r = r := by
  cases r
  rfl

theorem map_Run_after_nil (o : Option Run) : o.map (Run.after []) = o := by
  cases o with
  | none => rfl
  | some r => simp [Run_after_nil]

theorem splitAtChar_append (c : Char) (a b : List Char) (h : c ∉ a) :
    splitAtChar c (a ++ c :: b) = some (a, b) := by
  induction a with
  | nil => simp [splitAtChar]
  | cons x xs ih =>
    have hx : x ≠ c := fun e => h (by simp [e])
    have hxs : c ∉ xs := fun e => h (by simp [e])
    simp [splitAtChar, hx, ih hxs]

theorem splitAtChar_none (c : Char) (a : List Char) (h : c ∉ a) : splitAtChar c a = none := by
  induction a with
  | nil => rfl
  | cons x xs ih =>
    have hx : x ≠ c := fun e => h (by simp [e])
    have hxs : c ∉ xs := fun e => h (by simp [e])
    simp [splitAtChar, hx, ih hxs]

theorem strchr_split_append (s t : String) (c : Char) (h : c ∉ s.data) :
    strchr_split (s ++ String.singleton c ++ t) c = some (s, t) := by
  simp [strchr_split, String.data_append, String.singleton, splitAtChar_append c _ _ h]

theorem strchr_split_none (s : String) (c : Char) (h : c ∉ s.data) : strchr_split s c = none := by
  simp [strchr_split, splitAtChar_none c _ h]

/-! ## A domain name without account, offered as NT4 account name -/

theorem nt4_domain_only_unfold (env : Env) (fuel : Nat) (format_flags : FormatFlags)
    (format_desired : drsuapi_DsNameFormat) (D : String)
    (hD : '\\' ∉ D.data) (hsyn : format_flags.SYNTACTICAL_ONLY = false)
    (hd : format_desired ≠ UNKNOWN) :
    DsCrackNameOneName env (fuel + 1) format_flags NT4_ACCOUNT format_desired (some (D ++ "\\")) =
      DsCrackNameOneFilter env (fuel + 1) ⟨format_flags, NT4_ACCOUNT, format_desired, none,
        D ++ "\\", some (nt4_domain_filter env (env.ldb_binary_encode_string D)), none,
        info1_init, LDB_SCOPE_SUBTREE, none⟩ := by
  have hs : strchr_split (D ++ "\\") '\\' = some (D, "") := by
    have := strchr_split_append D "" '\\' hD
    simpa using this
  rw [DsCrackNameOneName_succ, DsCrackNameOneFilter_succ]
  simp only [DsCrackNameOneName_body, if_neg hd, hs, crack_after_switch, hsyn]
  simp [map_Run_after_nil]


/-! ## The domain stage -/

theorem filter_domain_stage_failed (env : Env) (a : FilterArgs) (domain_filter : String)
    (hf : a.domain_filter = some domain_filter)
    (hret : (env.search (reqDomainStage env a.format_desired domain_filter)).ret ≠ 0) :
    filter_domain_stage env a =
      Sum.inl ⟨WERR_OK, { a.info1 with status := RESOLVE_ERROR },
        [reqDomainStage env a.format_desired domain_filter]⟩ := by
  unfold reqDomainStage at hret
  simp only [filter_domain_stage, hf, hret, reqDomainStage, ne_eq, not_false_eq_true, if_true]

theorem filter_domain_stage_none (env : Env) (a : FilterArgs) (domain_filter : String)
    (hf : a.domain_filter = some domain_filter)
    (hret : (env.search (reqDomainStage env a.format_desired domain_filter)).ret = 0)
    (hmsgs : (env.search (reqDomainStage env a.format_desired domain_filter)).msgs = []) :
    filter_domain_stage env a =
      Sum.inl ⟨WERR_OK, { a.info1 with status := NOT_FOUND },
        [reqDomainStage env a.format_desired domain_filter]⟩ := by
  unfold reqDomainStage at hret hmsgs
  simp only [filter_domain_stage, hf, hret, hmsgs, reqDomainStage, ne_eq, not_true_eq_false,
    if_false]

theorem filter_domain_stage_several (env : Env) (a : FilterArgs) (domain_filter : String)
    (m1 m2 : ldb_message) (rest : List ldb_message)
    (hf : a.domain_filter = some domain_filter)
    (hret : (env.search (reqDomainStage env a.format_desired domain_filter)).ret = 0)
    (hmsgs : (env.search (reqDomainStage env a.format_desired domain_filter)).msgs =
      m1 :: m2 :: rest) :
    filter_domain_stage env a =
      Sum.inl ⟨WERR_OK, { a.info1 with status := NOT_UNIQUE },
        [reqDomainStage env a.format_desired domain_filter]⟩ := by
  unfold reqDomainStage at hret hmsgs
  simp only [filter_domain_stage, hf, hret, hmsgs, reqDomainStage, ne_eq, not_true_eq_false,
    if_false]

theorem filter_domain_stage_one (env : Env) (a : FilterArgs) (domain_filter : String)
    (crossRef : ldb_message) (dnsRoot : String)
    (hf : a.domain_filter = some domain_filter)
    (hret : (env.search (reqDomainStage env a.format_desired domain_filter)).ret = 0)
    (hmsgs : (env.search (reqDomainStage env a.format_desired domain_filter)).msgs = [crossRef])
    (hroot : ldb_msg_find_attr_as_string crossRef "dnsRoot" = some dnsRoot) :
    filter_domain_stage env a =
      Sum.inr ⟨{ a.info1 with dns_domain_name := some dnsRoot, status := DOMAIN_ONLY },
        some crossRef, [reqDomainStage env a.format_desired domain_filter]⟩ := by
  unfold reqDomainStage at hret hmsgs
  simp only [filter_domain_stage, hf, hret, hmsgs, hroot, reqDomainStage, ne_eq,
    not_true_eq_false, if_false]

/-- C10: given a domain filter, `DsCrackNameOneFilter` issues the partitions
container search and returns right after it, with no further search and the
result name untouched, when that search fails (ResolveError), finds no entry
(NotFound) or finds more than one entry (NotUnique). -/
theorem C10_domain_must_be_unique (env : Env) (fuel : Nat) (a : FilterArgs)
    (domain_filter : String) (hf : a.domain_filter = some domain_filter) :
    ((env.search (reqDomainStage env a.format_desired domain_filter)).ret ≠ 0 →
        DsCrackNameOneFilter env (fuel + 1) a =
          some ⟨WERR_OK, ⟨RESOLVE_ERROR, a.info1.dns_domain_name, a.info1.result_name⟩,
            [reqDomainStage env a.format_desired domain_filter]⟩) ∧
      ((env.search (reqDomainStage env a.format_desired domain_filter)).ret = 0 →
        (env.search (reqDomainStage env a.format_desired domain_filter)).msgs.length = 0 →
        DsCrackNameOneFilter env (fuel + 1) a =
          some ⟨WERR_OK, ⟨NOT_FOUND, a.info1.dns_domain_name, a.info1.result_name⟩,
            [reqDomainStage env a.format_desired domain_filter]⟩) ∧
      ((env.search (reqDomainStage env a.format_desired domain_filter)).ret = 0 →
        1 < (env.search (reqDomainStage env a.format_desired domain_filter)).msgs.length →
        DsCrackNameOneFilter env (fuel + 1) a =
          some ⟨WERR_OK, ⟨NOT_UNIQUE, a.info1.dns_domain_name, a.info1.result_name⟩,
            [reqDomainStage env a.format_desired domain_filter]⟩) := by
  refine ⟨?_, ?_, ?_⟩
  · intro hret
    rw [DsCrackNameOneFilter_succ, DsCrackNameOneFilter_body,
      filter_domain_stage_failed env a domain_filter hf hret]
  · intro hret hlen
    rw [DsCrackNameOneFilter_succ, DsCrackNameOneFilter_body,
      filter_domain_stage_none env a domain_filter hf hret (List.length_eq_zero.mp hlen)]
  · intro hret hlen
    match hm : (env.search (reqDomainStage env a.format_desired domain_filter)).msgs with
    | [] => simp [hm] at hlen
    | [_] => simp [hm] at hlen
    | m1 :: m2 :: rest =>
      rw [DsCrackNameOneFilter_succ, DsCrackNameOneFilter_body,
        filter_domain_stage_several env a domain_filter m1 m2 rest hf hret hm]


/-! ## The locating stage -/

theorem filter_locate_stage_nc (env : Env) (a : FilterArgs) (d : DomainStage)
    (crossRef : ldb_message) (hrf : a.result_filter = none)
    (hoff : a.format_offered ≠ FQDN_1779) (hd : d.domain_res = some crossRef) :
    filter_locate_stage env a d =
      Sum.inr ⟨d.info1, gendb_result (env.search (reqNcObject env a.format_desired crossRef)),
        d.log ++ [reqNcObject env a.format_desired crossRef]⟩ := by
  simp only [filter_locate_stage, hrf, hoff, hd, reqNcObject, if_false]

theorem filter_domain_stage_inl (env : Env) (a : FilterArgs) (r : Run)
    (h : filter_domain_stage env a = Sum.inl r) :
    (r.werr = WERR_OK ∧ (r.info1.status = RESOLVE_ERROR ∨ r.info1.status = NOT_FOUND ∨
        r.info1.status = NOT_UNIQUE) ∧ r.info1.result_name = a.info1.result_name) ∨
      (r.werr = WERR_NOT_ENOUGH_MEMORY ∧ r.info1.result_name = a.info1.result_name) := by
  simp only [filter_domain_stage] at h
  split at h
  · split at h
    · cases h
      simp
    · split at h
      · split at h
        · cases h
          simp
        · cases h
      · cases h
        simp
      · cases h
        simp
  · cases h

theorem filter_locate_stage_inl (env : Env) (a : FilterArgs) (d : DomainStage) (r : Run)
    (h : filter_locate_stage env a d = Sum.inl r) :
    r.werr = WERR_OK ∧ r.info1.status = RESOLVE_ERROR ∧
      r.info1.result_name = d.info1.result_name := by
  simp only [filter_locate_stage] at h
  split at h
  · split at h
    · cases h
      simp
    · cases h
  · split at h
    · cases h
    · split at h
      · cases h
      · cases h
        simp


theorem filter_finish_dn (env : Env) (result : ldb_message) (info1 : drsuapi_DsNameInfo1)
    (log : List SearchReq) (canonical : String)
    (hc : env.ldb_dn_canonical_string result.dn = some canonical) :
    filter_finish env FQDN_1779 result info1 log =
      ⟨WERR_OK, ⟨OK, some (cut_at_slash canonical), some result.dn⟩, log⟩ := by
  simp only [filter_finish, hc, filter_render]

theorem filter_finish_dn_status (env : Env) (result : ldb_message) (info1 : drsuapi_DsNameInfo1)
    (log : List SearchReq) (hw : (filter_finish env FQDN_1779 result info1 log).werr = WERR_OK) :
    (filter_finish env FQDN_1779 result info1 log).info1.status = OK := by
  cases hc : env.ldb_dn_canonical_string result.dn with
  | none => simp [filter_finish, hc] at hw
  | some canonical => rw [filter_finish_dn env result info1 log canonical hc]

theorem nt4_domain_only_never_domain_only (env : Env) (fuel : Nat) (a : FilterArgs) (r : Run)
    (hoff : a.format_offered = NT4_ACCOUNT) (hdes : a.format_desired = FQDN_1779)
    (hr : DsCrackNameOneFilter env (fuel + 1) a = some r) (hw : r.werr = WERR_OK) :
    r.info1.status ≠ DOMAIN_ONLY := by
  rw [DsCrackNameOneFilter_succ, DsCrackNameOneFilter_body] at hr
  cases h1 : filter_domain_stage env a with
  | inl r0 =>
    simp only [h1, Option.some.injEq] at hr
    subst hr
    rcases filter_domain_stage_inl env a r0 h1 with ⟨_, hs, _⟩ | ⟨hw', _⟩
    · rcases hs with hs | hs | hs <;> simp [hs]
    · simp [hw'] at hw
  | inr d =>
    cases h2 : filter_locate_stage env a d with
    | inl r1 =>
      simp only [h1, h2, Option.some.injEq] at hr
      subst hr
      simp [(filter_locate_stage_inl env a d r1 h2).2.1]
    | inr l =>
      simp only [h1, h2, hoff, hdes] at hr
      split at hr
      · simp only [Option.some.injEq] at hr
        subst hr
        simp [filter_finish_dn_status env _ _ _ hw]
      · simp only [Option.some.injEq] at hr
        subst hr
        simp
      · simp only [Option.some.injEq] at hr
        subst hr
        simp
      · simp only [Option.some.injEq] at hr
        subst hr
        simp

/-- C3 (amended): for a NetBIOS domain name `D` (free of backslashes), the
crack of `D\` offered as NT4Account with desired DN, without the
SyntacticalOnly flag, ends with NotFound when the partitions container search
for `D` returns no crossRef and with NotUnique when it returns more than one.
When it returns exactly one crossRef carrying a dnsRoot, the naming context
object of that crossRef is fetched: the status is Ok with the DN of that
object as result name when exactly one object is returned, and NotFound (with
the dnsRoot as domain name) when none is.  No run without hard failure ends
with DomainOnly. -/
theorem C3_nt4_domain_without_account (env : Env) (fuel : Nat) (format_flags : FormatFlags)
    (D : String) (hD : '\\' ∉ D.data) (hsyn : format_flags.SYNTACTICAL_ONLY = false) :
    (env.search (reqNt4CrossRef env FQDN_1779 D) = ⟨0, []⟩ →
        DsCrackNameOneName env (fuel + 1) format_flags NT4_ACCOUNT FQDN_1779 (some (D ++ "\\")) =
          some ⟨WERR_OK, ⟨NOT_FOUND, none, none⟩, [reqNt4CrossRef env FQDN_1779 D]⟩) ∧
      (∀ m1 m2 rest, env.search (reqNt4CrossRef env FQDN_1779 D) = ⟨0, m1 :: m2 :: rest⟩ →
        DsCrackNameOneName env (fuel + 1) format_flags NT4_ACCOUNT FQDN_1779 (some (D ++ "\\")) =
          some ⟨WERR_OK, ⟨NOT_UNIQUE, none, none⟩, [reqNt4CrossRef env FQDN_1779 D]⟩) ∧
      (∀ crossRef dnsRoot object canonical,
        env.search (reqNt4CrossRef env FQDN_1779 D) = ⟨0, [crossRef]⟩ →
        ldb_msg_find_attr_as_string crossRef "dnsRoot" = some dnsRoot →
        env.search (reqNcObject env FQDN_1779 crossRef) = ⟨0, [object]⟩ →
        env.ldb_dn_canonical_string object.dn = some canonical →
        DsCrackNameOneName env (fuel + 1) format_flags NT4_ACCOUNT FQDN_1779 (some (D ++ "\\")) =
          some ⟨WERR_OK, ⟨OK, some (cut_at_slash canonical), some object.dn⟩,
            [reqNt4CrossRef env FQDN_1779 D, reqNcObject env FQDN_1779 crossRef]⟩) ∧
      (∀ crossRef dnsRoot,
        env.search (reqNt4CrossRef env FQDN_1779 D) = ⟨0, [crossRef]⟩ →
        ldb_msg_find_attr_as_string crossRef "dnsRoot" = some dnsRoot →
        env.search (reqNcObject env FQDN_1779 crossRef) = ⟨0, []⟩ →
        DsCrackNameOneName env (fuel + 1) format_flags NT4_ACCOUNT FQDN_1779 (some (D ++ "\\")) =
          some ⟨WERR_OK, ⟨NOT_FOUND, some dnsRoot, none⟩,
            [reqNt4CrossRef env FQDN_1779 D, reqNcObject env FQDN_1779 crossRef]⟩) ∧
      (∀ r, DsCrackNameOneName env (fuel + 1) format_flags NT4_ACCOUNT FQDN_1779
          (some (D ++ "\\")) = some r → r.werr = WERR_OK → r.info1.status ≠ DOMAIN_ONLY) := by
  have hunf := nt4_domain_only_unfold env fuel format_flags FQDN_1779 D hD hsyn (by decide)
  rw [hunf]
  refine ⟨?_, ?_, ?_, ?_, ?_⟩
  · intro h0
    have hret : (env.search (reqDomainStage env FQDN_1779
        (nt4_domain_filter env (env.ldb_binary_encode_string D)))).ret = 0 := by
      show (env.search (reqNt4CrossRef env FQDN_1779 D)).ret = 0
      rw [h0]
    have hmsgs : (env.search (reqDomainStage env FQDN_1779
        (nt4_domain_filter env (env.ldb_binary_encode_string D)))).msgs = [] := by
      show (env.search (reqNt4CrossRef env FQDN_1779 D)).msgs = []
      rw [h0]
    rw [DsCrackNameOneFilter_succ, DsCrackNameOneFilter_body,
      filter_domain_stage_none env _ _ rfl hret hmsgs]
    rfl
  · intro m1 m2 rest h0
    have hret : (env.search (reqDomainStage env FQDN_1779
        (nt4_domain_filter env (env.ldb_binary_encode_string D)))).ret = 0 := by
      show (env.search (reqNt4CrossRef env FQDN_1779 D)).ret = 0
      rw [h0]
    have hmsgs : (env.search (reqDomainStage env FQDN_1779
        (nt4_domain_filter env (env.ldb_binary_encode_string D)))).msgs = m1 :: m2 :: rest := by
      show (env.search (reqNt4CrossRef env FQDN_1779 D)).msgs = m1 :: m2 :: rest
      rw [h0]
    rw [DsCrackNameOneFilter_succ, DsCrackNameOneFilter_body,
      filter_domain_stage_several env _ _ m1 m2 rest rfl hret hmsgs]
    rfl
  · intro crossRef dnsRoot object canonical h0 hroot h1 hc
    have hret : (env.search (reqDomainStage env FQDN_1779
        (nt4_domain_filter env (env.ldb_binary_encode_string D)))).ret = 0 := by
      show (env.search (reqNt4CrossRef env FQDN_1779 D)).ret = 0
      rw [h0]
    have hmsgs : (env.search (reqDomainStage env FQDN_1779
        (nt4_domain_filter env (env.ldb_binary_encode_string D)))).msgs = [crossRef] := by
      show (env.search (reqNt4CrossRef env FQDN_1779 D)).msgs = [crossRef]
      rw [h0]
    rw [DsCrackNameOneFilter_succ, DsCrackNameOneFilter_body,
      filter_domain_stage_one env _ _ crossRef dnsRoot rfl hret hmsgs hroot]
    simp only []
    rw [filter_locate_stage_nc env _ _ crossRef rfl (by simp) rfl]
    simp only [h1, gendb_result, ne_eq, not_true_eq_false, if_false]
    rw [filter_finish_dn env object _ _ canonical hc]
    rfl
  · intro crossRef dnsRoot h0 hroot h1
    have hret : (env.search (reqDomainStage env FQDN_1779
        (nt4_domain_filter env (env.ldb_binary_encode_string D)))).ret = 0 := by
      show (env.search (reqNt4CrossRef env FQDN_1779 D)).ret = 0
      rw [h0]
    have hmsgs : (env.search (reqDomainStage env FQDN_1779
        (nt4_domain_filter env (env.ldb_binary_encode_string D)))).msgs = [crossRef] := by
      show (env.search (reqNt4CrossRef env FQDN_1779 D)).msgs = [crossRef]
      rw [h0]
    rw [DsCrackNameOneFilter_succ, DsCrackNameOneFilter_body,
      filter_domain_stage_one env _ _ crossRef dnsRoot rfl hret hmsgs hroot]
    simp only []
    rw [filter_locate_stage_nc env _ _ crossRef rfl (by simp) rfl]
    simp only [h1, gendb_result, ne_eq, not_true_eq_false, if_false]
    rfl
  · intro r hr hw
    exact nt4_domain_only_never_domain_only env fuel _ r rfl rfl hr hw


/-- C3, witness: in a directory with exactly one crossRef for `EXAMPLE` whose
naming context object exists, the crack of `EXAMPLE\` to a DN ends with Ok
and the DN of the domain. -/
theorem C3_nt4_domain_without_account_witness :
    '\\' ∉ "EXAMPLE".data ∧
      DsCrackNameOneName dirExampleDomain 1 noFlags NT4_ACCOUNT FQDN_1779
        (some ("EXAMPLE" ++ "\\")) =
        some ⟨WERR_OK, ⟨OK, some (cut_at_slash "example.com/"), some msgDomainExample.dn⟩,
          [reqNt4CrossRef dirExampleDomain FQDN_1779 "EXAMPLE",
            reqNcObject dirExampleDomain FQDN_1779 crossRefExample]⟩ :=
  ⟨by decide,
    (C3_nt4_domain_without_account dirExampleDomain 0 noFlags "EXAMPLE" (by decide) rfl).2.2.1
      crossRefExample "example.com" msgDomainExample "example.com/" (by decide) (by decide)
      (by decide) (by decide)⟩

/-- C3, counterexample: the partitions container search for `EXAMPLE` returns
exactly one crossRef, and the crack of `EXAMPLE\` offered as NT4Account with
desired DN ends with Ok and the DN of the domain, not with DomainOnly. -/
theorem C3_counterexample :
    dirExampleDomain.search (reqNt4CrossRef dirExampleDomain FQDN_1779 "EXAMPLE") =
        ⟨0, [crossRefExample]⟩ ∧
      DsCrackNameOneName dirExampleDomain 1 noFlags NT4_ACCOUNT FQDN_1779 (some "EXAMPLE\\") =
        some ⟨WERR_OK, ⟨OK, some "example.com", some "DC=example,DC=com"⟩,
          [reqNt4CrossRef dirExampleDomain FQDN_1779 "EXAMPLE",
            reqNcObject dirExampleDomain FQDN_1779 crossRefExample]⟩ ∧
      Option.map (fun r => r.info1.status)
        (DsCrackNameOneName dirExampleDomain 1 noFlags NT4_ACCOUNT FQDN_1779
          (some "EXAMPLE\\")) ≠ some DOMAIN_ONLY := by
  decide

/-- C10, witness: a domain filter whose partitions container search fails,
finds nothing, or finds two crossRefs. -/
theorem C10_domain_must_be_unique_witness :
    DsCrackNameOneFilter
        (refEnv [⟨partitionsDn, LDB_SCOPE_ONELEVEL, some filterDnsRootExample, ⟨1, []⟩⟩]) 1
        argsTwoAdmins =
        some ⟨WERR_OK, ⟨RESOLVE_ERROR, none, none⟩, [reqCrossRefStage]⟩ ∧
      DsCrackNameOneFilter (refEnv []) 1 argsTwoAdmins =
        some ⟨WERR_OK, ⟨NOT_FOUND, none, none⟩, [reqCrossRefStage]⟩ ∧
      DsCrackNameOneFilter
        (refEnv [⟨partitionsDn, LDB_SCOPE_ONELEVEL, some filterDnsRootExample,
          ⟨0, [crossRefExample, crossRefExample]⟩⟩]) 1 argsTwoAdmins =
        some ⟨WERR_OK, ⟨NOT_UNIQUE, none, none⟩, [reqCrossRefStage]⟩ :=
  ⟨(C10_domain_must_be_unique _ 0 argsTwoAdmins filterDnsRootExample rfl).1 (by decide),
    (C10_domain_must_be_unique _ 0 argsTwoAdmins filterDnsRootExample rfl).2.1 (by decide)
      (by decide),
    (C10_domain_must_be_unique _ 0 argsTwoAdmins filterDnsRootExample rfl).2.2 (by decide)
      (by decide)⟩

/-! ## Service principal alias fallback -/

theorem spn_self_alias_step (recName : OneNameFn) (recFilter : OneFilterFn) :
    DsCrackNameOneName_body (dirSpnAlias "cifs=cifs,host") recName recFilter noFlags
        SERVICE_PRINCIPAL FQDN_1779 (some "cifs/host.example.com") =
      DsCrackNameOneName_body (dirSpnAlias "cifs=cifs,host")
        (fun _ _ _ _ => recName noFlags SERVICE_PRINCIPAL FQDN_1779 (some "cifs/host.example.com"))
        (fun _ => none) noFlags SERVICE_PRINCIPAL FQDN_1779 (some "cifs/host.example.com") := by
  rfl


theorem spn_self_alias_none (fuel : Nat) :
    DsCrackNameOneName (dirSpnAlias "cifs=cifs,host") fuel noFlags SERVICE_PRINCIPAL FQDN_1779
      (some "cifs/host.example.com") = none := by
  induction fuel with
  | zero => rfl
  | succ n ih =>
    rw [DsCrackNameOneName_succ, spn_self_alias_step, ih]
    decide

/-- C4, counterexample: no object carries the SPN `cifs/host.example.com`,
`sPNMappings` holds `cifs=cifs,host`, exactly one object answers the crack of
`host/host.example.com`.  The alias lookup maps `cifs` to the service name
`cifs`, so the fallback cracks `cifs/host.example.com` again: the crack
returns at no fuel, hence never ends with Ok. -/
theorem C4_counterexample :
    (dirSpnAlias "cifs=cifs,host").search reqCifsSpn = ⟨0, []⟩ ∧
      LDB_lookup_spn_alias (dirSpnAlias "cifs=cifs,host") "cifs" =
        (OK, some "cifs", [reqSpnMappings]) ∧
      DsCrackNameOneName (dirSpnAlias "cifs=cifs,host") 1 noFlags SERVICE_PRINCIPAL FQDN_1779
        (some "host/host.example.com") =
        some ⟨WERR_OK, ⟨OK, some "example.com", some msgHost.dn⟩, [reqHostSpn]⟩ ∧
      ¬ ∃ fuel r, DsCrackNameOneName (dirSpnAlias "cifs=cifs,host") fuel noFlags
        SERVICE_PRINCIPAL FQDN_1779 (some "cifs/host.example.com") = some r := by
  refine ⟨by decide, by decide, by decide, ?_⟩
  rintro ⟨fuel, r, h⟩
  rw [spn_self_alias_none fuel] at h
  cases h

/-- C4 (amended): in a directory where no object answers the filter built for
the SPN `cifs/host.example.com`, the attribute `sPNMappings` holds the single
value `host=cifs` (service name `host`, alias `cifs`), and exactly one object
answers the filter built for `host/host.example.com`, the crack of
`cifs/host.example.com` offered as ServicePrincipal with desired DN and no
flag returns without hard failure, status Ok and the DN of that object,
after the three searches.  The principal parser is taken to split both names
at the `/` and to render them back unchanged. -/
theorem C4_spn_alias_fallback (env : Env) (fuel : Nat)
    (realm0 realm1 realm2 realm3 cfg mdn canonical : String) (object : ldb_message)
    (hinit : env.smb_krb5_init_context = true)
    (hp : env.krb5_parse_name_flags ParseFlags.NONE "cifs/host.example.com" =
      some ⟨["cifs", "host.example.com"], realm0⟩)
    (hpn : env.krb5_parse_name_flags ParseFlags.NO_REALM "cifs/host.example.com" =
      some ⟨["cifs", "host.example.com"], realm1⟩)
    (hup : env.krb5_unparse_name_flags true false ⟨["cifs", "host.example.com"], realm1⟩ =
      some "cifs/host.example.com")
    (hp' : env.krb5_parse_name_flags ParseFlags.NONE "host/host.example.com" =
      some ⟨["host", "host.example.com"], realm2⟩)
    (hpn' : env.krb5_parse_name_flags ParseFlags.NO_REALM "host/host.example.com" =
      some ⟨["host", "host.example.com"], realm3⟩)
    (hup' : env.krb5_unparse_name_flags true false ⟨["host", "host.example.com"], realm3⟩ =
      some "host/host.example.com")
    (hcfg : env.ldb_get_config_basedn = some cfg)
    (hcifs : env.search (reqSpnSearch env ("(&(servicePrincipalName="
      ++ env.ldb_binary_encode_string "cifs/host.example.com" ++ ")(objectClass=user))")) =
      ⟨0, []⟩)
    (hmap : env.search (reqSpnMappingsOf cfg) = ⟨0, [⟨mdn, [⟨"sPNMappings", ["host=cifs"]⟩]⟩]⟩)
    (hhost : env.search (reqSpnSearch env ("(|(&(servicePrincipalName="
      ++ env.ldb_binary_encode_string "host/host.example.com" ++ ")(objectClass=user))(&(cn="
      ++ env.ldb_binary_encode_string "host" ++ ")(objectClass=computer)))")) = ⟨0, [object]⟩)
    (hcanon : env.ldb_dn_canonical_string object.dn = some canonical) :
    DsCrackNameOneName env (fuel + 2) noFlags SERVICE_PRINCIPAL FQDN_1779
        (some "cifs/host.example.com") =
      some ⟨WERR_OK, ⟨OK, some (cut_at_slash canonical), some object.dn⟩,
        [reqSpnSearch env ("(&(servicePrincipalName="
            ++ env.ldb_binary_encode_string "cifs/host.example.com" ++ ")(objectClass=user))"),
          reqSpnMappingsOf cfg,
          reqSpnSearch env ("(|(&(servicePrincipalName="
            ++ env.ldb_binary_encode_string "host/host.example.com"
            ++ ")(objectClass=user))(&(cn=" ++ env.ldb_binary_encode_string "host"
            ++ ")(objectClass=computer)))")]⟩ := by
  have hinner : DsCrackNameOneName env (fuel + 1) noFlags SERVICE_PRINCIPAL FQDN_1779
      (some "host/host.example.com") =
      some ⟨WERR_OK, ⟨OK, some (cut_at_slash canonical), some object.dn⟩,
        [reqSpnSearch env ("(|(&(servicePrincipalName="
            ++ env.ldb_binary_encode_string "host/host.example.com"
            ++ ")(objectClass=user))(&(cn=" ++ env.ldb_binary_encode_string "host"
            ++ ")(objectClass=computer)))")]⟩ := by
    rw [DsCrackNameOneName_succ]
    have h2 : strcasecmp_eq "host" "host" = true := by decide
    have h3 : String.mk (takeUntilChar '.' "host.example.com".data) = "host" := by decide
    have hhost' := hhost
    simp only [reqSpnSearch, noDsdbFlags] at hhost'
    simp only [DsCrackNameOneName_body, hinit, hp', hpn', hup', crack_after_switch, noFlags,
      DsCrackNameOneFilter_body, filter_domain_stage, filter_locate_stage, reqLocate,
      locate_search_dn, filter_attrs, h2, h3, List.length_cons, List.length_nil,
      List.getElem?_cons_zero, List.getElem?_cons_succ, reduceCtorEq, if_false, if_true,
      not_true_eq_false, Bool.false_eq_true, Bool.or_self, decide_False, decide_True,
      Nat.reduceAdd, Nat.lt_irrefl, hhost', ne_eq, reqSpnSearch, noDsdbFlags]
    rw [filter_finish_dn env object _ _ canonical hcanon]
    rfl
  have h4 : strcasecmp_eq "cifs" "host" = false := by decide
  have h5 : spn_mappings_scan "cifs" ["host=cifs"] = (OK, some "host") := by decide
  have h6 : ldb_msg_find_element ⟨mdn, [⟨"sPNMappings", ["host=cifs"]⟩]⟩ "sPNMappings" =
      some ⟨"sPNMappings", ["host=cifs"]⟩ := by
    simp only [ldb_msg_find_element, List.find?]
    have : strcasecmp_eq "sPNMappings" "sPNMappings" = true := by decide
    simp only [this]
  have h7 : ("host" ++ "/" ++ "host.example.com" : String) = "host/host.example.com" := by decide
  have hcifs' := hcifs
  simp only [reqSpnSearch, noDsdbFlags] at hcifs'
  have hlookup : LDB_lookup_spn_alias env "cifs" = (OK, some "host", [reqSpnMappingsOf cfg]) := by
    have hmap' := hmap
    simp only [reqSpnMappingsOf] at hmap'
    simp only [LDB_lookup_spn_alias, spn_service_dn, hcfg, hmap', h5, h6, reqSpnMappingsOf,
      LDB_ERR_NO_SUCH_OBJECT, ne_eq, not_true_eq_false, false_and, if_false, List.length_cons,
      List.length_nil]
    simp
  rw [DsCrackNameOneName_succ]
  simp only [DsCrackNameOneName_body, hinit, hp, hpn, hup, crack_after_switch, noFlags,
    DsCrackNameOneFilter_body, filter_domain_stage, filter_locate_stage, reqLocate,
    locate_search_dn, filter_attrs, h4, List.length_cons, List.length_nil,
    List.getElem?_cons_zero, List.getElem?_cons_succ, reduceCtorEq, if_false, if_true,
    not_true_eq_false, Bool.false_eq_true, Bool.or_self, decide_False, decide_True,
    Nat.reduceAdd, Nat.lt_irrefl, hcifs', ne_eq, reqSpnSearch, noDsdbFlags,
    DsCrackNameSPNAlias, hlookup, Option.getD_some, h7]
  have hinner' := hinner
  simp only [noFlags, reqSpnSearch, noDsdbFlags] at hinner'
  simp only [hinner', Run.after, Option.map_some', reduceCtorEq, and_false, if_false]
  rfl

/-- C4, witness: the example directory with the alias table `host=cifs`. -/
theorem C4_spn_alias_fallback_witness :
    DsCrackNameOneName (dirSpnAlias "host=cifs") 2 noFlags SERVICE_PRINCIPAL FQDN_1779
        (some "cifs/host.example.com") =
      some ⟨WERR_OK, ⟨OK, some (cut_at_slash "example.com/Computers/HOST"), some msgHost.dn⟩,
        [reqSpnSearch (dirSpnAlias "host=cifs") ("(&(servicePrincipalName="
            ++ (dirSpnAlias "host=cifs").ldb_binary_encode_string "cifs/host.example.com"
            ++ ")(objectClass=user))"),
          reqSpnMappingsOf "CN=Configuration,DC=example,DC=com",
          reqSpnSearch (dirSpnAlias "host=cifs") ("(|(&(servicePrincipalName="
            ++ (dirSpnAlias "host=cifs").ldb_binary_encode_string "host/host.example.com"
            ++ ")(objectClass=user))(&(cn="
            ++ (dirSpnAlias "host=cifs").ldb_binary_encode_string "host"
            ++ ")(objectClass=computer)))")]⟩ :=
  C4_spn_alias_fallback (dirSpnAlias "host=cifs") 0 "EXAMPLE.COM" "" "EXAMPLE.COM" ""
    "CN=Configuration,DC=example,DC=com" spnServiceDn "example.com/Computers/HOST" msgHost
    (by decide) (by decide) (by decide) (by decide) (by decide) (by decide) (by decide)
    (by decide) (by decide) (by decide) (by decide) (by decide)


/-! ## Names that do not parse -/

/-- C8: a name that is no GUID string offered as Guid, a name that is no SID
string offered as SidOrSidHistory, and a name that is no valid DN offered as
DN each end, for every desired format other than UNKNOWN and every flag set,
without hard failure, with status NotFound, no result name, no domain name
and no directory search. -/
theorem C8_unparsable_name_not_found (env : Env) (fuel : Nat) (format_flags : FormatFlags)
    (format_desired : drsuapi_DsNameFormat) (name : String) (hd : format_desired ≠ UNKNOWN) :
    (env.GUID_from_string name = none →
        DsCrackNameOneName env (fuel + 1) format_flags .GUID format_desired (some name) =
          some ⟨WERR_OK, ⟨NOT_FOUND, none, none⟩, []⟩) ∧
      (env.dom_sid_parse_talloc name = none →
        DsCrackNameOneName env (fuel + 1) format_flags SID_OR_SID_HISTORY format_desired
          (some name) = some ⟨WERR_OK, ⟨NOT_FOUND, none, none⟩, []⟩) ∧
      (env.ldb_dn_validate name = false →
        DsCrackNameOneName env (fuel + 1) format_flags FQDN_1779 format_desired (some name) =
          some ⟨WERR_OK, ⟨NOT_FOUND, none, none⟩, []⟩) := by
  refine ⟨?_, ?_, ?_⟩
  · intro h
    rw [DsCrackNameOneName_succ]
    simp only [DsCrackNameOneName_body, if_neg hd, h, info1_init]
  · intro h
    rw [DsCrackNameOneName_succ]
    simp only [DsCrackNameOneName_body, if_neg hd, h, info1_init]
  · intro h
    rw [DsCrackNameOneName_succ]
    simp only [DsCrackNameOneName_body, if_neg hd, h, info1_init]
    simp

/-- C8, witness: `not-a-guid-string` offered as Guid, SidOrSidHistory and DN
with desired DN. -/
theorem C8_unparsable_name_not_found_witness :
    DsCrackNameOneName (refEnv []) 1 noFlags .GUID FQDN_1779 (some "not-a-guid-string") =
        some ⟨WERR_OK, ⟨NOT_FOUND, none, none⟩, []⟩ ∧
      DsCrackNameOneName (refEnv []) 1 noFlags SID_OR_SID_HISTORY FQDN_1779
        (some "not-a-guid-string") = some ⟨WERR_OK, ⟨NOT_FOUND, none, none⟩, []⟩ ∧
      DsCrackNameOneName (refEnv []) 1 noFlags FQDN_1779 FQDN_1779 (some "not-a-guid-string") =
        some ⟨WERR_OK, ⟨NOT_FOUND, none, none⟩, []⟩ :=
  ⟨(C8_unparsable_name_not_found (refEnv []) 0 noFlags FQDN_1779 "not-a-guid-string"
      (by decide)).1 (by decide),
    (C8_unparsable_name_not_found (refEnv []) 0 noFlags FQDN_1779 "not-a-guid-string"
      (by decide)).2.1 (by decide),
    (C8_unparsable_name_not_found (refEnv []) 0 noFlags FQDN_1779 "not-a-guid-string"
      (by decide)).2.2 (by decide)⟩

theorem replaceLastChar_none (c d : Char) (a : List Char) (h : c ∉ a) :
    replaceLastChar c d a = none := by
  induction a with
  | nil => rfl
  | cons x xs ih =>
    have hx : x ≠ c := fun e => h (by simp [e])
    have hxs : c ∉ xs := fun e => h (by simp [e])
    simp [replaceLastChar, hx, ih hxs]

theorem strrchr_replace_none (s : String) (c d : Char) (h : c ∉ s.data) :
    strrchr_replace s c d = none := by
  simp [strrchr_replace, replaceLastChar_none c d _ h]

/-- C9: for an offered Canonical or CanonicalEx name, a desired format other
than UNKNOWN and every flag set, the empty name, a CanonicalEx name without
newline, and a name without `/` (a CanonicalEx name after its last newline was
replaced by `/`) each end without hard failure, with status ResolveError, no
result name, no domain name and no directory search. -/
theorem C9_canonical_malformed (env : Env) (fuel : Nat) (format_flags : FormatFlags)
    (format_desired : drsuapi_DsNameFormat) (hd : format_desired ≠ UNKNOWN) :
    (DsCrackNameOneName env (fuel + 1) format_flags CANONICAL format_desired (some "") =
        some ⟨WERR_OK, ⟨RESOLVE_ERROR, none, none⟩, []⟩) ∧
      (DsCrackNameOneName env (fuel + 1) format_flags CANONICAL_EX format_desired (some "") =
        some ⟨WERR_OK, ⟨RESOLVE_ERROR, none, none⟩, []⟩) ∧
      (∀ name : String, '\n' ∉ name.data →
        DsCrackNameOneName env (fuel + 1) format_flags CANONICAL_EX format_desired (some name) =
          some ⟨WERR_OK, ⟨RESOLVE_ERROR, none, none⟩, []⟩) ∧
      (∀ name : String, '/' ∉ name.data →
        DsCrackNameOneName env (fuel + 1) format_flags CANONICAL format_desired (some name) =
          some ⟨WERR_OK, ⟨RESOLVE_ERROR, none, none⟩, []⟩) ∧
      (∀ name str : String, strrchr_replace name '\n' '/' = some str → '/' ∉ str.data →
        DsCrackNameOneName env (fuel + 1) format_flags CANONICAL_EX format_desired (some name) =
          some ⟨WERR_OK, ⟨RESOLVE_ERROR, none, none⟩, []⟩) := by
  refine ⟨?_, ?_, ?_, ?_, ?_⟩
  · rw [DsCrackNameOneName_succ]
    simp [DsCrackNameOneName_body, if_neg hd, info1_init]
  · rw [DsCrackNameOneName_succ]
    simp [DsCrackNameOneName_body, if_neg hd, info1_init]
  · intro name h
    rw [DsCrackNameOneName_succ]
    simp only [DsCrackNameOneName_body, if_neg hd, info1_init, strrchr_replace_none name _ _ h]
    split <;> rfl
  · intro name h
    have hsplit := strchr_split_none name '/' h
    rw [DsCrackNameOneName_succ]
    simp only [DsCrackNameOneName_body, if_neg hd, info1_init, reduceCtorEq, if_false]
    split
    · rfl
    · rw [hsplit]
  · intro name str hs h
    have hsplit := strchr_split_none str '/' h
    rw [DsCrackNameOneName_succ]
    simp only [DsCrackNameOneName_body, if_neg hd, info1_init, hs, if_true]
    split
    · rfl
    · rw [hsplit]

/-- C9, witness: the empty name, `example.com` and a name without newline with
desired DN. -/
theorem C9_canonical_malformed_witness :
    DsCrackNameOneName (refEnv []) 1 noFlags CANONICAL FQDN_1779 (some "") =
        some ⟨WERR_OK, ⟨RESOLVE_ERROR, none, none⟩, []⟩ ∧
      DsCrackNameOneName (refEnv []) 1 noFlags CANONICAL_EX FQDN_1779
        (some "example.com/Users/Administrator") =
        some ⟨WERR_OK, ⟨RESOLVE_ERROR, none, none⟩, []⟩ ∧
      DsCrackNameOneName (refEnv []) 1 noFlags CANONICAL FQDN_1779 (some "example.com") =
        some ⟨WERR_OK, ⟨RESOLVE_ERROR, none, none⟩, []⟩ :=
  ⟨(C9_canonical_malformed (refEnv []) 0 noFlags FQDN_1779 (by decide)).1,
    (C9_canonical_malformed (refEnv []) 0 noFlags FQDN_1779 (by decide)).2.2.1
      "example.com/Users/Administrator" (by decide),
    (C9_canonical_malformed (refEnv []) 0 noFlags FQDN_1779 (by decide)).2.2.2.1
      "example.com" (by decide)⟩


/-! ## A status Ok needs a directory search (desired DN) -/

theorem filter_domain_stage_inl_log (env : Env) (a : FilterArgs) (r : Run)
    (h : filter_domain_stage env a = Sum.inl r) : r.log ≠ [] := by
  simp only [filter_domain_stage] at h
  split at h
  · split at h
    · cases h
      simp
    · split at h
      · split at h
        · cases h
          simp
        · cases h
      · cases h
        simp
      · cases h
        simp
  · cases h

theorem filter_locate_stage_inr_log (env : Env) (a : FilterArgs) (d : DomainStage)
    (l : LocateStage) (h : filter_locate_stage env a d = Sum.inr l) : l.log ≠ [] := by
  simp only [filter_locate_stage] at h
  split at h
  · split at h
    · cases h
    · cases h
      simp
  · split at h
    · cases h
      simp
    · split at h
      · cases h
        simp
      · cases h

theorem filter_finish_dn_log (env : Env) (result : ldb_message) (info1 : drsuapi_DsNameInfo1)
    (log : List SearchReq) : (filter_finish env FQDN_1779 result info1 log).log = log := by
  cases hc : env.ldb_dn_canonical_string result.dn with
  | none => simp [filter_finish, hc]
  | some canonical => rw [filter_finish_dn env result info1 log canonical hc]

theorem map_after_log (o : Option Run) (pre : List SearchReq) (r : Run) (hpre : pre ≠ [])
    (h : o.map (Run.after pre) = some r) : r.log ≠ [] := by
  cases o with
  | none => cases h
  | some q =>
    simp only [Option.map_some', Option.some.injEq] at h
    subst h
    simp [Run.after, hpre]

theorem filter_body_ok_log (env : Env) (recName : OneNameFn) (recFilter : OneFilterFn)
    (a : FilterArgs) (r : Run) (hdes : a.format_desired = FQDN_1779)
    (h : DsCrackNameOneFilter_body env recName recFilter a = some r)
    (hs : r.info1.status = OK) : r.log ≠ [] := by
  rw [DsCrackNameOneFilter_body] at h
  cases h1 : filter_domain_stage env a with
  | inl r0 =>
    simp only [h1, Option.some.injEq] at h
    subst h
    exact filter_domain_stage_inl_log env a r0 h1
  | inr d =>
    cases h2 : filter_locate_stage env a d with
    | inl r1 =>
      simp only [h1, h2, Option.some.injEq] at h
      subst h
      rw [(filter_locate_stage_inl env a d r1 h2).2.1] at hs
      cases hs
    | inr l =>
      have hl := filter_locate_stage_inr_log env a d l h2
      simp only [h1, h2, hdes] at h
      split at h
      · simp only [Option.some.injEq] at h
        subst h
        rw [filter_finish_dn_log]
        exact hl
      · split at h
        · exact map_after_log _ _ _ hl h
        · exact map_after_log _ _ _ hl h
        · simp only [Option.some.injEq] at h
          subst h
          exact hl
      · simp only [Option.some.injEq] at h
        subst h
        exact hl
      · split at h
        all_goals first
          | (simp only [Option.some.injEq] at h; subst h; exact hl)
          | (split at h <;> (simp only [Option.some.injEq] at h; subst h; exact hl))

theorem crack_after_switch_ok_log (env : Env) (recName : OneNameFn) (recFilter : OneFilterFn)
    (a : FilterArgs) (log : List SearchReq) (r : Run) (hdes : a.format_desired = FQDN_1779)
    (h : crack_after_switch env recName recFilter a log = some r)
    (hs : r.info1.status = OK) : r.log ≠ [] := by
  simp only [crack_after_switch] at h
  split at h
  · simp only [Option.some.injEq] at h
    subst h
    simp only [DsCrackNameOneSyntactical, hdes] at hs
    split at hs <;> cases hs
  · cases hb : DsCrackNameOneFilter_body env recName recFilter a with
    | none => simp [hb] at h
    | some q =>
      simp only [hb, Option.map_some', Option.some.injEq] at h
      subst h
      have hq := filter_body_ok_log env recName recFilter a q hdes hb hs
      simp [Run.after, hq]

theorem functional_walk_log (env : Env) (info1 : drsuapi_DsNameInfo1) (segs : List String) :
    ∀ (tmp_dn search_dn : Option String) (log : List SearchReq), log ≠ [] →
      (functional_walk env info1 segs tmp_dn search_dn log).log ≠ [] := by
  induction segs with
  | nil =>
    intro tmp_dn search_dn log hlog
    simpa [functional_walk] using hlog
  | cons account rest ih =>
    intro tmp_dn search_dn log hlog
    cases rest with
    | nil => simpa [functional_walk] using hlog
    | cons s rest' =>
      simp only [functional_walk]
      split
      · simp
      · split
        · exact ih _ _ _ (by simp)
        · simp
        · simp

theorem functional_param_log (env : Env) (name : String) (info1 : drsuapi_DsNameInfo1)
    (domain_filter : String) :
    (get_format_functional_filtering_param env name info1 domain_filter).log ≠ [] := by
  simp only [get_format_functional_filtering_param]
  split
  · simp
  · split
    · exact functional_walk_log env info1 _ _ _ _ (by simp)
    · simp

theorem crack_after_switch_log (env : Env) (recName : OneNameFn) (recFilter : OneFilterFn)
    (a : FilterArgs) (log : List SearchReq) (r : Run) (hlog : log ≠ [])
    (h : crack_after_switch env recName recFilter a log = some r) : r.log ≠ [] := by
  simp only [crack_after_switch] at h
  split at h
  · simp only [Option.some.injEq] at h
    subst h
    exact hlog
  · exact map_after_log _ _ _ hlog h

theorem dns_domain_from_principal_status (env : Env) (name : String)
    (info1 : drsuapi_DsNameInfo1) : (dns_domain_from_principal env name info1).2.status ≠ OK := by
  simp only [dns_domain_from_principal]
  split <;> simp

theorem name_body_ok_log (env : Env) (recName : OneNameFn) (recFilter : OneFilterFn)
    (format_flags : FormatFlags) (format_offered : drsuapi_DsNameFormat) (name : String)
    (r : Run) (hoff : format_offered ≠ UNKNOWN)
    (h : DsCrackNameOneName_body env recName recFilter format_flags format_offered FQDN_1779
      (some name) = some r)
    (hs : r.info1.status = OK) : r.log ≠ [] := by
  cases format_offered <;> simp only [DsCrackNameOneName_body, reduceCtorEq, if_false] at h
  case UNKNOWN => exact absurd rfl hoff
  all_goals (repeat' split at h)
  all_goals first
    | exact crack_after_switch_ok_log _ _ _ _ _ _ rfl h hs
    | exact crack_after_switch_log _ _ _ _ _ _ (functional_param_log _ _ _ _) h
    | (simp only [Option.some.injEq] at h
       subst h
       first
         | exact functional_param_log _ _ _ _
         | exact absurd hs (dns_domain_from_principal_status _ _ _)
         | (simp [info1_init] at hs))

theorem probe_loop_ok_log (call : drsuapi_DsNameFormat → Option Run)
    (fs : List drsuapi_DsNameFormat) :
    ∀ (acc r : Run),
      (∀ f ∈ fs, ∀ q, call f = some q → q.info1.status = OK → q.log ≠ []) →
      (acc.info1.status = OK → acc.log ≠ []) →
      probe_loop call fs acc = some r → r.info1.status = OK → r.log ≠ [] := by
  induction fs with
  | nil =>
    intro acc r _ hacc h hs
    simp only [probe_loop, Option.some.injEq] at h
    subst h
    exact hacc hs
  | cons f rest ih =>
    intro acc r hcall hacc h hs
    simp only [probe_loop] at h
    cases hq : call f with
    | none => simp [hq] at h
    | some q =>
      have hqlog : q.info1.status = OK → q.log ≠ [] :=
        hcall f (by simp) q hq
      simp only [hq] at h
      split at h
      · simp only [Option.some.injEq] at h
        subst h
        have := hqlog hs
        simp [Run.after, this]
      · refine ih (q.after acc.log) r (fun g hg => hcall g (by simp [hg])) ?_ h hs
        intro hs'
        have := hqlog hs'
        simp [Run.after, this]

/-- C5 (the code), at the failing input: the directory returns the object
fetched by DN without a `canonicalName` attribute; the crack to the desired
format Canonical returns without hard failure and with status Ok, and the
result name is absent. -/
theorem C5_ok_without_result_name :
    DsCrackNameOneName dirNoCanonicalName 1 noFlags FQDN_1779 CANONICAL (some dnAdministrator) =
      some ⟨WERR_OK, ⟨OK, some "example.com", none⟩, [reqFetchAdministratorCanonical]⟩ := by
  decide

theorem functional_walk_log_append (env : Env) (info1 : drsuapi_DsNameInfo1)
    (segs : List String) :
    ∀ (tmp_dn search_dn : Option String) (log : List SearchReq),
      ∃ extra, (functional_walk env info1 segs tmp_dn search_dn log).log = log ++ extra := by
  induction segs with
  | nil =>
    intro tmp_dn search_dn log
    exact ⟨[], by simp [functional_walk]⟩
  | cons account rest ih =>
    intro tmp_dn search_dn log
    cases rest with
    | nil => exact ⟨[], by simp [functional_walk]⟩
    | cons s rest' =>
      simp only [functional_walk]
      split
      · exact ⟨_, rfl⟩
      · split
        · rename_i msg _
          obtain ⟨extra, he⟩ := ih (some msg.dn) (some msg.dn)
            (log ++ [ldbSearchReq tmp_dn LDB_SCOPE_ONELEVEL ["name"] ("name=" ++ account)])
          exact ⟨ldbSearchReq tmp_dn LDB_SCOPE_ONELEVEL ["name"] ("name=" ++ account) :: extra,
            by rw [he]; simp⟩
        · exact ⟨_, rfl⟩
        · exact ⟨_, rfl⟩

theorem functional_walk_first_search (env : Env) (info1 : drsuapi_DsNameInfo1)
    (account s : String) (rest : List String) (tmp_dn search_dn : Option String) :
    (functional_walk env info1 (account :: s :: rest) tmp_dn search_dn []).log.head? =
      some (ldbSearchReq tmp_dn LDB_SCOPE_ONELEVEL ["name"] ("name=" ++ account)) := by
  simp only [functional_walk]
  split
  · simp
  · split
    · rename_i msg _
      obtain ⟨extra, he⟩ := functional_walk_log_append env info1 (s :: rest) (some msg.dn)
        (some msg.dn) ([] ++ [ldbSearchReq tmp_dn LDB_SCOPE_ONELEVEL ["name"] ("name=" ++ account)])
      rw [he]
      simp
    · simp
    · simp

/-- C6 (the code), at the failing input: for the canonical name
`example.com/*/Administrator` the path walk searches the children of the
naming context with the filter `name=*`, the segment as the caller wrote it,
while its escaped form is `\2A`; the last segment of a path is escaped. -/
theorem C6_walk_segment_not_escaped :
    DsCrackNameOneName dirCrossRefOnly 1 noFlags CANONICAL FQDN_1779
        (some "example.com/*/Administrator") =
        some ⟨WERR_OK, ⟨NOT_FOUND, none, none⟩, [reqCrossRefWalk, reqWalkStar]⟩ ∧
      reqWalkStar.filter = some ("name=" ++ "*") ∧
      dirCrossRefOnly.ldb_binary_encode_string "*" = "\\2A" ∧
      (get_format_functional_filtering_param dirCrossRefOnly "*" info1_init
        filterDnsRootExample).result_filter = some "(name=\\2A)" := by
  decide

/-- C7 (amended): for an absent and for an empty name, `crack_name_to_nt4_name`
(with every offered format) and `crack_auto_name_to_nt4_name` return
NT_STATUS_OK with empty domain and empty account and issue no directory
search.  `DsCrackNameOneName` has no such case: an absent name is the hard
failure WERR_INVALID_PARAMETER, and the crack of the empty name with offered
UNKNOWN and desired DN probes the formats like for any other name, so that a
run that ends with status Ok has issued a directory search. -/
theorem C7_anonymous_name (env : Env) (fuel : Nat) :
    (∀ format_offered, crack_name_to_nt4_name env fuel format_offered none =
        some ⟨NTSTATUS.NT_STATUS_OK, some "", some "", []⟩) ∧
      (∀ format_offered, crack_name_to_nt4_name env fuel format_offered (some "") =
        some ⟨NTSTATUS.NT_STATUS_OK, some "", some "", []⟩) ∧
      crack_auto_name_to_nt4_name env fuel none =
        some ⟨NTSTATUS.NT_STATUS_OK, some "", some "", []⟩ ∧
      crack_auto_name_to_nt4_name env fuel (some "") =
        some ⟨NTSTATUS.NT_STATUS_OK, some "", some "", []⟩ ∧
      (∀ format_flags format_offered format_desired,
        DsCrackNameOneName env (fuel + 1) format_flags format_offered format_desired none =
          some ⟨WERR_INVALID_PARAMETER, ⟨RESOLVE_ERROR, none, none⟩, []⟩) ∧
      (∀ format_flags r,
        DsCrackNameOneName env fuel format_flags UNKNOWN FQDN_1779 (some "") = some r →
          r.info1.status = OK → r.log ≠ []) := by
  refine ⟨fun _ => rfl, fun _ => rfl, rfl, rfl, fun _ _ _ => rfl, ?_⟩
  intro format_flags r h hs
  cases fuel with
  | zero => cases h
  | succ n =>
    rw [DsCrackNameOneName_unknown env n format_flags FQDN_1779 "" (by decide)] at h
    refine probe_loop_ok_log _ probe_formats _ r ?_ ?_ h hs
    · intro f hf q hq hqs
      cases n with
      | zero => cases hq
      | succ m =>
        rw [DsCrackNameOneName_succ] at hq
        refine name_body_ok_log env _ _ format_flags f "" q ?_ hq hqs
        intro hu
        subst hu
        simp [probe_formats] at hf
    · intro hacc
      simp [info1_init] at hacc

/-- C7, counterexample: the single-name crack of the empty name with offered
UNKNOWN and desired DN issues three searches and ends with ResolveError in an
empty directory, and ends with Ok only after fetching the empty DN in a
directory where that object exists; an absent name is a hard failure. -/
theorem C7_counterexample :
    DsCrackNameOneName (refEnv []) 2 noFlags UNKNOWN FQDN_1779 (some "") =
        some ⟨WERR_OK, ⟨RESOLVE_ERROR, none, none⟩,
          [reqFetchRoot,
            ⟨SearchApi.dsdb_search, some "DC=example,DC=com", LDB_SCOPE_SUBTREE, [], noDsdbFlags,
              some "(&(userPrincipalName=@EXAMPLE.COM)(objectClass=user))"⟩,
            ⟨SearchApi.dsdb_search, some "DC=example,DC=com", LDB_SCOPE_SUBTREE, [], noDsdbFlags,
              some "(|(displayName=)(samAccountName=))"⟩]⟩ ∧
      DsCrackNameOneName dirRootDse 2 noFlags UNKNOWN FQDN_1779 (some "") =
        some ⟨WERR_OK, ⟨OK, some "", some ""⟩, [reqFetchRoot]⟩ ∧
      DsCrackNameOneName (refEnv []) 2 noFlags UNKNOWN FQDN_1779 none =
        some ⟨WERR_INVALID_PARAMETER, ⟨RESOLVE_ERROR, none, none⟩, []⟩ := by
  decide


/-! ## Induction over the fuel -/

theorem crack_fuel_induction (env : Env)
    (P : FormatFlags → drsuapi_DsNameFormat → drsuapi_DsNameFormat → Option String → Run → Prop)
    (Q : FilterArgs → Run → Prop)
    (hName : ∀ (recName : OneNameFn) (recFilter : OneFilterFn),
      (∀ fl off des name r, recName fl off des name = some r → P fl off des name r) →
      (∀ a r, recFilter a = some r → Q a r) →
      ∀ fl off des name r,
        DsCrackNameOneName_body env recName recFilter fl off des name = some r →
          P fl off des name r)
    (hFilter : ∀ (recName : OneNameFn) (recFilter : OneFilterFn),
      (∀ fl off des name r, recName fl off des name = some r → P fl off des name r) →
      (∀ a r, recFilter a = some r → Q a r) →
      ∀ a r, DsCrackNameOneFilter_body env recName recFilter a = some r → Q a r) :
    ∀ fuel,
      (∀ fl off des name r, DsCrackNameOneName env fuel fl off des name = some r →
        P fl off des name r) ∧
      (∀ a r, DsCrackNameOneFilter env fuel a = some r → Q a r) := by
  intro fuel
  induction fuel with
  | zero =>
    refine ⟨?_, ?_⟩
    · intro fl off des name r h
      cases h
    · intro a r h
      cases h
  | succ n ih =>
    refine ⟨?_, ?_⟩
    · intro fl off des name r h
      rw [DsCrackNameOneName_succ] at h
      exact hName _ _ ih.1 ih.2 fl off des name r h
    · intro a r h
      rw [DsCrackNameOneFilter_succ] at h
      exact hFilter _ _ ih.1 ih.2 a r h

/-! ## Status Ok and the result name -/

theorem render_nt4_finish_named (crossRef : ldb_message) (acc : String)
    (info1 : drsuapi_DsNameInfo1) (log : List SearchReq) :
    (render_nt4_finish crossRef acc info1 log).named_if_ok := by
  simp only [render_nt4_finish]
  split <;> simp [Run.named_if_ok]

theorem lookup_crossRef_inl_status (env : Env) (domain_attrs : List String) (dn : String)
    (info1 : drsuapi_DsNameInfo1) (log : List SearchReq) (r : Run)
    (h : lookup_crossRef_by_ncName env domain_attrs dn info1 log = Sum.inl r) :
    r.info1.status ≠ OK := by
  simp only [lookup_crossRef_by_ncName] at h
  split at h
  · cases h
    simp
  · split at h
    · cases h
    · cases h
      simp
    · cases h
      simp

theorem render_nt4_named (env : Env) (domain_attrs : List String) (result : ldb_message)
    (info1 : drsuapi_DsNameInfo1) (log : List SearchReq) :
    (render_nt4 env domain_attrs result info1 log).named_if_ok := by
  simp only [render_nt4]
  split
  · simp [Run.named_if_ok]
  · split
    · split
      · rename_i r h
        intro _ hs
        exact absurd hs (lookup_crossRef_inl_status _ _ _ _ _ r h)
      · exact render_nt4_finish_named _ _ _ _
    · split
      · simp [Run.named_if_ok]
      · split
        · simp [Run.named_if_ok]
        · split
          · simp [Run.named_if_ok]
          · split
            · split
              · rename_i r h
                intro _ hs
                exact absurd hs (lookup_crossRef_inl_status _ _ _ _ _ r h)
              · exact render_nt4_finish_named _ _ _ _
            · simp [Run.named_if_ok]
            · simp [Run.named_if_ok]

theorem filter_render_named (env : Env) (format_desired : drsuapi_DsNameFormat)
    (result : ldb_message) (info1 : drsuapi_DsNameInfo1) (log : List SearchReq)
    (hdes : format_desired ≠ CANONICAL) :
    (filter_render env format_desired result info1 log).named_if_ok := by
  cases format_desired <;> simp only [filter_render]
  case CANONICAL => exact absurd rfl hdes
  case NT4_ACCOUNT => exact render_nt4_named _ _ _ _ _
  all_goals (try simp only [DsCrackNameOneSyntactical])
  all_goals (repeat' split)
  all_goals simp_all [Run.named_if_ok, Option.isSome_iff_ne_none]

theorem filter_finish_named (env : Env) (format_desired : drsuapi_DsNameFormat)
    (result : ldb_message) (info1 : drsuapi_DsNameInfo1) (log : List SearchReq)
    (hdes : format_desired ≠ CANONICAL) :
    (filter_finish env format_desired result info1 log).named_if_ok := by
  simp only [filter_finish]
  split
  · simp [Run.named_if_ok]
  · exact filter_render_named env format_desired result _ log hdes

theorem Run_after_named (pre : List SearchReq) (r : Run) (h : r.named_if_ok) :
    (r.after pre).named_if_ok := h

theorem spn_alias_named (env : Env) (recName : OneNameFn) (fl : FormatFlags)
    (off des : drsuapi_DsNameFormat) (name : String) (info1 : drsuapi_DsNameInfo1) (r : Run)
    (hrec : ∀ n q, recName fl off des n = some q → q.named_if_ok)
    (h : DsCrackNameSPNAlias env recName fl off des name info1 = some r) : r.named_if_ok := by
  simp only [DsCrackNameSPNAlias] at h
  repeat' split at h
  all_goals first
    | (cases h; done)
    | (simp only [Option.some.injEq] at h
       subst h
       first
         | (intro hw hs
            simp_all
            done)
         | (rename_i q hq _
            exact Run_after_named _ q (hrec _ q hq)))

theorem upn_named (env : Env) (recFilter : OneFilterFn) (fl : FormatFlags)
    (off des : drsuapi_DsNameFormat) (name : Option String) (info1 : drsuapi_DsNameInfo1)
    (r : Run)
    (hrec : ∀ a q, a.format_desired = des → recFilter a = some q → q.named_if_ok)
    (h : DsCrackNameUPN env recFilter fl off des name info1 = some r) : r.named_if_ok := by
  simp only [DsCrackNameUPN] at h
  repeat' split at h
  all_goals first
    | (simp only [Option.some.injEq] at h
       subst h
       intro hw hs
       simp_all [dns_domain_from_principal])
    | (simp only [Option.map_eq_some'] at h
       obtain ⟨q, hq, hr⟩ := h
       subst hr
       exact Run_after_named _ q (hrec _ q rfl hq))

theorem filter_body_named (env : Env) (recName : OneNameFn) (recFilter : OneFilterFn)
    (a : FilterArgs) (r : Run) (hdes : a.format_desired ≠ CANONICAL)
    (hrecName : ∀ fl off n q, recName fl off a.format_desired n = some q → q.named_if_ok)
    (hrecFilter : ∀ b q, b.format_desired = a.format_desired → recFilter b = some q →
      q.named_if_ok)
    (h : DsCrackNameOneFilter_body env recName recFilter a = some r) : r.named_if_ok := by
  rw [DsCrackNameOneFilter_body] at h
  cases h1 : filter_domain_stage env a with
  | inl r0 =>
    simp only [h1, Option.some.injEq] at h
    subst h
    intro hw hs
    rcases filter_domain_stage_inl env a r0 h1 with ⟨_, hst, _⟩ | ⟨hw', _⟩
    · rcases hst with hst | hst | hst <;> simp [hst] at hs
    · simp [hw'] at hw
  | inr d =>
    cases h2 : filter_locate_stage env a d with
    | inl r1 =>
      simp only [h1, h2, Option.some.injEq] at h
      subst h
      intro _ hs
      simp [(filter_locate_stage_inl env a d r1 h2).2.1] at hs
    | inr l =>
      simp only [h1, h2] at h
      repeat' split at h
      all_goals first
        | (simp only [Option.some.injEq] at h
           subst h
           first
             | exact filter_finish_named env _ _ _ _ hdes
             | (intro _ hs
                simp at hs))
        | (simp only [Option.map_eq_some'] at h
           obtain ⟨q, hq, hr⟩ := h
           subst hr
           first
             | exact Run_after_named _ q (spn_alias_named env recName _ _ _ _ _ q
                 (fun n q' hq' => hrecName _ _ n q' hq') hq)
             | exact Run_after_named _ q (upn_named env recFilter _ _ _ _ _ q
                 (fun b q' hb hq' => hrecFilter b q' hb hq') hq))

theorem syntactical_named (env : Env) (off des : drsuapi_DsNameFormat)
    (name_dn : Option String) (info1 : drsuapi_DsNameInfo1) (log : List SearchReq) :
    (Run.mk (DsCrackNameOneSyntactical env off des name_dn info1).1
      (DsCrackNameOneSyntactical env off des name_dn info1).2 log).named_if_ok := by
  simp only [DsCrackNameOneSyntactical]
  repeat' split
  all_goals simp_all [Run.named_if_ok, Option.isSome_iff_ne_none]

theorem crack_after_switch_named (env : Env) (recName : OneNameFn) (recFilter : OneFilterFn)
    (a : FilterArgs) (log : List SearchReq) (r : Run) (hdes : a.format_desired ≠ CANONICAL)
    (hrecName : ∀ fl off n q, recName fl off a.format_desired n = some q → q.named_if_ok)
    (hrecFilter : ∀ b q, b.format_desired = a.format_desired → recFilter b = some q →
      q.named_if_ok)
    (h : crack_after_switch env recName recFilter a log = some r) : r.named_if_ok := by
  simp only [crack_after_switch] at h
  split at h
  · simp only [Option.some.injEq] at h
    subst h
    exact syntactical_named env _ _ _ _ _
  · simp only [Option.map_eq_some'] at h
    obtain ⟨q, hq, hr⟩ := h
    subst hr
    exact Run_after_named _ q (filter_body_named env recName recFilter a q hdes hrecName
      hrecFilter hq)

theorem functional_walk_status (env : Env) (info1 : drsuapi_DsNameInfo1) (segs : List String)
    (hst : info1.status ≠ OK) :
    ∀ (tmp_dn search_dn : Option String) (log : List SearchReq),
      (functional_walk env info1 segs tmp_dn search_dn log).info1.status ≠ OK := by
  induction segs with
  | nil =>
    intro tmp_dn search_dn log
    simpa [functional_walk] using hst
  | cons account rest ih =>
    intro tmp_dn search_dn log
    cases rest with
    | nil => simpa [functional_walk] using hst
    | cons s rest' =>
      simp only [functional_walk]
      split
      · simp
      · split
        · exact ih _ _ _
        · simp
        · simp

theorem functional_param_status (env : Env) (name : String) (info1 : drsuapi_DsNameInfo1)
    (domain_filter : String) (hst : info1.status ≠ OK) :
    (get_format_functional_filtering_param env name info1 domain_filter).info1.status ≠ OK := by
  simp only [get_format_functional_filtering_param]
  split
  · simp
  · split
    · exact functional_walk_status env info1 _ hst _ _ _
    · exact hst

theorem probe_loop_named (call : drsuapi_DsNameFormat → Option Run)
    (fs : List drsuapi_DsNameFormat) :
    ∀ (acc r : Run), (∀ f ∈ fs, ∀ q, call f = some q → q.named_if_ok) → acc.named_if_ok →
      probe_loop call fs acc = some r → r.named_if_ok := by
  induction fs with
  | nil =>
    intro acc r _ hacc h
    simp only [probe_loop, Option.some.injEq] at h
    subst h
    exact hacc
  | cons f rest ih =>
    intro acc r hcall hacc h
    simp only [probe_loop] at h
    cases hq : call f with
    | none => simp [hq] at h
    | some q =>
      have hqn : q.named_if_ok := hcall f (by simp) q hq
      simp only [hq] at h
      split at h
      · simp only [Option.some.injEq] at h
        subst h
        exact Run_after_named _ q hqn
      · exact ih (q.after acc.log) r (fun g hg => hcall g (by simp [hg]))
          (Run_after_named _ q hqn) h

theorem name_body_named (env : Env) (recName : OneNameFn) (recFilter : OneFilterFn)
    (fl : FormatFlags) (off des : drsuapi_DsNameFormat) (name : Option String) (r : Run)
    (hdes : des ≠ CANONICAL)
    (hrecName : ∀ fl' off' n q, recName fl' off' des n = some q → q.named_if_ok)
    (hrecFilter : ∀ b q, b.format_desired = des → recFilter b = some q → q.named_if_ok)
    (h : DsCrackNameOneName_body env recName recFilter fl off des name = some r) :
    r.named_if_ok := by
  cases name with
  | none =>
    simp only [DsCrackNameOneName_body, Option.some.injEq] at h
    subst h
    intro hw
    simp at hw
  | some name =>
    by_cases hu : des = UNKNOWN
    · simp only [DsCrackNameOneName_body, hu, if_true, Option.some.injEq] at h
      subst h
      intro _ hs
      simp [info1_init] at hs
    · by_cases hoff : off = UNKNOWN
      · subst hoff
        simp only [DsCrackNameOneName_body, if_neg hu] at h
        refine probe_loop_named _ probe_formats _ r ?_ ?_ h
        · intro f _ q hq
          exact hrecName _ _ _ q hq
        · intro _ hs
          simp [info1_init] at hs
      cases off <;> simp only [DsCrackNameOneName_body, if_neg hu] at h
      all_goals (repeat' split at h)
      all_goals first
        | exact absurd rfl hoff
        | exact crack_after_switch_named env recName recFilter _ _ r hdes hrecName hrecFilter h
        | (simp only [Option.some.injEq] at h
           subst h
           intro hw hs
           first
             | (simp_all [info1_init]
                done)
             | exact absurd hs (dns_domain_from_principal_status _ _ _)
             | exact absurd hs (functional_param_status _ _ _ _ (by simp [info1_init])))

/-- Every crack to a desired format other than Canonical that returns without
hard failure and with status Ok carries a result name. -/
theorem ok_has_result_name (env : Env) (fuel : Nat) (fl : FormatFlags)
    (off des : drsuapi_DsNameFormat) (name : Option String) (r : Run) (hdes : des ≠ CANONICAL)
    (h : DsCrackNameOneName env fuel fl off des name = some r) (hw : r.werr = WERR_OK)
    (hs : r.info1.status = OK) : r.info1.result_name.isSome = true := by
  have key := crack_fuel_induction env
    (fun _ _ des' _ q => des' ≠ CANONICAL → q.named_if_ok)
    (fun a q => a.format_desired ≠ CANONICAL → q.named_if_ok)
    (fun recName recFilter hN hF fl' off' des' name' q hq hd' =>
      name_body_named env recName recFilter fl' off' des' name' q hd'
        (fun fl'' off'' n q' hq' => hN fl'' off'' des' n q' hq' hd')
        (fun b q' hb hq' => hF b q' hq' (by rw [hb]; exact hd')) hq)
    (fun recName recFilter hN hF a q hq hd' =>
      filter_body_named env recName recFilter a q hd'
        (fun fl'' off'' n q' hq' => hN fl'' off'' a.format_desired n q' hq' hd')
        (fun b q' hb hq' => hF b q' hq' (by rw [hb]; exact hd')) hq)
    fuel
  exact key.1 fl off des name r h hdes hw hs


/-! ## The fallbacks after a result search without hit -/

theorem filter_body_no_hit_spn (env : Env) (recName : OneNameFn) (recFilter : OneFilterFn)
    (a : FilterArgs) (d : DomainStage) (l : LocateStage)
    (hoff : a.format_offered = SERVICE_PRINCIPAL)
    (hdom : filter_domain_stage env a = Sum.inr d)
    (hloc : filter_locate_stage env a d = Sum.inr l)
    (hres : l.result_res = some []) :
    DsCrackNameOneFilter_body env recName recFilter a =
      (DsCrackNameSPNAlias env recName a.format_flags SERVICE_PRINCIPAL a.format_desired
        a.name l.info1).map (Run.after l.log) := by
  simp only [DsCrackNameOneFilter_body, hdom, hloc, hres, hoff]

theorem spn_mappings_scan_not_listed (alias_from : String) (values : List String)
    (h : ∀ v ∈ values, ∀ s al, strchr_split v '=' = some (s, al) →
      spn_alias_listed al alias_from = false) :
    spn_mappings_scan alias_from values = (NOT_FOUND, none) := by
  induction values with
  | nil => rfl
  | cons v rest ih =>
    simp only [spn_mappings_scan]
    cases hs : strchr_split v '=' with
    | none => rfl
    | some p =>
      obtain ⟨s, al⟩ := p
      have hl := h v (by simp) s al hs
      simp only [hl, Bool.false_eq_true, if_false]
      exact ih (fun w hw => h w (by simp [hw]))

theorem lookup_spn_alias_not_listed (env : Env) (alias_from cfg : String) (msg : ldb_message)
    (el : ldb_message_element)
    (hcfg : env.ldb_get_config_basedn = some cfg)
    (hmap : env.search (reqSpnMappingsOf cfg) = ⟨0, [msg]⟩)
    (hel : ldb_msg_find_element msg "sPNMappings" = some el)
    (h : ∀ v ∈ el.values, ∀ s al, strchr_split v '=' = some (s, al) →
      spn_alias_listed al alias_from = false) :
    LDB_lookup_spn_alias env alias_from = (NOT_FOUND, none, [reqSpnMappingsOf cfg]) := by
  have hmap' := hmap
  simp only [reqSpnMappingsOf] at hmap'
  simp only [LDB_lookup_spn_alias, spn_service_dn, hcfg, hmap', hel, reqSpnMappingsOf,
    LDB_ERR_NO_SUCH_OBJECT, ne_eq, not_true_eq_false, false_and, if_false,
    spn_mappings_scan_not_listed alias_from el.values h]
  split <;> simp

/-- C12: an offered ServicePrincipal name `svc/host` whose result search found
no object (`l.result_res` empty after the domain stage and the locating stage
of `DsCrackNameOneFilter`).  If the alias lookup for `svc` ends with NotFound,
as it does when the `sPNMappings` read returns one object none of whose values
lists `svc` among its aliases, the result is DomainOnly with `host` as domain
name and the result name untouched.  If the lookup finds a mapping with
service name `S`, the result is that of the crack of `S/host` with the same
flags, offered ServicePrincipal and the same desired format, except that a
NotFound without hard failure becomes DomainOnly with `host` as domain name;
the searches of the lookup and of that crack follow those made so far. -/
theorem C12_spn_alias_lookup (env : Env) (fuel : Nat) (a : FilterArgs) (d : DomainStage)
    (l : LocateStage) (svc host realm : String)
    (hoff : a.format_offered = SERVICE_PRINCIPAL)
    (hdom : filter_domain_stage env a = Sum.inr d)
    (hloc : filter_locate_stage env a d = Sum.inr l)
    (hres : l.result_res = some [])
    (hparse : env.krb5_parse_name_flags ParseFlags.NO_REALM a.name =
      some ⟨[svc, host], realm⟩) :
    (∀ alias_to log, LDB_lookup_spn_alias env svc = (NOT_FOUND, alias_to, log) →
        DsCrackNameOneFilter env (fuel + 1) a =
          some ⟨WERR_OK, ⟨DOMAIN_ONLY, some host, l.info1.result_name⟩, l.log ++ log⟩) ∧
      (∀ cfg msg el, env.ldb_get_config_basedn = some cfg →
        env.search (reqSpnMappingsOf cfg) = ⟨0, [msg]⟩ →
        ldb_msg_find_element msg "sPNMappings" = some el →
        (∀ v ∈ el.values, ∀ s al, strchr_split v '=' = some (s, al) →
          spn_alias_listed al svc = false) →
        DsCrackNameOneFilter env (fuel + 1) a =
          some ⟨WERR_OK, ⟨DOMAIN_ONLY, some host, l.info1.result_name⟩,
            l.log ++ [reqSpnMappingsOf cfg]⟩) ∧
      (∀ S log r, LDB_lookup_spn_alias env svc = (OK, some S, log) →
        DsCrackNameOneName env fuel a.format_flags SERVICE_PRINCIPAL a.format_desired
          (some (S ++ "/" ++ host)) = some r →
        DsCrackNameOneFilter env (fuel + 1) a =
          some (if r.werr = WERR_OK ∧ r.info1.status = NOT_FOUND then
            ⟨r.werr, ⟨DOMAIN_ONLY, some host, r.info1.result_name⟩, l.log ++ (log ++ r.log)⟩
          else ⟨r.werr, r.info1, l.log ++ (log ++ r.log)⟩)) := by
  have hstep : DsCrackNameOneFilter env (fuel + 1) a =
      (DsCrackNameSPNAlias env (DsCrackNameOneName env fuel) a.format_flags SERVICE_PRINCIPAL
        a.format_desired a.name l.info1).map (Run.after l.log) := by
    rw [DsCrackNameOneFilter_succ]
    exact filter_body_no_hit_spn env _ _ a d l hoff hdom hloc hres
  have hfirst : ∀ alias_to log, LDB_lookup_spn_alias env svc = (NOT_FOUND, alias_to, log) →
      DsCrackNameOneFilter env (fuel + 1) a =
        some ⟨WERR_OK, ⟨DOMAIN_ONLY, some host, l.info1.result_name⟩, l.log ++ log⟩ := by
    intro alias_to log hlook
    rw [hstep]
    simp only [DsCrackNameSPNAlias, hparse, List.getElem?_cons_zero, List.getElem?_cons_succ,
      hlook, if_true, Option.map_some', Run.after]
  refine ⟨hfirst, ?_, ?_⟩
  · intro cfg msg el hcfg hmap hel hnone
    exact hfirst none _ (lookup_spn_alias_not_listed env svc cfg msg el hcfg hmap hel hnone)
  · intro S log r hlook hr
    rw [hstep]
    simp only [DsCrackNameSPNAlias, hparse, List.getElem?_cons_zero, List.getElem?_cons_succ,
      hlook, reduceCtorEq, if_false, ne_eq, not_true_eq_false, Option.getD_some, hr]
    split <;> simp [Run.after]

/-- C12, witness: `cifs/host.example.com` is no SPN in the directory; with the
alias table `host=cifs` the result is that of the crack of
`host/host.example.com`, and with a table that does not list `cifs` the result
is DomainOnly with `host.example.com`. -/
theorem C12_spn_alias_lookup_witness :
    DsCrackNameOneFilter (dirSpnAlias "host=cifs") 2 argsCifsSpn =
        some ⟨WERR_OK, ⟨OK, some "example.com", some msgHost.dn⟩,
          [reqCifsSpn, reqSpnMappings, reqHostSpn]⟩ ∧
      DsCrackNameOneFilter (dirSpnAlias "ldap=ldaps") 1 argsCifsSpn =
        some ⟨WERR_OK, ⟨DOMAIN_ONLY, some "host.example.com", none⟩,
          [reqCifsSpn, reqSpnMappings]⟩ :=
  ⟨(C12_spn_alias_lookup (dirSpnAlias "host=cifs") 1 argsCifsSpn stageNoDomain
      (stageNoHit reqCifsSpn) "cifs" "host.example.com" "" rfl (by decide) (by decide) rfl
      (by decide)).2.2 "host" [reqSpnMappings]
      ⟨WERR_OK, ⟨OK, some "example.com", some msgHost.dn⟩, [reqHostSpn]⟩ (by decide)
      (by decide),
    (C12_spn_alias_lookup (dirSpnAlias "ldap=ldaps") 0 argsCifsSpn stageNoDomain
      (stageNoHit reqCifsSpn) "cifs" "host.example.com" "" rfl (by decide) (by decide) rfl
      (by decide)).2.1 "CN=Configuration,DC=example,DC=com"
      ⟨spnServiceDn, [⟨"sPNMappings", ["ldap=ldaps"]⟩]⟩ ⟨"sPNMappings", ["ldap=ldaps"]⟩
      (by decide) (by decide) (by decide)
      (by
        intro v hv s al hs
        simp only [List.mem_singleton] at hv
        subst hv
        have h2 : strchr_split "ldap=ldaps" '=' = some ("ldap", "ldaps") := by decide
        rw [h2] at hs
        cases hs
        decide)⟩


/-! ## The principal wrappers -/

theorem crack_principal_name_spec (env : Env) (fuel : Nat)
    (format_offered : drsuapi_DsNameFormat) (name : Option String) (want_domain_dn : Bool) :
    (∀ r1, DsCrackNameOneName env fuel ⟨false, false⟩ format_offered FQDN_1779 name = some r1 →
        r1.werr ≠ WERR_OK →
        crack_principal_name env fuel format_offered name want_domain_dn =
          some ⟨NTSTATUS.werror_to_ntstatus r1.werr, none, none, r1.log⟩) ∧
      (∀ r1, DsCrackNameOneName env fuel ⟨false, false⟩ format_offered FQDN_1779 name = some r1 →
        r1.werr = WERR_OK →
        (r1.info1.status = NOT_FOUND ∨ r1.info1.status = DOMAIN_ONLY ∨
          r1.info1.status = NOT_UNIQUE) →
        crack_principal_name env fuel format_offered name want_domain_dn =
          some ⟨NTSTATUS.NT_STATUS_NO_SUCH_USER, none, none, r1.log⟩) ∧
      (∀ r1, DsCrackNameOneName env fuel ⟨false, false⟩ format_offered FQDN_1779 name = some r1 →
        r1.werr = WERR_OK →
        (r1.info1.status = RESOLVE_ERROR ∨ r1.info1.status = NO_MAPPING ∨
          r1.info1.status = NO_SYNTACTICAL_MAPPING) →
        crack_principal_name env fuel format_offered name want_domain_dn =
          some ⟨NTSTATUS.NT_STATUS_UNSUCCESSFUL, none, none, r1.log⟩) ∧
      (∀ r1, DsCrackNameOneName env fuel ⟨false, false⟩ format_offered FQDN_1779 name = some r1 →
        r1.werr = WERR_OK → r1.info1.status = OK → want_domain_dn = false →
        crack_principal_name env fuel format_offered name want_domain_dn =
          some ⟨NTSTATUS.NT_STATUS_OK, some r1.info1.result_name, none, r1.log⟩) ∧
      (∀ r1 r2,
        DsCrackNameOneName env fuel ⟨false, false⟩ format_offered FQDN_1779 name = some r1 →
        r1.werr = WERR_OK → r1.info1.status = OK → want_domain_dn = true →
        DsCrackNameOneName env fuel ⟨false, false⟩ CANONICAL FQDN_1779
          (some (printf_s r1.info1.dns_domain_name ++ "/")) = some r2 →
        (r2.werr ≠ WERR_OK →
          crack_principal_name env fuel format_offered name want_domain_dn =
            some ⟨NTSTATUS.werror_to_ntstatus r2.werr, some r1.info1.result_name, none,
              r1.log ++ r2.log⟩) ∧
        (r2.werr = WERR_OK →
          (r2.info1.status = NOT_FOUND ∨ r2.info1.status = DOMAIN_ONLY ∨
            r2.info1.status = NOT_UNIQUE) →
          crack_principal_name env fuel format_offered name want_domain_dn =
            some ⟨NTSTATUS.NT_STATUS_NO_SUCH_USER, some r1.info1.result_name, none,
              r1.log ++ r2.log⟩) ∧
        (r2.werr = WERR_OK →
          (r2.info1.status = RESOLVE_ERROR ∨ r2.info1.status = NO_MAPPING ∨
            r2.info1.status = NO_SYNTACTICAL_MAPPING) →
          crack_principal_name env fuel format_offered name want_domain_dn =
            some ⟨NTSTATUS.NT_STATUS_UNSUCCESSFUL, some r1.info1.result_name, none,
              r1.log ++ r2.log⟩) ∧
        (r2.werr = WERR_OK → r2.info1.status = OK →
          crack_principal_name env fuel format_offered name want_domain_dn =
            some ⟨NTSTATUS.NT_STATUS_OK, some r1.info1.result_name, some r2.info1.result_name,
              r1.log ++ r2.log⟩)) ∧
      (∀ res, crack_principal_name env fuel format_offered name want_domain_dn = some res →
        res.status = NTSTATUS.NT_STATUS_OK →
        ∃ r1, DsCrackNameOneName env fuel ⟨false, false⟩ format_offered FQDN_1779 name =
            some r1 ∧ r1.werr = WERR_OK ∧ r1.info1.status = OK ∧
          (want_domain_dn = true →
            ∃ r2, DsCrackNameOneName env fuel ⟨false, false⟩ CANONICAL FQDN_1779
                (some (printf_s r1.info1.dns_domain_name ++ "/")) = some r2 ∧
              r2.werr = WERR_OK ∧ r2.info1.status = OK)) := by
  refine ⟨?_, ?_, ?_, ?_, ?_, ?_⟩
  · intro r1 h1 hw
    simp only [crack_principal_name, h1, hw, ne_eq, not_false_eq_true, if_true]
  · intro r1 h1 hw hs
    rcases hs with hs | hs | hs <;>
      simp only [crack_principal_name, h1, hw, hs, ne_eq, not_true_eq_false, if_false,
        wrapper_status_switch]
  · intro r1 h1 hw hs
    rcases hs with hs | hs | hs <;>
      simp only [crack_principal_name, h1, hw, hs, ne_eq, not_true_eq_false, if_false,
        wrapper_status_switch]
  · intro r1 h1 hw hs hwant
    simp only [crack_principal_name, h1, hw, hs, hwant, ne_eq, not_true_eq_false, if_false,
      wrapper_status_switch, Bool.false_eq_true]
  · intro r1 r2 h1 hw hs hwant h2
    refine ⟨?_, ?_, ?_, ?_⟩
    · intro hw2
      simp only [crack_principal_name, h1, hw, hs, hwant, h2, hw2, ne_eq, not_true_eq_false,
        if_false, wrapper_status_switch, if_true, not_false_eq_true]
    · intro hw2 hs2
      rcases hs2 with hs2 | hs2 | hs2 <;>
        simp only [crack_principal_name, h1, hw, hs, hwant, h2, hw2, hs2, ne_eq,
          not_true_eq_false, if_false, wrapper_status_switch, if_true]
    · intro hw2 hs2
      rcases hs2 with hs2 | hs2 | hs2 <;>
        simp only [crack_principal_name, h1, hw, hs, hwant, h2, hw2, hs2, ne_eq,
          not_true_eq_false, if_false, wrapper_status_switch, if_true]
    · intro hw2 hs2
      simp only [crack_principal_name, h1, hw, hs, hwant, h2, hw2, hs2, ne_eq,
        not_true_eq_false, if_false, wrapper_status_switch, if_true]
  · intro res h hok
    simp only [crack_principal_name] at h
    cases h1 : DsCrackNameOneName env fuel ⟨false, false⟩ format_offered FQDN_1779 name with
    | none => simp [h1] at h
    | some r1 =>
      simp only [h1] at h
      refine ⟨r1, rfl, ?_⟩
      split at h
      · simp only [Option.some.injEq] at h
        subst h
        simp at hok
      · rename_i hw
        have hw' : r1.werr = WERR_OK := by simpa using hw
        split at h
        · rename_i nt hnt
          simp only [Option.some.injEq] at h
          subst h
          simp only at hok
          subst hok
          cases hst : r1.info1.status <;> simp [hst, wrapper_status_switch] at hnt
        · rename_i hnone
          have hst : r1.info1.status = OK := by
            cases hst : r1.info1.status <;> simp [hst, wrapper_status_switch] at hnone
            rfl
          refine ⟨hw', hst, ?_⟩
          intro hwant
          simp only [hwant, if_true] at h
          cases h2 : DsCrackNameOneName env fuel ⟨false, false⟩ CANONICAL FQDN_1779
              (some (printf_s r1.info1.dns_domain_name ++ "/")) with
          | none => simp [h2] at h
          | some r2 =>
            simp only [h2] at h
            refine ⟨r2, rfl, ?_⟩
            split at h
            · simp only [Option.some.injEq] at h
              subst h
              simp at hok
            · rename_i hw2
              have hw2' : r2.werr = WERR_OK := by simpa using hw2
              split at h
              · rename_i nt hnt
                simp only [Option.some.injEq] at h
                subst h
                simp only at hok
                subst hok
                cases hst2 : r2.info1.status <;> simp [hst2, wrapper_status_switch] at hnt
              · rename_i hnone2
                refine ⟨hw2', ?_⟩
                cases hst2 : r2.info1.status <;> simp [hst2, wrapper_status_switch] at hnone2
                rfl


/-- C13: `crack_user_principal_name` and `crack_service_principal_name` (the
wrapper `wrapper`, whose first crack offers the format `off`) map the outcome
of each of their two cracks in the same way. A hard failure of a crack is
returned converted by `werror_to_ntstatus`; the statuses NotFound, DomainOnly
and NotUnique return `NT_STATUS_NO_SUCH_USER`; ResolveError, NoMapping and
NoSyntacticalMapping return `NT_STATUS_UNSUCCESSFUL`; status Ok goes on, to
the second crack (of the canonical name of the DNS domain) when the domain DN
is asked for, and to `NT_STATUS_OK` otherwise. `NT_STATUS_OK` is returned only
if every crack performed ended without hard failure and with status Ok. -/
theorem C13_principal_status_mapping (env : Env) (fuel : Nat) (name : Option String)
    (want_domain_dn : Bool)
    (wrapper : Env → Nat → Option String → Bool → Option PrincipalDns)
    (off : drsuapi_DsNameFormat)
    (hwrapper : (wrapper = crack_user_principal_name ∧ off = USER_PRINCIPAL) ∨
      (wrapper = crack_service_principal_name ∧ off = SERVICE_PRINCIPAL)) :
    (∀ r1, DsCrackNameOneName env fuel ⟨false, false⟩ off FQDN_1779 name = some r1 →
        r1.werr ≠ WERR_OK →
        wrapper env fuel name want_domain_dn =
          some ⟨NTSTATUS.werror_to_ntstatus r1.werr, none, none, r1.log⟩) ∧
      (∀ r1, DsCrackNameOneName env fuel ⟨false, false⟩ off FQDN_1779 name = some r1 →
        r1.werr = WERR_OK →
        (r1.info1.status = NOT_FOUND ∨ r1.info1.status = DOMAIN_ONLY ∨
          r1.info1.status = NOT_UNIQUE) →
        wrapper env fuel name want_domain_dn =
          some ⟨NTSTATUS.NT_STATUS_NO_SUCH_USER, none, none, r1.log⟩) ∧
      (∀ r1, DsCrackNameOneName env fuel ⟨false, false⟩ off FQDN_1779 name = some r1 →
        r1.werr = WERR_OK →
        (r1.info1.status = RESOLVE_ERROR ∨ r1.info1.status = NO_MAPPING ∨
          r1.info1.status = NO_SYNTACTICAL_MAPPING) →
        wrapper env fuel name want_domain_dn =
          some ⟨NTSTATUS.NT_STATUS_UNSUCCESSFUL, none, none, r1.log⟩) ∧
      (∀ r1, DsCrackNameOneName env fuel ⟨false, false⟩ off FQDN_1779 name = some r1 →
        r1.werr = WERR_OK → r1.info1.status = OK → want_domain_dn = false →
        wrapper env fuel name want_domain_dn =
          some ⟨NTSTATUS.NT_STATUS_OK, some r1.info1.result_name, none, r1.log⟩) ∧
      (∀ r1 r2,
        DsCrackNameOneName env fuel ⟨false, false⟩ off FQDN_1779 name = some r1 →
        r1.werr = WERR_OK → r1.info1.status = OK → want_domain_dn = true →
        DsCrackNameOneName env fuel ⟨false, false⟩ CANONICAL FQDN_1779
          (some (printf_s r1.info1.dns_domain_name ++ "/")) = some r2 →
        (r2.werr ≠ WERR_OK →
          wrapper env fuel name want_domain_dn =
            some ⟨NTSTATUS.werror_to_ntstatus r2.werr, some r1.info1.result_name, none,
              r1.log ++ r2.log⟩) ∧
        (r2.werr = WERR_OK →
          (r2.info1.status = NOT_FOUND ∨ r2.info1.status = DOMAIN_ONLY ∨
            r2.info1.status = NOT_UNIQUE) →
          wrapper env fuel name want_domain_dn =
            some ⟨NTSTATUS.NT_STATUS_NO_SUCH_USER, some r1.info1.result_name, none,
              r1.log ++ r2.log⟩) ∧
        (r2.werr = WERR_OK →
          (r2.info1.status = RESOLVE_ERROR ∨ r2.info1.status = NO_MAPPING ∨
            r2.info1.status = NO_SYNTACTICAL_MAPPING) →
          wrapper env fuel name want_domain_dn =
            some ⟨NTSTATUS.NT_STATUS_UNSUCCESSFUL, some r1.info1.result_name, none,
              r1.log ++ r2.log⟩) ∧
        (r2.werr = WERR_OK → r2.info1.status = OK →
          wrapper env fuel name want_domain_dn =
            some ⟨NTSTATUS.NT_STATUS_OK, some r1.info1.result_name, some r2.info1.result_name,
              r1.log ++ r2.log⟩)) ∧
      (∀ res, wrapper env fuel name want_domain_dn = some res →
        res.status = NTSTATUS.NT_STATUS_OK →
        ∃ r1, DsCrackNameOneName env fuel ⟨false, false⟩ off FQDN_1779 name = some r1 ∧
          r1.werr = WERR_OK ∧ r1.info1.status = OK ∧
          (want_domain_dn = true →
            ∃ r2, DsCrackNameOneName env fuel ⟨false, false⟩ CANONICAL FQDN_1779
                (some (printf_s r1.info1.dns_domain_name ++ "/")) = some r2 ∧
              r2.werr = WERR_OK ∧ r2.info1.status = OK)) := by
  rcases hwrapper with ⟨hw, ho⟩ | ⟨hw, ho⟩
  · subst hw ho
    exact crack_principal_name_spec env fuel USER_PRINCIPAL name want_domain_dn
  · subst hw ho
    exact crack_principal_name_spec env fuel SERVICE_PRINCIPAL name want_domain_dn

/-- C13, witness: in the directory with the account `alice` the user principal
`alice@EXAMPLE.COM` gives `NT_STATUS_OK` with the DN of the account when only
the user DN is asked for; when the domain DN is asked for too, the second
crack (of `example.com/`) finds no crossRef there and the wrapper returns
`NT_STATUS_NO_SUCH_USER`; in an empty directory the service principal
`cifs/host.example.com` ends DomainOnly and the wrapper returns
`NT_STATUS_NO_SUCH_USER`. -/
theorem C13_principal_status_mapping_witness :
    crack_user_principal_name dirUpnAlice 2 (some "alice@EXAMPLE.COM") false =
        some ⟨NTSTATUS.NT_STATUS_OK, some (some msgAlice.dn), none,
          [reqAliceUpn, reqUpnRealm dirUpnAlice "EXAMPLE.COM",
            reqDomainStage dirUpnAlice FQDN_1779 filterCrossRefDn,
            reqSamAccount dirUpnAlice FQDN_1779 (some "DC=example,DC=com") "alice"]⟩ ∧
      crack_user_principal_name dirUpnAlice 2 (some "alice@EXAMPLE.COM") true =
        some ⟨NTSTATUS.NT_STATUS_NO_SUCH_USER, some (some msgAlice.dn), none,
          [reqAliceUpn, reqUpnRealm dirUpnAlice "EXAMPLE.COM",
            reqDomainStage dirUpnAlice FQDN_1779 filterCrossRefDn,
            reqSamAccount dirUpnAlice FQDN_1779 (some "DC=example,DC=com") "alice",
            reqCrossRefStage]⟩ ∧
      crack_service_principal_name (refEnv []) 2 (some "cifs/host.example.com") false =
        some ⟨NTSTATUS.NT_STATUS_NO_SUCH_USER, none, none,
          [reqCifsSpn, reqSpnMappings]⟩ :=
  ⟨(C13_principal_status_mapping dirUpnAlice 2 (some "alice@EXAMPLE.COM") false
      crack_user_principal_name USER_PRINCIPAL (Or.inl ⟨rfl, rfl⟩)).2.2.2.1
      ⟨WERR_OK, ⟨OK, some "example.com", some msgAlice.dn⟩,
        [reqAliceUpn, reqUpnRealm dirUpnAlice "EXAMPLE.COM",
          reqDomainStage dirUpnAlice FQDN_1779 filterCrossRefDn,
          reqSamAccount dirUpnAlice FQDN_1779 (some "DC=example,DC=com") "alice"]⟩
      (by decide) rfl rfl rfl,
    ((C13_principal_status_mapping dirUpnAlice 2 (some "alice@EXAMPLE.COM") true
      crack_user_principal_name USER_PRINCIPAL (Or.inl ⟨rfl, rfl⟩)).2.2.2.2.1
      ⟨WERR_OK, ⟨OK, some "example.com", some msgAlice.dn⟩,
        [reqAliceUpn, reqUpnRealm dirUpnAlice "EXAMPLE.COM",
          reqDomainStage dirUpnAlice FQDN_1779 filterCrossRefDn,
          reqSamAccount dirUpnAlice FQDN_1779 (some "DC=example,DC=com") "alice"]⟩
      ⟨WERR_OK, ⟨NOT_FOUND, none, none⟩, [reqCrossRefStage]⟩
      (by decide) rfl rfl rfl (by decide)).2.1 rfl (Or.inl rfl),
    (C13_principal_status_mapping (refEnv []) 2 (some "cifs/host.example.com") false
      crack_service_principal_name SERVICE_PRINCIPAL (Or.inr ⟨rfl, rfl⟩)).2.1
      ⟨WERR_OK, ⟨DOMAIN_ONLY, some "host.example.com", none⟩, [reqCifsSpn, reqSpnMappings]⟩
      (by decide) rfl (Or.inr (Or.inl rfl))⟩


/-! ## The batch operations -/

theorem crack_names_loop_all_ok (call : Option String → Option Run) :
    ∀ (todo : List (Option String)) (rs : List Run) (names : List drsuapi_DsNameInfo1)
      (log : List SearchReq),
      List.Forall₂ (fun n r => call n = some r ∧ r.werr = WERR_OK) todo rs →
      crack_names_loop call todo names log =
        some (WERR_OK, names ++ rs.map Run.info1, log ++ rs.flatMap Run.log) := by
  intro todo rs names log h
  induction h generalizing names log with
  | nil => simp [crack_names_loop]
  | cons hhead _ ih =>
    rename_i n r todo rs
    simp only [crack_names_loop, hhead.1, hhead.2, ne_eq, not_true_eq_false, if_false]
    rw [ih]
    simp [List.flatMap_cons, List.append_assoc]

theorem crack_names_loop_first_failure (call : Option String → Option Run) :
    ∀ (pre : List (Option String)) (rs : List Run) (n : Option String)
      (post : List (Option String)) (r : Run) (names : List drsuapi_DsNameInfo1)
      (log : List SearchReq),
      List.Forall₂ (fun n r => call n = some r ∧ r.werr = WERR_OK) pre rs →
      call n = some r → r.werr ≠ WERR_OK →
      crack_names_loop call (pre ++ n :: post) names log =
        some (r.werr, names ++ rs.map Run.info1, log ++ rs.flatMap Run.log ++ r.log) := by
  intro pre rs n post r names log h hn hr
  induction h generalizing names log with
  | nil => simp [crack_names_loop, hn, hr]
  | cons hhead _ ih =>
    rename_i n1 r1 todo rs
    rw [List.cons_append, crack_names_loop]
    simp only [hhead.1, hhead.2, ne_eq, not_true_eq_false, if_false]
    rw [ih]
    simp [List.flatMap_cons, List.append_assoc]

/-- C14: `dcesrv_drsuapi_CrackNamesByNameFormat` is all-or-nothing and keeps
the order of the request. If the crack of every name (with the flags and
formats of the request) returns without hard failure, the batch returns
`WERR_OK`, the container has count `req1.count` and its entry `i` is the
result record of the crack of name `i`, whatever its status; the list of
entries has as many elements as the request has names. If the cracks of the
names before some name return without hard failure and the crack of that name
returns a hard failure, the batch returns that failure, the names after it are
not cracked, and the container has count 0 and no array. -/
theorem C14_batch_all_or_nothing (env : Env) (fuel : Nat) (req1 : drsuapi_DsNameRequest1) :
    (∀ rs : List Run,
        List.Forall₂ (fun n r =>
          DsCrackNameOneName env fuel req1.format_flags req1.format_offered
            req1.format_desired n = some r ∧ r.werr = WERR_OK) req1.names rs →
        dcesrv_drsuapi_CrackNamesByNameFormat env fuel req1 =
            some ⟨WERR_OK, ⟨req1.names.length, some (rs.map Run.info1)⟩,
              rs.flatMap Run.log⟩ ∧
          (rs.map Run.info1).length = req1.names.length) ∧
      (∀ (pre : List (Option String)) (n : Option String) (post : List (Option String))
          (rs : List Run) (r : Run),
        req1.names = pre ++ n :: post →
        List.Forall₂ (fun n r =>
          DsCrackNameOneName env fuel req1.format_flags req1.format_offered
            req1.format_desired n = some r ∧ r.werr = WERR_OK) pre rs →
        DsCrackNameOneName env fuel req1.format_flags req1.format_offered
          req1.format_desired n = some r →
        r.werr ≠ WERR_OK →
        dcesrv_drsuapi_CrackNamesByNameFormat env fuel req1 =
          some ⟨r.werr, ⟨0, none⟩, rs.flatMap Run.log ++ r.log⟩) := by
  refine ⟨?_, ?_⟩
  · intro rs h
    refine ⟨?_, ?_⟩
    · simp only [dcesrv_drsuapi_CrackNamesByNameFormat,
        crack_names_loop_all_ok _ req1.names rs [] [] h, ne_eq, not_true_eq_false, if_false,
        List.nil_append]
    · rw [List.length_map, h.length_eq]
  · intro pre n post rs r hnames h hn hr
    simp only [dcesrv_drsuapi_CrackNamesByNameFormat, hnames,
      crack_names_loop_first_failure _ pre rs n post r [] [] h hn hr, ne_eq, hr,
      not_false_eq_true, if_true, List.nil_append]

/-- C14, witness: in the directory with the one object named `Administrator`
the batch of the display names `Administrator`, `Nobody`, `Administrator`
returns three entries in that order, the second NotFound; with the second name
absent (a hard failure of its crack) the batch returns that failure with count
0 and no entries, after the search for the first name only. -/
theorem C14_batch_all_or_nothing_witness :
    dcesrv_drsuapi_CrackNamesByNameFormat dirDisplayAdmin 1
        (reqDisplayNames [some "Administrator", some "Nobody", some "Administrator"]) =
        some ⟨WERR_OK, ⟨3, some [infoAdministratorDn, ⟨NOT_FOUND, none, none⟩,
            infoAdministratorDn]⟩,
          [reqDisplayAdministrator, reqDisplayNobody, reqDisplayAdministrator]⟩ ∧
      dcesrv_drsuapi_CrackNamesByNameFormat dirDisplayAdmin 1
        (reqDisplayNames [some "Administrator", none, some "Administrator"]) =
        some ⟨WERR_INVALID_PARAMETER, ⟨0, none⟩, [reqDisplayAdministrator]⟩ :=
  ⟨((C14_batch_all_or_nothing dirDisplayAdmin 1
      (reqDisplayNames [some "Administrator", some "Nobody", some "Administrator"])).1
      [runAdministrator, runStatus NOT_FOUND [reqDisplayNobody], runAdministrator]
      (List.Forall₂.cons (by decide) (List.Forall₂.cons (by decide)
        (List.Forall₂.cons (by decide) List.Forall₂.nil)))).1,
    (C14_batch_all_or_nothing dirDisplayAdmin 1
      (reqDisplayNames [some "Administrator", none, some "Administrator"])).2
      [some "Administrator"] none [some "Administrator"] [runAdministrator]
      ⟨WERR_INVALID_PARAMETER, info1_init, []⟩ rfl
      (List.Forall₂.cons (by decide) List.Forall₂.nil) (by decide) (by decide)⟩


theorem list_roles_loop_all_ok (renv : RolesEnv) :
    ∀ (todo : List Nat) (names : List drsuapi_DsNameInfo1),
      (∀ i ∈ todo, (renv.dsdb_get_fsmo_role_info i).1 = WERR_OK) →
      list_roles_loop renv todo names = (WERR_OK, names ++ todo.map (roleEntry renv)) := by
  intro todo
  induction todo with
  | nil => intro names _; simp [list_roles_loop]
  | cons i rest ih =>
    intro names h
    have hi := h i (List.mem_cons_self _ _)
    rcases hinfo : renv.dsdb_get_fsmo_role_info i with ⟨werr, role, owner⟩
    rw [hinfo] at hi
    simp only at hi
    subst hi
    rw [list_roles_loop]
    simp only [hinfo, ne_eq, not_true_eq_false, if_false]
    rw [ih _ (fun j hj => h j (List.mem_cons_of_mem _ hj))]
    simp [roleEntry, hinfo]

theorem list_roles_loop_first_failure (renv : RolesEnv) :
    ∀ (pre : List Nat) (k : Nat) (post : List Nat) (names : List drsuapi_DsNameInfo1),
      (∀ i ∈ pre, (renv.dsdb_get_fsmo_role_info i).1 = WERR_OK) →
      (renv.dsdb_get_fsmo_role_info k).1 ≠ WERR_OK →
      list_roles_loop renv (pre ++ k :: post) names =
        ((renv.dsdb_get_fsmo_role_info k).1, names ++ pre.map (roleEntry renv)) := by
  intro pre
  induction pre with
  | nil =>
    intro k post names _ hk
    rcases hinfo : renv.dsdb_get_fsmo_role_info k with ⟨werr, role, owner⟩
    rw [hinfo] at hk
    simp only at hk
    rw [List.nil_append, list_roles_loop]
    simp [hinfo, hk]
  | cons i rest ih =>
    intro k post names h hk
    have hi := h i (List.mem_cons_self _ _)
    rcases hinfo : renv.dsdb_get_fsmo_role_info i with ⟨werr, role, owner⟩
    rw [hinfo] at hi
    simp only at hi
    subst hi
    rw [List.cons_append, list_roles_loop]
    simp only [hinfo, ne_eq, not_true_eq_false, if_false]
    rw [ih k post _ (fun j hj => h j (List.mem_cons_of_mem _ hj)) hk]
    simp [roleEntry, hinfo]

/-- C20: `dcesrv_drsuapi_ListRoles` either fails hard or returns five entries
in role order. If the owner lookup of each of the roles 0..4 succeeds, the
result is `WERR_OK` with count 5 and entry `i` has status Ok and as result
name the DN of the owner of role `i` (its `dns_domain_name` is the host name
of the owning server, present or not). If the lookup of role `k` is the first
that fails, the result is that failure and no container is filled. The result
does not depend on the request. -/
theorem C20_list_roles (renv : RolesEnv) (req1 : drsuapi_DsNameRequest1) :
    ((∀ i, i < 5 → (renv.dsdb_get_fsmo_role_info i).1 = WERR_OK) →
        dcesrv_drsuapi_ListRoles renv req1 =
            (WERR_OK, some ⟨5, some ((List.range 5).map (roleEntry renv))⟩) ∧
          ((List.range 5).map (roleEntry renv)).length = 5 ∧
          ∀ i, i < 5 →
            ((List.range 5).map (roleEntry renv))[i]? = some (roleEntry renv i) ∧
              (roleEntry renv i).status = OK ∧
              (roleEntry renv i).result_name = some (renv.dsdb_get_fsmo_role_info i).2.2) ∧
      (∀ k, k < 5 → (∀ i, i < k → (renv.dsdb_get_fsmo_role_info i).1 = WERR_OK) →
        (renv.dsdb_get_fsmo_role_info k).1 ≠ WERR_OK →
        dcesrv_drsuapi_ListRoles renv req1 = ((renv.dsdb_get_fsmo_role_info k).1, none)) ∧
      (∀ req2, dcesrv_drsuapi_ListRoles renv req1 = dcesrv_drsuapi_ListRoles renv req2) := by
  refine ⟨?_, ?_, ?_⟩
  · intro h
    refine ⟨?_, by simp, ?_⟩
    · simp only [dcesrv_drsuapi_ListRoles]
      rw [list_roles_loop_all_ok renv (List.range 5) []
        (fun i hi => h i (List.mem_range.mp hi))]
      simp
    · intro i hi
      refine ⟨?_, rfl, rfl⟩
      rw [List.getElem?_map, List.getElem?_range hi]
      rfl
  · intro k hk hpre hfail
    have hsplit : List.range 5 = List.range k ++ k :: List.range' (k + 1) (4 - k) := by
      interval_cases k <;> rfl
    simp only [dcesrv_drsuapi_ListRoles]
    rw [hsplit, list_roles_loop_first_failure renv (List.range k) k _ []
      (fun i hi => hpre i (List.mem_range.mp hi)) hfail]
    simp [hfail]
  · intro req2
    rfl

/-- C20, witness: with every role owned by a server whose host name cannot be
found, the five entries are Ok with the owner DN and no host name; when the
lookup of role 2 fails, the call returns that failure and no container. -/
theorem C20_list_roles_witness :
    dcesrv_drsuapi_ListRoles rolesNoHostname reqExampleServer =
        (WERR_OK, some ⟨5, some (List.replicate 5 ⟨OK, none, some dsaDn⟩)⟩) ∧
      dcesrv_drsuapi_ListRoles rolesThirdFails reqExampleServer = (WERR_FOOBAR, none) :=
  ⟨((C20_list_roles rolesNoHostname reqExampleServer).1 (fun _ _ => rfl)).1,
    (C20_list_roles rolesThirdFails reqExampleServer).2.1 2 (by decide)
      (fun i hi => by interval_cases i <;> rfl) (by decide)⟩

/-- C19, counterexample: the example server object has a `dNSHostName` and a
`serverReference` but no nTDSDSA child; for the request naming it all three
entries are NotFound and the server object is not read. -/
theorem C19_counterexample :
    dirServerNoDsa.search (reqServerObject serverDn) = ⟨0, [msgServer]⟩ ∧
      ldb_msg_find_attr_as_string msgServer "dNSHostName" = some "dc1.example.com" ∧
      ref_result_dn msgServer "serverReference" =
        some "CN=DC1,OU=Domain Controllers,DC=example,DC=com" ∧
      dirServerNoDsa.search (reqServerDsa serverDn) = ⟨0, []⟩ ∧
      dcesrv_drsuapi_ListInfoServer dirServerNoDsa ref_result_dn reqExampleServer =
        ⟨WERR_OK, ⟨3, some [entryNotFound, entryNotFound, entryNotFound]⟩,
          [reqServerDsa serverDn]⟩ := by
  decide

/-- C19, amended: `dcesrv_drsuapi_ListInfoServer` always returns `WERR_OK`
with exactly three entries, each either NotFound without names or Ok with a
result name. Entries 1 and 2 are filled only after entry 0: when the request
does not name exactly one server, or the search for the nTDSDSA children of
the server fails or does not return exactly one object, all three entries are
NotFound whatever the server object holds; when entry 0 is resolved and the
fetch of the server object fails or does not return exactly one object,
entries 1 and 2 are NotFound; when the fetch returns one object, entry 1 is Ok
with its `dNSHostName` if it has one and entry 2 is Ok with its
`serverReference` if it has one, each independently of the other. -/
theorem C19_list_info_server (env : Env)
    (ldb_msg_find_attr_as_dn : ldb_message → String → Option String)
    (req1 : drsuapi_DsNameRequest1) :
    ((dcesrv_drsuapi_ListInfoServer env ldb_msg_find_attr_as_dn req1).werr = WERR_OK ∧
        ∃ e0 e1 e2,
          (dcesrv_drsuapi_ListInfoServer env ldb_msg_find_attr_as_dn req1).ctr1 =
              ⟨3, some [e0, e1, e2]⟩ ∧
            ∀ e ∈ [e0, e1, e2], e = entryNotFound ∨ ∃ v, e = ⟨OK, none, some v⟩) ∧
      ((∀ str, req1.names ≠ [some str]) →
        dcesrv_drsuapi_ListInfoServer env ldb_msg_find_attr_as_dn req1 =
          ⟨WERR_OK, ⟨3, some [entryNotFound, entryNotFound, entryNotFound]⟩, []⟩) ∧
      (∀ str, req1.names = [some str] →
        ((env.search (reqServerDsa str)).ret ≠ 0 ∨
          (env.search (reqServerDsa str)).msgs.length ≠ 1) →
        dcesrv_drsuapi_ListInfoServer env ldb_msg_find_attr_as_dn req1 =
          ⟨WERR_OK, ⟨3, some [entryNotFound, entryNotFound, entryNotFound]⟩,
            [reqServerDsa str]⟩) ∧
      (∀ str dsa, req1.names = [some str] →
        env.search (reqServerDsa str) = ⟨0, [dsa]⟩ →
        ((env.search (reqServerObject str)).ret ≠ 0 ∨
          (env.search (reqServerObject str)).msgs.length ≠ 1) →
        dcesrv_drsuapi_ListInfoServer env ldb_msg_find_attr_as_dn req1 =
          ⟨WERR_OK, ⟨3, some [⟨OK, none, some dsa.dn⟩, entryNotFound, entryNotFound]⟩,
            [reqServerDsa str, reqServerObject str]⟩) ∧
      (∀ str dsa server, req1.names = [some str] →
        env.search (reqServerDsa str) = ⟨0, [dsa]⟩ →
        env.search (reqServerObject str) = ⟨0, [server]⟩ →
        dcesrv_drsuapi_ListInfoServer env ldb_msg_find_attr_as_dn req1 =
          ⟨WERR_OK, ⟨3, some [⟨OK, none, some dsa.dn⟩,
              entryOfValue (ldb_msg_find_attr_as_string server "dNSHostName"),
              entryOfValue (ldb_msg_find_attr_as_dn server "serverReference")]⟩,
            [reqServerDsa str, reqServerObject str]⟩) := by
  have hval : ∀ v : Option String,
      entryOfValue v = entryNotFound ∨ ∃ w, entryOfValue v = ⟨OK, none, some w⟩ := by
    intro v
    cases v with
    | none => exact Or.inl rfl
    | some w => exact Or.inr ⟨w, rfl⟩
  refine ⟨?_, ?_, ?_, ?_, ?_⟩
  · unfold dcesrv_drsuapi_ListInfoServer
    simp only
    repeat' split
    all_goals
      refine ⟨rfl, _, _, _, rfl, ?_⟩
      intro e he
      simp only [List.mem_cons, List.mem_singleton, List.not_mem_nil, or_false] at he
      rcases he with he | he | he <;> subst he <;>
        first
        | exact Or.inl rfl
        | exact Or.inr ⟨_, rfl⟩
        | exact hval _
  · intro h
    unfold dcesrv_drsuapi_ListInfoServer
    simp only
    split
    · rfl
    · rename_i str hn
      exact absurd hn (h str)
    · rfl
  · intro str hn h
    unfold dcesrv_drsuapi_ListInfoServer
    simp only [hn]
    split
    · rfl
    · rename_i hret
      split
      · rename_i dsa hm
        rcases h with h | h
        · exact absurd h hret
        · rw [hm] at h
          exact absurd rfl h
      · rfl
  · intro str dsa hn h1 h
    unfold dcesrv_drsuapi_ListInfoServer
    simp only [hn, h1, ne_eq, not_true_eq_false, if_false]
    split
    · rfl
    · rename_i hret
      split
      · rename_i server hm
        rcases h with h | h
        · exact absurd h hret
        · rw [hm] at h
          exact absurd rfl h
      · rfl
  · intro str dsa server hn h1 h2
    unfold dcesrv_drsuapi_ListInfoServer
    simp only [hn, h1, h2, ne_eq, not_true_eq_false, if_false]

/-- C19, witness: with the nTDSDSA child present the three entries of the
example server are its nTDSDSA DN, its host name and its computer account;
without the child all three are NotFound. -/
theorem C19_list_info_server_witness :
    dcesrv_drsuapi_ListInfoServer dirServer ref_result_dn reqExampleServer =
        ⟨WERR_OK, ⟨3, some [⟨OK, none, some dsaDn⟩, ⟨OK, none, some "dc1.example.com"⟩,
            ⟨OK, none, some "CN=DC1,OU=Domain Controllers,DC=example,DC=com"⟩]⟩,
          [reqServerDsa serverDn, reqServerObject serverDn]⟩ ∧
      dcesrv_drsuapi_ListInfoServer dirServerNoDsa ref_result_dn reqExampleServer =
        ⟨WERR_OK, ⟨3, some [entryNotFound, entryNotFound, entryNotFound]⟩,
          [reqServerDsa serverDn]⟩ :=
  ⟨(C19_list_info_server dirServer ref_result_dn reqExampleServer).2.2.2.2 serverDn
      ⟨dsaDn, []⟩ msgServer rfl (by decide) (by decide),
    (C19_list_info_server dirServerNoDsa ref_result_dn reqExampleServer).2.2.1 serverDn rfl
      (Or.inr (by decide))⟩


/-! ## The flag SYNTACTICAL_ONLY -/

/-- C15, the code at the failing input: with the flag SYNTACTICAL_ONLY set, the
canonical name `example.com/Users/Administrator` (and its CanonicalEx form)
makes `DsCrackNameOneName` search the partitions container for the crossRef
of `example.com` and then the naming context for `name=Users`: the path walk
of `get_format_functional_filtering_param` runs inside the `switch`, before
the flag is tested. The walk finding nothing, the status is NotFound and not
NoSyntacticalMapping. -/
theorem C15_syntactical_only_searches :
    DsCrackNameOneName dirCrossRefOnly 1 syntacticalOnly CANONICAL FQDN_1779
        (some "example.com/Users/Administrator") =
        some ⟨WERR_OK, ⟨NOT_FOUND, none, none⟩, [reqCrossRefWalk, reqWalkUsers]⟩ ∧
      DsCrackNameOneName dirCrossRefOnly 1 syntacticalOnly CANONICAL_EX FQDN_1779
        (some "example.com/Users\nAdministrator") =
        some ⟨WERR_OK, ⟨NOT_FOUND, none, none⟩, [reqCrossRefWalk, reqWalkUsers]⟩ := by
  decide

theorem crack_after_switch_syntactical (env : Env) (recName : OneNameFn)
    (recFilter : OneFilterFn) (a : FilterArgs) (log : List SearchReq)
    (hsyn : a.format_flags.SYNTACTICAL_ONLY = true) (hoff : a.format_offered ≠ FQDN_1779) :
    crack_after_switch env recName recFilter a log =
      some ⟨WERR_OK, { a.info1 with status := NO_SYNTACTICAL_MAPPING }, log⟩ := by
  simp [crack_after_switch, hsyn, DsCrackNameOneSyntactical, hoff]

theorem name_body_syntactical_not_ok (env : Env) (recName : OneNameFn)
    (recFilter : OneFilterFn) (format_flags : FormatFlags)
    (format_offered format_desired : drsuapi_DsNameFormat) (name : Option String) (r : Run)
    (hsyn : format_flags.SYNTACTICAL_ONLY = true) (hfq : format_offered ≠ FQDN_1779)
    (hun : format_offered ≠ UNKNOWN)
    (h : DsCrackNameOneName_body env recName recFilter format_flags format_offered
      format_desired name = some r) : r.info1.status ≠ OK := by
  cases format_offered
  case UNKNOWN => exact absurd rfl hun
  case FQDN_1779 => exact absurd rfl hfq
  all_goals
    cases name with
    | none =>
      simp only [DsCrackNameOneName_body, Option.some.injEq] at h
      subst h
      simp [info1_init]
    | some name =>
      by_cases hd : format_desired = UNKNOWN
      · simp only [DsCrackNameOneName_body, hd, if_true, Option.some.injEq] at h
        subst h
        simp [info1_init]
      · simp only [DsCrackNameOneName_body, if_neg hd, reduceCtorEq, if_false] at h
        repeat' split at h
        all_goals first
          | (rw [crack_after_switch_syntactical _ _ _ _ _ hsyn (by simp)] at h
             simp only [Option.some.injEq] at h
             subst h
             simp)
          | (simp only [Option.some.injEq] at h
             subst h
             first
               | exact functional_param_status _ _ _ _ (by simp [info1_init])
               | exact dns_domain_from_principal_status _ _ _
               | (simp [info1_init]))


/-- C16, counterexample: with the flag SYNTACTICAL_ONLY set, the valid DN of
the example user offered as DN with desired Canonical yields Ok with the
canonical name, not NoSyntacticalMapping; and the same DN offered as Unknown
with desired CanonicalEx yields Ok too. -/
theorem C16_counterexample :
    (refEnv []).ldb_dn_validate dnAdministrator = true ∧
      DsCrackNameOneName (refEnv []) 1 syntacticalOnly FQDN_1779 CANONICAL
        (some dnAdministrator) =
        some ⟨WERR_OK, ⟨OK, none, some "example.com/Users/Administrator"⟩, []⟩ ∧
      DsCrackNameOneName (refEnv []) 2 syntacticalOnly UNKNOWN CANONICAL_EX
        (some dnAdministrator) =
        some ⟨WERR_OK, ⟨OK, none, some "example.com/Users\nAdministrator"⟩, []⟩ := by
  decide

/-- C16, amended: with the flag SYNTACTICAL_ONLY set and a desired format
other than UNKNOWN, a valid DN offered as DN yields Ok with its canonical-ex
rendering for desired CanonicalEx, Ok with its canonical rendering for desired
Canonical, and NoSyntacticalMapping for every other desired format, each
without directory search. An offered Display name, NT4 account name with a
backslash, GUID or SID that parses, user principal or service principal that
parses, and Canonical or CanonicalEx name with nothing after the domain
component all yield NoSyntacticalMapping without directory search, whatever
the desired format. No offered format other than DN and Unknown ever yields
status Ok. -/
theorem C16_syntactical_only (env : Env) (fuel : Nat) (format_flags : FormatFlags)
    (format_desired : drsuapi_DsNameFormat) (name : String)
    (hsyn : format_flags.SYNTACTICAL_ONLY = true) (hd : format_desired ≠ UNKNOWN) :
    (∀ cracked, env.ldb_dn_validate name = true → format_desired = CANONICAL_EX →
        env.ldb_dn_canonical_ex_string name = some cracked →
        DsCrackNameOneName env (fuel + 1) format_flags FQDN_1779 format_desired (some name) =
          some ⟨WERR_OK, ⟨OK, none, some cracked⟩, []⟩) ∧
      (∀ cracked, env.ldb_dn_validate name = true → format_desired = CANONICAL →
        env.ldb_dn_canonical_string name = some cracked →
        DsCrackNameOneName env (fuel + 1) format_flags FQDN_1779 format_desired (some name) =
          some ⟨WERR_OK, ⟨OK, none, some cracked⟩, []⟩) ∧
      (env.ldb_dn_validate name = true → format_desired ≠ CANONICAL →
        format_desired ≠ CANONICAL_EX →
        DsCrackNameOneName env (fuel + 1) format_flags FQDN_1779 format_desired (some name) =
          some ⟨WERR_OK, ⟨NO_SYNTACTICAL_MAPPING, none, none⟩, []⟩) ∧
      DsCrackNameOneName env (fuel + 1) format_flags DISPLAY format_desired (some name) =
        some ⟨WERR_OK, ⟨NO_SYNTACTICAL_MAPPING, none, none⟩, []⟩ ∧
      (∀ domain account, strchr_split name '\\' = some (domain, account) →
        DsCrackNameOneName env (fuel + 1) format_flags NT4_ACCOUNT format_desired (some name) =
          some ⟨WERR_OK, ⟨NO_SYNTACTICAL_MAPPING, none, none⟩, []⟩) ∧
      (∀ guid ldap_guid, env.GUID_from_string name = some guid →
        env.ldap_encode_ndr_GUID guid = some ldap_guid →
        DsCrackNameOneName env (fuel + 1) format_flags .GUID format_desired (some name) =
          some ⟨WERR_OK, ⟨NO_SYNTACTICAL_MAPPING, none, none⟩, []⟩) ∧
      (∀ sid ldap_sid, env.dom_sid_parse_talloc name = some sid →
        env.ldap_encode_ndr_dom_sid sid = some ldap_sid →
        DsCrackNameOneName env (fuel + 1) format_flags SID_OR_SID_HISTORY format_desired
          (some name) = some ⟨WERR_OK, ⟨NO_SYNTACTICAL_MAPPING, none, none⟩, []⟩) ∧
      (∀ principal unparsed_name, env.smb_krb5_init_context = true →
        env.krb5_parse_name_flags ParseFlags.NONE name = some principal →
        env.krb5_unparse_name_flags false true principal = some unparsed_name →
        DsCrackNameOneName env (fuel + 1) format_flags USER_PRINCIPAL format_desired
          (some name) = some ⟨WERR_OK, ⟨NO_SYNTACTICAL_MAPPING, none, none⟩, []⟩) ∧
      (∀ principal unparsed_name_short, env.smb_krb5_init_context = true →
        (∀ p, env.krb5_parse_name_flags ParseFlags.NONE name = some p →
          2 ≤ p.components.length) →
        env.krb5_parse_name_flags ParseFlags.NO_REALM name = some principal →
        env.krb5_unparse_name_flags true false principal = some unparsed_name_short →
        DsCrackNameOneName env (fuel + 1) format_flags SERVICE_PRINCIPAL format_desired
          (some name) = some ⟨WERR_OK, ⟨NO_SYNTACTICAL_MAPPING, none, none⟩, []⟩) ∧
      (∀ domain, name.length ≠ 0 → strchr_split name '/' = some (domain, "") →
        DsCrackNameOneName env (fuel + 1) format_flags CANONICAL format_desired (some name) =
          some ⟨WERR_OK, ⟨NO_SYNTACTICAL_MAPPING, none, none⟩, []⟩) ∧
      (∀ str domain, name.length ≠ 0 → strrchr_replace name '\n' '/' = some str →
        strchr_split str '/' = some (domain, "") →
        DsCrackNameOneName env (fuel + 1) format_flags CANONICAL_EX format_desired
          (some name) = some ⟨WERR_OK, ⟨NO_SYNTACTICAL_MAPPING, none, none⟩, []⟩) ∧
      (∀ format_offered r, format_offered ≠ FQDN_1779 → format_offered ≠ UNKNOWN →
        DsCrackNameOneName env (fuel + 1) format_flags format_offered format_desired
          (some name) = some r →
        r.info1.status ≠ OK) := by
  refine ⟨?_, ?_, ?_, ?_, ?_, ?_, ?_, ?_, ?_, ?_, ?_, ?_⟩
  · intro cracked hv hdes hc
    subst hdes
    rw [DsCrackNameOneName_succ]
    simp [DsCrackNameOneName_body, hv, crack_after_switch, hsyn, DsCrackNameOneSyntactical,
      hc, info1_init]
  · intro cracked hv hdes hc
    subst hdes
    rw [DsCrackNameOneName_succ]
    simp [DsCrackNameOneName_body, hv, crack_after_switch, hsyn, DsCrackNameOneSyntactical,
      hc, info1_init]
  · intro hv h1 h2
    rw [DsCrackNameOneName_succ]
    cases format_desired <;>
      first
        | exact absurd rfl hd
        | exact absurd rfl h1
        | exact absurd rfl h2
        | simp [DsCrackNameOneName_body, hv, crack_after_switch, hsyn,
            DsCrackNameOneSyntactical, info1_init]
  · rw [DsCrackNameOneName_succ]
    simp only [DsCrackNameOneName_body, if_neg hd]
    rw [crack_after_switch_syntactical _ _ _ _ _ hsyn (by simp)]
    rfl
  · intro domain account hs
    rw [DsCrackNameOneName_succ]
    simp only [DsCrackNameOneName_body, if_neg hd, hs]
    rw [crack_after_switch_syntactical _ _ _ _ _ hsyn (by simp)]
    rfl
  · intro guid ldap_guid h1 h2
    rw [DsCrackNameOneName_succ]
    simp only [DsCrackNameOneName_body, if_neg hd, h1, h2]
    rw [crack_after_switch_syntactical _ _ _ _ _ hsyn (by simp)]
    rfl
  · intro sid ldap_sid h1 h2
    rw [DsCrackNameOneName_succ]
    simp only [DsCrackNameOneName_body, if_neg hd, h1, h2]
    rw [crack_after_switch_syntactical _ _ _ _ _ hsyn (by simp)]
    rfl
  · intro principal unparsed_name h0 h1 h2
    rw [DsCrackNameOneName_succ]
    simp only [DsCrackNameOneName_body, if_neg hd, h0, h1, h2, not_true_eq_false, if_false]
    rw [crack_after_switch_syntactical _ _ _ _ _ hsyn (by simp)]
    rfl
  · intro principal unparsed_name_short h0 hlen h1 h2
    have hshort : (match env.krb5_parse_name_flags ParseFlags.NONE name with
        | some principal => decide (principal.components.length < 2)
        | none => false) = false := by
      cases hp : env.krb5_parse_name_flags ParseFlags.NONE name with
      | none => rfl
      | some p =>
        have := hlen p hp
        simp only [decide_eq_false_iff_not, not_lt]
        exact this
    rw [DsCrackNameOneName_succ]
    simp only [DsCrackNameOneName_body, if_neg hd, h0, h1, h2, hshort, not_true_eq_false,
      if_false, Bool.false_eq_true]
    by_cases hl : principal.components.length = 2
    · obtain ⟨c, hc⟩ : ∃ c, principal.components[1]? = some c := by
        rw [List.getElem?_eq_getElem (by omega)]
        exact ⟨_, rfl⟩
      simp only [hl, if_true, hc]
      split
      · rw [crack_after_switch_syntactical _ _ _ _ _ hsyn (by simp)]
        rfl
      · rw [crack_after_switch_syntactical _ _ _ _ _ hsyn (by simp)]
        rfl
    · simp only [hl, if_false, Bool.false_eq_true]
      rw [crack_after_switch_syntactical _ _ _ _ _ hsyn (by simp)]
      rfl
  · intro domain hlen hs
    rw [DsCrackNameOneName_succ]
    simp only [DsCrackNameOneName_body, if_neg hd, hlen, if_false, reduceCtorEq, hs,
      String.length_empty, ne_eq, not_true_eq_false]
    rw [crack_after_switch_syntactical _ _ _ _ _ hsyn (by simp)]
    rfl
  · intro str domain hlen hr hs
    rw [DsCrackNameOneName_succ]
    simp only [DsCrackNameOneName_body, if_neg hd, hlen, if_false, if_true, hr, hs,
      String.length_empty, ne_eq, not_true_eq_false]
    rw [crack_after_switch_syntactical _ _ _ _ _ hsyn (by simp)]
    rfl
  · intro format_offered r hfq hun h
    rw [DsCrackNameOneName_succ] at h
    exact name_body_syntactical_not_ok env _ _ format_flags format_offered format_desired
      (some name) r hsyn hfq hun h

/-- C16, witness: for the DN of the example user under SYNTACTICAL_ONLY,
desired CanonicalEx gives Ok with `example.com/Users`, a newline and
`Administrator`; desired GUID gives NoSyntacticalMapping; and the NT4 name
`EXAMPLE\Administrator` gives NoSyntacticalMapping. -/
theorem C16_syntactical_only_witness :
    DsCrackNameOneName (refEnv []) 1 syntacticalOnly FQDN_1779 CANONICAL_EX
        (some dnAdministrator) =
        some ⟨WERR_OK, ⟨OK, none, some "example.com/Users\nAdministrator"⟩, []⟩ ∧
      DsCrackNameOneName (refEnv []) 1 syntacticalOnly FQDN_1779 .GUID
        (some dnAdministrator) =
        some ⟨WERR_OK, ⟨NO_SYNTACTICAL_MAPPING, none, none⟩, []⟩ ∧
      DsCrackNameOneName (refEnv []) 1 syntacticalOnly NT4_ACCOUNT FQDN_1779
        (some "EXAMPLE\\Administrator") =
        some ⟨WERR_OK, ⟨NO_SYNTACTICAL_MAPPING, none, none⟩, []⟩ :=
  ⟨(C16_syntactical_only (refEnv []) 0 syntacticalOnly CANONICAL_EX dnAdministrator rfl
      (by decide)).1 "example.com/Users\nAdministrator" (by decide) rfl (by decide),
    (C16_syntactical_only (refEnv []) 0 syntacticalOnly .GUID dnAdministrator rfl
      (by decide)).2.2.1 (by decide) (by decide) (by decide),
    (C16_syntactical_only (refEnv []) 0 syntacticalOnly FQDN_1779 "EXAMPLE\\Administrator" rfl
      (by decide)).2.2.2.2.1 "EXAMPLE" "Administrator" (by decide)⟩


/-! ## The desired format DnsDomain -/

theorem filter_domain_stage_inr_status (env : Env) (a : FilterArgs) (d : DomainStage)
    (h : filter_domain_stage env a = Sum.inr d) : d.info1.status ≠ OK := by
  simp only [filter_domain_stage] at h
  repeat' split at h
  all_goals first
    | (cases h; done)
    | (cases h
       simp)

theorem filter_domain_stage_inl_status (env : Env) (a : FilterArgs) (r : Run)
    (hst : a.info1.status ≠ OK) (h : filter_domain_stage env a = Sum.inl r) :
    r.info1.status ≠ OK := by
  simp only [filter_domain_stage] at h
  repeat' split at h
  all_goals first
    | (cases h; done)
    | (cases h
       first
         | exact hst
         | simp)

theorem filter_locate_stage_inr_status (env : Env) (a : FilterArgs) (d : DomainStage)
    (l : LocateStage) (hst : d.info1.status ≠ OK) (h : filter_locate_stage env a d = Sum.inr l) :
    l.info1.status ≠ OK := by
  simp only [filter_locate_stage] at h
  repeat' split at h
  all_goals first
    | (cases h; done)
    | (cases h
       first
         | exact hst
         | simp)

theorem filter_finish_dns_domain_status (env : Env) (result : ldb_message)
    (info1 : drsuapi_DsNameInfo1) (log : List SearchReq) (hst : info1.status ≠ OK) :
    (filter_finish env DNS_DOMAIN result info1 log).info1.status ≠ OK := by
  simp only [filter_finish]
  split
  · exact hst
  · simp [filter_render]

theorem spn_alias_not_ok (env : Env) (recName : OneNameFn) (fl : FormatFlags)
    (off des : drsuapi_DsNameFormat) (name : String) (info1 : drsuapi_DsNameInfo1) (r : Run)
    (hst : info1.status ≠ OK)
    (hrec : ∀ n q, recName fl off des n = some q → q.info1.status ≠ OK)
    (h : DsCrackNameSPNAlias env recName fl off des name info1 = some r) :
    r.info1.status ≠ OK := by
  simp only [DsCrackNameSPNAlias] at h
  repeat' split at h
  all_goals first
    | (cases h; done)
    | (simp only [Option.some.injEq] at h
       subst h
       first
         | exact hst
         | assumption
         | (rename_i q hq _
            exact hrec _ q hq)
         | simp)

theorem upn_not_ok (env : Env) (recFilter : OneFilterFn) (fl : FormatFlags)
    (off des : drsuapi_DsNameFormat) (name : Option String) (info1 : drsuapi_DsNameInfo1)
    (r : Run) (hst : info1.status ≠ OK)
    (hrec : ∀ a q, a.format_desired = des → a.info1.status ≠ OK → recFilter a = some q →
      q.info1.status ≠ OK)
    (h : DsCrackNameUPN env recFilter fl off des name info1 = some r) :
    r.info1.status ≠ OK := by
  simp only [DsCrackNameUPN] at h
  repeat' split at h
  all_goals first
    | (simp only [Option.some.injEq] at h
       subst h
       first
         | exact hst
         | exact dns_domain_from_principal_status _ _ _
         | simp)
    | (simp only [Option.map_eq_some'] at h
       obtain ⟨q, hq, hr⟩ := h
       subst hr
       exact hrec _ q rfl hst hq)

theorem filter_body_dns_domain (env : Env) (recName : OneNameFn) (recFilter : OneFilterFn)
    (a : FilterArgs) (r : Run) (hdes : a.format_desired = DNS_DOMAIN)
    (hst : a.info1.status ≠ OK)
    (hrecName : ∀ fl off n q, recName fl off DNS_DOMAIN n = some q → q.info1.status ≠ OK)
    (hrecFilter : ∀ b q, b.format_desired = DNS_DOMAIN → b.info1.status ≠ OK →
      recFilter b = some q → q.info1.status ≠ OK)
    (h : DsCrackNameOneFilter_body env recName recFilter a = some r) :
    r.info1.status ≠ OK := by
  rw [DsCrackNameOneFilter_body] at h
  cases h1 : filter_domain_stage env a with
  | inl r0 =>
    simp only [h1, Option.some.injEq] at h
    subst h
    exact filter_domain_stage_inl_status env a r0 hst h1
  | inr d =>
    have hd := filter_domain_stage_inr_status env a d h1
    cases h2 : filter_locate_stage env a d with
    | inl r1 =>
      simp only [h1, h2, Option.some.injEq] at h
      subst h
      simp [(filter_locate_stage_inl env a d r1 h2).2.1]
    | inr l =>
      have hl := filter_locate_stage_inr_status env a d l hd h2
      simp only [h1, h2, hdes] at h
      repeat' split at h
      all_goals first
        | (simp only [Option.some.injEq] at h
           subst h
           first
             | exact filter_finish_dns_domain_status env _ _ _ hl
             | simp)
        | (simp only [Option.map_eq_some'] at h
           obtain ⟨q, hq, hr⟩ := h
           subst hr
           first
             | exact spn_alias_not_ok env recName _ _ _ _ _ q hl
                 (fun n q' hq' => hrecName _ _ n q' hq') hq
             | exact upn_not_ok env recFilter _ _ _ _ _ q hl
                 (fun b q' hb hb' hq' => hrecFilter b q' hb hb' hq') hq)

theorem crack_after_switch_dns_domain (env : Env) (recName : OneNameFn)
    (recFilter : OneFilterFn) (a : FilterArgs) (log : List SearchReq) (r : Run)
    (hdes : a.format_desired = DNS_DOMAIN) (hst : a.info1.status ≠ OK)
    (hrecName : ∀ fl off n q, recName fl off DNS_DOMAIN n = some q → q.info1.status ≠ OK)
    (hrecFilter : ∀ b q, b.format_desired = DNS_DOMAIN → b.info1.status ≠ OK →
      recFilter b = some q → q.info1.status ≠ OK)
    (h : crack_after_switch env recName recFilter a log = some r) : r.info1.status ≠ OK := by
  simp only [crack_after_switch] at h
  split at h
  · simp only [Option.some.injEq] at h
    subst h
    simp only [DsCrackNameOneSyntactical, hdes]
    split <;> simp
  · simp only [Option.map_eq_some'] at h
    obtain ⟨q, hq, hr⟩ := h
    subst hr
    exact filter_body_dns_domain env recName recFilter a q hdes hst hrecName hrecFilter hq

theorem probe_loop_not_ok (call : drsuapi_DsNameFormat → Option Run)
    (fs : List drsuapi_DsNameFormat) :
    ∀ (acc r : Run), (∀ f ∈ fs, ∀ q, call f = some q → q.info1.status ≠ OK) →
      acc.info1.status ≠ OK → probe_loop call fs acc = some r → r.info1.status ≠ OK := by
  induction fs with
  | nil =>
    intro acc r _ hacc h
    simp only [probe_loop, Option.some.injEq] at h
    subst h
    exact hacc
  | cons f rest ih =>
    intro acc r hcall hacc h
    simp only [probe_loop] at h
    cases hq : call f with
    | none => simp [hq] at h
    | some q =>
      have hqn : q.info1.status ≠ OK := hcall f (by simp) q hq
      simp only [hq] at h
      split at h
      · simp only [Option.some.injEq] at h
        subst h
        exact hqn
      · exact ih (q.after acc.log) r (fun g hg => hcall g (by simp [hg])) hqn h

theorem name_body_dns_domain (env : Env) (recName : OneNameFn) (recFilter : OneFilterFn)
    (fl : FormatFlags) (off : drsuapi_DsNameFormat) (name : Option String) (r : Run)
    (hrecName : ∀ fl' off' n q, recName fl' off' DNS_DOMAIN n = some q → q.info1.status ≠ OK)
    (hrecFilter : ∀ b q, b.format_desired = DNS_DOMAIN → b.info1.status ≠ OK →
      recFilter b = some q → q.info1.status ≠ OK)
    (h : DsCrackNameOneName_body env recName recFilter fl off DNS_DOMAIN name = some r) :
    r.info1.status ≠ OK := by
  cases name with
  | none =>
    simp only [DsCrackNameOneName_body, Option.some.injEq] at h
    subst h
    simp [info1_init]
  | some name =>
    by_cases hoff : off = UNKNOWN
    · subst hoff
      simp only [DsCrackNameOneName_body, reduceCtorEq, if_false] at h
      refine probe_loop_not_ok _ probe_formats _ r ?_ ?_ h
      · intro f _ q hq
        exact hrecName _ _ _ q hq
      · simp [info1_init]
    cases off <;> simp only [DsCrackNameOneName_body, reduceCtorEq, if_false] at h
    all_goals (repeat' split at h)
    all_goals first
      | exact absurd rfl hoff
      | exact crack_after_switch_dns_domain env recName recFilter _ _ r rfl
          (functional_param_status _ _ _ _ (by simp [info1_init])) hrecName hrecFilter h
      | exact crack_after_switch_dns_domain env recName recFilter _ _ r rfl
          (by simp [info1_init]) hrecName hrecFilter h
      | (simp only [Option.some.injEq] at h
         subst h
         first
           | (simp [info1_init]
              done)
           | exact dns_domain_from_principal_status _ _ _
           | exact functional_param_status _ _ _ _ (by simp [info1_init]))

/-- C17: a crack with desired format DnsDomain never ends with status Ok. For
every directory, fuel, flag set, offered format (Unknown with its probing loop
included) and name, a run of `DsCrackNameOneName` that returns has a status
other than Ok; so has every run of `DsCrackNameOneFilter` entered with a
status other than Ok, the fallbacks for user and service principals included.
Whenever exactly one object is located (and its canonical name can be built),
the filter crack returns without hard failure, with status ResolveError and
no `dns_domain_name`. -/
theorem C17_dns_domain_never_ok (env : Env) (fuel : Nat) :
    (∀ (format_flags : FormatFlags) (format_offered : drsuapi_DsNameFormat)
        (name : Option String) (r : Run),
        DsCrackNameOneName env fuel format_flags format_offered DNS_DOMAIN name = some r →
        r.info1.status ≠ OK) ∧
      (∀ (a : FilterArgs) (r : Run), a.format_desired = DNS_DOMAIN → a.info1.status ≠ OK →
        DsCrackNameOneFilter env fuel a = some r → r.info1.status ≠ OK) ∧
      (∀ (a : FilterArgs) (d : DomainStage) (l : LocateStage) (result : ldb_message)
          (canonical : String),
        a.format_desired = DNS_DOMAIN →
        filter_domain_stage env a = Sum.inr d →
        filter_locate_stage env a d = Sum.inr l →
        l.result_res = some [result] →
        env.ldb_dn_canonical_string result.dn = some canonical →
        DsCrackNameOneFilter env (fuel + 1) a =
          some ⟨WERR_OK, ⟨RESOLVE_ERROR, none, l.info1.result_name⟩, l.log⟩) := by
  have key := crack_fuel_induction env
    (fun _ _ des _ q => des = DNS_DOMAIN → q.info1.status ≠ OK)
    (fun a q => a.format_desired = DNS_DOMAIN → a.info1.status ≠ OK → q.info1.status ≠ OK)
    (fun recName recFilter hN hF fl off des name q hq hdes => by
      subst hdes
      exact name_body_dns_domain env recName recFilter fl off name q
        (fun fl' off' n q' hq' => hN fl' off' DNS_DOMAIN n q' hq' rfl)
        (fun b q' hb hb' hq' => hF b q' hq' hb hb') hq)
    (fun recName recFilter hN hF a q hq hdes hst =>
      filter_body_dns_domain env recName recFilter a q hdes hst
        (fun fl' off' n q' hq' => hN fl' off' DNS_DOMAIN n q' hq' rfl)
        (fun b q' hb hb' hq' => hF b q' hq' hb hb') hq)
    fuel
  refine ⟨?_, ?_, ?_⟩
  · intro fl off name r h
    exact key.1 fl off DNS_DOMAIN name r h rfl
  · intro a r hdes hst h
    exact key.2 a r h hdes hst
  · intro a d l result canonical hdes h1 h2 h3 hc
    rw [DsCrackNameOneFilter_succ, DsCrackNameOneFilter_body]
    simp only [h1, h2, h3, hdes, filter_finish, hc, filter_render]

/-- C17, witness: the DN of the example user, whose object exists, cracked to
DnsDomain ends with ResolveError and no domain name, offered as DN or as
Unknown. -/
theorem C17_dns_domain_never_ok_witness :
    DsCrackNameOneFilter dirNoCanonicalName 1 argsAdministratorDnsDomain =
        some ⟨WERR_OK, ⟨RESOLVE_ERROR, none, none⟩, [reqFetchAdministrator]⟩ ∧
      DsCrackNameOneName dirNoCanonicalName 2 noFlags UNKNOWN DNS_DOMAIN
        (some dnAdministrator) =
        some ⟨WERR_OK, ⟨RESOLVE_ERROR, none, none⟩, [reqFetchAdministrator]⟩ ∧
      RESOLVE_ERROR ≠ OK :=
  ⟨(C17_dns_domain_never_ok dirNoCanonicalName 0).2.2 argsAdministratorDnsDomain stageNoDomain
      ⟨⟨RESOLVE_ERROR, none, none⟩, some [msgAdministrator], [reqFetchAdministrator]⟩
      msgAdministrator "example.com/Users/Administrator" rfl (by decide) (by decide) rfl
      (by decide),
    by decide,
    (C17_dns_domain_never_ok dirNoCanonicalName 2).1 noFlags UNKNOWN (some dnAdministrator)
      ⟨WERR_OK, ⟨RESOLVE_ERROR, none, none⟩, [reqFetchAdministrator]⟩ (by decide)⟩


/-! ## Rendering as NT4 account name -/

/-- C18: the rendering of a located object that is not a domain object in the
desired format NT4Account. Without `objectSid` the status is NoMapping;
without `sAMAccountName` the status is NoMapping; with a SID inside the
builtin domain the result is Ok with `BUILTIN`, a backslash and the account
name, without any search. Otherwise the SID with `num_auths` decreased by one
is searched as a domain object: no hit gives NotFound and several hits give
NotUnique; the DN of the one hit is searched as `ncName` among the crossRefs:
no hit gives NotFound, several give NotUnique, and one hit with a
`nETBIOSName` gives Ok with that name, one backslash and the account name. -/
theorem C18_nt4_account_rendering (env : Env) (result : ldb_message)
    (info1 : drsuapi_DsNameInfo1) (log : List SearchReq)
    (hnd : env.samdb_find_attribute result "objectClass" "domain" = false) :
    (env.samdb_result_dom_sid result "objectSid" = none →
        filter_render env NT4_ACCOUNT result info1 log =
          ⟨WERR_OK, { info1 with status := NO_MAPPING }, log⟩) ∧
      (∀ sid, env.samdb_result_dom_sid result "objectSid" = some sid →
        ldb_msg_find_attr_as_string result "sAMAccountName" = none →
        filter_render env NT4_ACCOUNT result info1 log =
          ⟨WERR_OK, { info1 with status := NO_MAPPING }, log⟩) ∧
      (∀ sid acc, env.samdb_result_dom_sid result "objectSid" = some sid →
        ldb_msg_find_attr_as_string result "sAMAccountName" = some acc →
        env.dom_sid_in_domain (env.dom_sid_parse_talloc env.SID_BUILTIN) sid = true →
        filter_render env NT4_ACCOUNT result info1 log =
          ⟨WERR_OK, { info1 with result_name := some ("BUILTIN" ++ "\\" ++ acc), status := OK },
            log⟩) ∧
      (∀ sid acc, env.samdb_result_dom_sid result "objectSid" = some sid →
        ldb_msg_find_attr_as_string result "sAMAccountName" = some acc →
        env.dom_sid_in_domain (env.dom_sid_parse_talloc env.SID_BUILTIN) sid = false →
        (env.search (reqNt4DomainBySid env sid) = ⟨0, []⟩ →
          filter_render env NT4_ACCOUNT result info1 log =
            ⟨WERR_OK, { info1 with status := NOT_FOUND }, log ++ [reqNt4DomainBySid env sid]⟩) ∧
        (∀ m1 m2 ms, env.search (reqNt4DomainBySid env sid) = ⟨0, m1 :: m2 :: ms⟩ →
          filter_render env NT4_ACCOUNT result info1 log =
            ⟨WERR_OK, { info1 with status := NOT_UNIQUE },
              log ++ [reqNt4DomainBySid env sid]⟩) ∧
        (∀ domain, env.search (reqNt4DomainBySid env sid) = ⟨0, [domain]⟩ →
          (env.search (reqNt4CrossRefByNcName env domain.dn) = ⟨0, []⟩ →
            filter_render env NT4_ACCOUNT result info1 log =
              ⟨WERR_OK, { info1 with status := NOT_FOUND },
                log ++ [reqNt4DomainBySid env sid] ++
                  [reqNt4CrossRefByNcName env domain.dn]⟩) ∧
          (∀ m1 m2 ms, env.search (reqNt4CrossRefByNcName env domain.dn) = ⟨0, m1 :: m2 :: ms⟩ →
            filter_render env NT4_ACCOUNT result info1 log =
              ⟨WERR_OK, { info1 with status := NOT_UNIQUE },
                log ++ [reqNt4DomainBySid env sid] ++
                  [reqNt4CrossRefByNcName env domain.dn]⟩) ∧
          (∀ crossRef dom, env.search (reqNt4CrossRefByNcName env domain.dn) = ⟨0, [crossRef]⟩ →
            ldb_msg_find_attr_as_string crossRef "nETBIOSName" = some dom →
            filter_render env NT4_ACCOUNT result info1 log =
              ⟨WERR_OK, { info1 with result_name := some (dom ++ "\\" ++ acc), status := OK },
                log ++ [reqNt4DomainBySid env sid] ++
                  [reqNt4CrossRefByNcName env domain.dn]⟩))) := by
  refine ⟨?_, ?_, ?_, ?_⟩
  · intro hsid
    simp only [filter_render, render_nt4, hsid]
  · intro sid hsid hacc
    simp only [filter_render, render_nt4, hsid, hnd, hacc, Bool.false_eq_true, if_false]
  · intro sid acc hsid hacc hb
    simp only [filter_render, render_nt4, hsid, hnd, hacc, hb, Bool.false_eq_true, if_false,
      if_true]
  · intro sid acc hsid hacc hb
    refine ⟨?_, ?_, ?_⟩
    · intro h
      simp only [reqNt4DomainBySid] at h
      simp only [filter_render, render_nt4, hsid, hnd, hacc, hb, Bool.false_eq_true, if_false,
        h, ne_eq, not_true_eq_false, reqNt4DomainBySid]
    · intro m1 m2 ms h
      simp only [reqNt4DomainBySid] at h
      simp only [filter_render, render_nt4, hsid, hnd, hacc, hb, Bool.false_eq_true, if_false,
        h, ne_eq, not_true_eq_false, reqNt4DomainBySid]
    · intro domain h
      simp only [reqNt4DomainBySid] at h
      refine ⟨?_, ?_, ?_⟩
      · intro h2
        simp only [reqNt4CrossRefByNcName] at h2
        simp only [filter_render, render_nt4, hsid, hnd, hacc, hb, Bool.false_eq_true, if_false,
          h, ne_eq, not_true_eq_false, reqNt4DomainBySid, reqNt4CrossRefByNcName,
          lookup_crossRef_by_ncName, h2]
      · intro m1 m2 ms h2
        simp only [reqNt4CrossRefByNcName] at h2
        simp only [filter_render, render_nt4, hsid, hnd, hacc, hb, Bool.false_eq_true, if_false,
          h, ne_eq, not_true_eq_false, reqNt4DomainBySid, reqNt4CrossRefByNcName,
          lookup_crossRef_by_ncName, h2]
      · intro crossRef dom h2 hdom
        simp only [reqNt4CrossRefByNcName] at h2
        simp only [filter_render, render_nt4, hsid, hnd, hacc, hb, Bool.false_eq_true, if_false,
          h, ne_eq, not_true_eq_false, reqNt4DomainBySid, reqNt4CrossRefByNcName,
          lookup_crossRef_by_ncName, h2, render_nt4_finish, hdom]

/-- C18, witness: the account `alice` with the SID `S-1-5-21-1-2-3-1105`
renders as `EXAMPLE\alice` after the searches for the domain object and its
crossRef, also through the whole crack of its DN; the builtin group
`Administrators` renders as `BUILTIN\Administrators` without search; and
without a domain object for its SID the account renders NotFound. -/
theorem C18_nt4_account_rendering_witness :
    filter_render dirNt4Alice NT4_ACCOUNT msgAliceNt4 ⟨NOT_FOUND, some "example.com", none⟩ [] =
        ⟨WERR_OK, ⟨OK, some "example.com", some "EXAMPLE\\alice"⟩,
          [reqDomainBySid, reqCrossRefByNcName]⟩ ∧
      filter_render dirNt4Alice NT4_ACCOUNT msgAdministrators
        ⟨NOT_FOUND, some "example.com", none⟩ [] =
        ⟨WERR_OK, ⟨OK, some "example.com", some "BUILTIN\\Administrators"⟩, []⟩ ∧
      filter_render (sidEnv []) NT4_ACCOUNT msgAliceNt4 ⟨NOT_FOUND, some "example.com", none⟩
        [] = ⟨WERR_OK, ⟨NOT_FOUND, some "example.com", none⟩, [reqDomainBySid]⟩ ∧
      DsCrackNameOneName dirNt4Alice 1 noFlags FQDN_1779 NT4_ACCOUNT (some msgAliceNt4.dn) =
        some ⟨WERR_OK, ⟨OK, some "example.com", some "EXAMPLE\\alice"⟩,
          [reqFetchAliceNt4, reqDomainBySid, reqCrossRefByNcName]⟩ :=
  ⟨(((C18_nt4_account_rendering dirNt4Alice msgAliceNt4 ⟨NOT_FOUND, some "example.com", none⟩ []
      (by decide)).2.2.2 sidAlice "alice" (by decide) (by decide) (by decide)).2.2
      msgDomainExample (by decide)).2.2 crossRefExample "EXAMPLE" (by decide) (by decide),
    (C18_nt4_account_rendering dirNt4Alice msgAdministrators
      ⟨NOT_FOUND, some "example.com", none⟩ [] (by decide)).2.2.1 sidAdministrators
      "Administrators" (by decide) (by decide) (by decide),
    ((C18_nt4_account_rendering (sidEnv []) msgAliceNt4 ⟨NOT_FOUND, some "example.com", none⟩ []
      (by decide)).2.2.2 sidAlice "alice" (by decide) (by decide) (by decide)).1 (by decide),
    by decide⟩


/-! ## The offered format chosen by `crack_auto_name_to_nt4_name` -/

/-- C27: for a non-empty name `crack_auto_name_to_nt4_name` picks one offered
format by the first test that succeeds, in this order: the name contains `=`
(DN), `@` (UserPrincipal), a backslash (NT4Account), a newline (CanonicalEx),
`/` (Canonical), or starts with `S-` or `s-` (SidOrSidHistory). Its result
is that of `crack_name_to_nt4_name` with the format picked, and with no other
format. A name that passes none of the tests gives `NT_STATUS_NO_SUCH_USER`
without any crack and without any directory search. -/
theorem C27_auto_name_format (env : Env) (fuel : Nat) (name : String)
    (hne : name.length ≠ 0) :
    (strchr_m name '=' = true →
        crack_auto_name_to_nt4_name env fuel (some name) =
          crack_name_to_nt4_name env fuel FQDN_1779 (some name)) ∧
      (strchr_m name '=' = false → strchr_m name '@' = true →
        crack_auto_name_to_nt4_name env fuel (some name) =
          crack_name_to_nt4_name env fuel USER_PRINCIPAL (some name)) ∧
      (strchr_m name '=' = false → strchr_m name '@' = false → strchr_m name '\\' = true →
        crack_auto_name_to_nt4_name env fuel (some name) =
          crack_name_to_nt4_name env fuel NT4_ACCOUNT (some name)) ∧
      (strchr_m name '=' = false → strchr_m name '@' = false → strchr_m name '\\' = false →
        strchr_m name '\n' = true →
        crack_auto_name_to_nt4_name env fuel (some name) =
          crack_name_to_nt4_name env fuel CANONICAL_EX (some name)) ∧
      (strchr_m name '=' = false → strchr_m name '@' = false → strchr_m name '\\' = false →
        strchr_m name '\n' = false → strchr_m name '/' = true →
        crack_auto_name_to_nt4_name env fuel (some name) =
          crack_name_to_nt4_name env fuel CANONICAL (some name)) ∧
      (strchr_m name '=' = false → strchr_m name '@' = false → strchr_m name '\\' = false →
        strchr_m name '\n' = false → strchr_m name '/' = false →
        (name.data[0]? = some 'S' ∨ name.data[0]? = some 's') → name.data[1]? = some '-' →
        crack_auto_name_to_nt4_name env fuel (some name) =
          crack_name_to_nt4_name env fuel SID_OR_SID_HISTORY (some name)) ∧
      (strchr_m name '=' = false → strchr_m name '@' = false → strchr_m name '\\' = false →
        strchr_m name '\n' = false → strchr_m name '/' = false →
        ¬ ((name.data[0]? = some 'S' ∨ name.data[0]? = some 's') ∧
          name.data[1]? = some '-') →
        crack_auto_name_to_nt4_name env fuel (some name) =
          some ⟨NTSTATUS.NT_STATUS_NO_SUCH_USER, none, none, []⟩) := by
  refine ⟨?_, ?_, ?_, ?_, ?_, ?_, ?_⟩
  · intro h1
    simp only [crack_auto_name_to_nt4_name, hne, if_false, h1, if_true]
  · intro h1 h2
    simp only [crack_auto_name_to_nt4_name, hne, if_false, h1, h2, if_true, Bool.false_eq_true]
  · intro h1 h2 h3
    simp only [crack_auto_name_to_nt4_name, hne, if_false, h1, h2, h3, if_true,
      Bool.false_eq_true]
  · intro h1 h2 h3 h4
    simp only [crack_auto_name_to_nt4_name, hne, if_false, h1, h2, h3, h4, if_true,
      Bool.false_eq_true]
  · intro h1 h2 h3 h4 h5
    simp only [crack_auto_name_to_nt4_name, hne, if_false, h1, h2, h3, h4, h5, if_true,
      Bool.false_eq_true]
  · intro h1 h2 h3 h4 h5 h6 h7
    simp only [crack_auto_name_to_nt4_name, hne, if_false, h1, h2, h3, h4, h5,
      Bool.false_eq_true]
    rw [if_pos ⟨h6, h7⟩]
  · intro h1 h2 h3 h4 h5 h6
    simp only [crack_auto_name_to_nt4_name, hne, if_false, h1, h2, h3, h4, h5,
      Bool.false_eq_true]
    rw [if_neg h6]

/-- C27, witness: the DN of `alice` holds `=` and is cracked as a DN, giving
the domain `EXAMPLE` and the account `alice`; `a=b@c` holds `=` and `@` and is
cracked as a DN only; `alice` passes no test and gives
`NT_STATUS_NO_SUCH_USER` without search, also with no fuel at all. -/
theorem C27_auto_name_format_witness :
    crack_auto_name_to_nt4_name dirNt4Alice 1 (some msgAliceNt4.dn) =
        some ⟨NTSTATUS.NT_STATUS_OK, some "EXAMPLE", some "alice",
          [reqFetchAliceNt4, reqDomainBySid, reqCrossRefByNcName]⟩ ∧
      crack_auto_name_to_nt4_name dirNt4Alice 1 (some "a=b@c") =
        crack_name_to_nt4_name dirNt4Alice 1 FQDN_1779 (some "a=b@c") ∧
      crack_auto_name_to_nt4_name dirNt4Alice 0 (some "alice") =
        some ⟨NTSTATUS.NT_STATUS_NO_SUCH_USER, none, none, []⟩ :=
  ⟨((C27_auto_name_format dirNt4Alice 1 msgAliceNt4.dn (by decide)).1 (by decide)).trans
      (by decide),
    (C27_auto_name_format dirNt4Alice 1 "a=b@c" (by decide)).1 (by decide),
    (C27_auto_name_format dirNt4Alice 0 "alice" (by decide)).2.2.2.2.2.2 (by decide)
      (by decide) (by decide) (by decide) (by decide) (by decide)⟩


/-! ## The DNS domain name of a located object -/

theorem splitAtChar_head_free (c : Char) :
    ∀ (l a b : List Char), splitAtChar c l = some (a, b) → c ∉ a := by
  intro l
  induction l with
  | nil =>
    intro a b h
    cases h
  | cons x xs ih =>
    intro a b h
    by_cases hx : x = c
    · simp only [splitAtChar, hx, if_true, Option.some.injEq, Prod.mk.injEq] at h
      rw [← h.1]
      simp
    · cases hsp : splitAtChar c xs with
      | none => simp [splitAtChar, hx, hsp] at h
      | some p =>
        rcases p with ⟨a1, b1⟩
        simp only [splitAtChar, hx, if_false, hsp, Option.some.injEq, Prod.mk.injEq] at h
        rw [← h.1]
        intro hmem
        rcases List.mem_cons.mp hmem with e | e
        · exact hx e.symm
        · exact ih a1 b1 hsp e

theorem splitAtChar_none_free (c : Char) :
    ∀ l : List Char, splitAtChar c l = none → c ∉ l := by
  intro l
  induction l with
  | nil =>
    intro _
    simp
  | cons x xs ih =>
    intro h
    by_cases hx : x = c
    · simp [splitAtChar, hx] at h
    · cases hsp : splitAtChar c xs with
      | none =>
        intro hmem
        rcases List.mem_cons.mp hmem with e | e
        · exact hx e.symm
        · exact ih hsp e
      | some p =>
        rcases p with ⟨a1, b1⟩
        simp [splitAtChar, hx, hsp] at h

theorem cut_at_slash_free (s : String) : '/' ∉ (cut_at_slash s).data := by
  simp only [cut_at_slash, strchr_split]
  cases h : splitAtChar '/' s.data with
  | none => exact splitAtChar_none_free '/' s.data h
  | some p =>
    rcases p with ⟨a, b⟩
    exact splitAtChar_head_free '/' s.data a b h

theorem render_nt4_finish_dns (crossRef : ldb_message) (acc : String)
    (info1 : drsuapi_DsNameInfo1) (log : List SearchReq) :
    (render_nt4_finish crossRef acc info1 log).info1.dns_domain_name =
      info1.dns_domain_name := by
  simp only [render_nt4_finish]
  split <;> rfl

theorem render_nt4_ok_dns (env : Env) (domain_attrs : List String) (result : ldb_message)
    (info1 : drsuapi_DsNameInfo1) (log : List SearchReq)
    (hs : (render_nt4 env domain_attrs result info1 log).info1.status = OK) :
    (render_nt4 env domain_attrs result info1 log).info1.dns_domain_name =
      info1.dns_domain_name := by
  revert hs
  simp only [render_nt4]
  repeat' split
  all_goals first
    | (intro _
       first
         | rfl
         | exact render_nt4_finish_dns _ _ _ _)
    | (rename_i r h
       intro hs
       exact absurd hs (lookup_crossRef_inl_status _ _ _ _ _ r h))

theorem filter_render_ok_dns (env : Env) (format_desired : drsuapi_DsNameFormat)
    (result : ldb_message) (info1 : drsuapi_DsNameInfo1) (log : List SearchReq)
    (hs : (filter_render env format_desired result info1 log).info1.status = OK) :
    (filter_render env format_desired result info1 log).info1.dns_domain_name =
      info1.dns_domain_name := by
  cases format_desired
  case NT4_ACCOUNT => exact render_nt4_ok_dns _ _ _ _ _ hs
  case DNS_DOMAIN => simp [filter_render] at hs
  all_goals
    revert hs
    simp only [filter_render, DsCrackNameOneSyntactical]
    repeat' split
    all_goals first
      | (intro _; rfl)
      | (intro _; trivial)

/-- C28: whenever `DsCrackNameOneFilter` locates exactly one object, its result
is that of the statements after the selection of the object; if that result
has status Ok, the canonical rendering of the DN of the object exists and
`dns_domain_name` is that rendering cut before its first `/`, which holds no
`/`, whatever DNS root was recorded from the crossRef in the domain stage. -/
theorem C28_dns_domain_from_canonical (env : Env) (fuel : Nat) (a : FilterArgs)
    (d : DomainStage) (l : LocateStage) (result : ldb_message)
    (hdom : filter_domain_stage env a = Sum.inr d)
    (hloc : filter_locate_stage env a d = Sum.inr l)
    (hres : l.result_res = some [result]) :
    DsCrackNameOneFilter env (fuel + 1) a =
        some (filter_finish env a.format_desired result l.info1 l.log) ∧
      ∀ r, DsCrackNameOneFilter env (fuel + 1) a = some r → r.info1.status = OK →
        ∃ canonical, env.ldb_dn_canonical_string result.dn = some canonical ∧
          r.info1.dns_domain_name = some (cut_at_slash canonical) ∧
          '/' ∉ (cut_at_slash canonical).data := by
  have hrun : DsCrackNameOneFilter env (fuel + 1) a =
      some (filter_finish env a.format_desired result l.info1 l.log) := by
    rw [DsCrackNameOneFilter_succ, DsCrackNameOneFilter_body]
    simp only [hdom, hloc, hres]
  refine ⟨hrun, ?_⟩
  intro r hr hs
  rw [hrun] at hr
  simp only [Option.some.injEq] at hr
  subst hr
  have hl : l.info1.status ≠ OK :=
    filter_locate_stage_inr_status env a d l (filter_domain_stage_inr_status env a d hdom) hloc
  cases hc : env.ldb_dn_canonical_string result.dn with
  | none =>
    simp only [filter_finish, hc] at hs
    exact absurd hs hl
  | some canonical =>
    refine ⟨canonical, rfl, ?_, cut_at_slash_free canonical⟩
    simp only [filter_finish, hc] at hs ⊢
    rw [filter_render_ok_dns env a.format_desired result _ l.log hs]

/-- C28, witness: the crossRef found for `EXAMPLE\alice` records the DNS root
`root.example.org`; the account is located below `DC=example,DC=com` and the
result carries the DNS domain name `example.com`. -/
theorem C28_dns_domain_from_canonical_witness :
    DsCrackNameOneFilter dirOtherRoot 1 argsAliceNt4 =
        some ⟨WERR_OK, ⟨OK, some "example.com", some msgAlice.dn⟩,
          [reqDomainStage dirOtherRoot FQDN_1779 filterNetbiosExample, reqSamAlice]⟩ ∧
      ∃ canonical, dirOtherRoot.ldb_dn_canonical_string msgAlice.dn = some canonical ∧
        some "example.com" = some (cut_at_slash canonical) ∧
        '/' ∉ (cut_at_slash canonical).data :=
  ⟨(C28_dns_domain_from_canonical dirOtherRoot 0 argsAliceNt4
      ⟨⟨DOMAIN_ONLY, some "root.example.org", none⟩, some crossRefOtherRoot,
        [reqDomainStage dirOtherRoot FQDN_1779 filterNetbiosExample]⟩
      ⟨⟨NOT_FOUND, some "root.example.org", none⟩, some [msgAlice],
        [reqDomainStage dirOtherRoot FQDN_1779 filterNetbiosExample, reqSamAlice]⟩
      msgAlice (by decide) (by decide) rfl).1.trans (by decide),
    (C28_dns_domain_from_canonical dirOtherRoot 0 argsAliceNt4
      ⟨⟨DOMAIN_ONLY, some "root.example.org", none⟩, some crossRefOtherRoot,
        [reqDomainStage dirOtherRoot FQDN_1779 filterNetbiosExample]⟩
      ⟨⟨NOT_FOUND, some "root.example.org", none⟩, some [msgAlice],
        [reqDomainStage dirOtherRoot FQDN_1779 filterNetbiosExample, reqSamAlice]⟩
      msgAlice (by decide) (by decide) rfl).2
      ⟨WERR_OK, ⟨OK, some "example.com", some msgAlice.dn⟩,
        [reqDomainStage dirOtherRoot FQDN_1779 filterNetbiosExample, reqSamAlice]⟩
      (by decide) rfl⟩


/-! ## The result filter of an offered service principal -/

/-- C26, counterexample: the principal `host/dc1.example.com/example.com` has
three components and the leading component `host`; the result filter built
for it is the filter on `servicePrincipalName` alone, not the disjunction
with the computer name. -/
theorem C26_counterexample :
    (refEnv []).krb5_parse_name_flags ParseFlags.NO_REALM "host/dc1.example.com/example.com" =
        some ⟨["host", "dc1.example.com", "example.com"], ""⟩ ∧
      strcasecmp_eq "host" "host" = true ∧
      DsCrackNameOneName (refEnv []) 1 noFlags SERVICE_PRINCIPAL FQDN_1779
        (some "host/dc1.example.com/example.com") =
        some ⟨WERR_OK, ⟨DOMAIN_ONLY, some "dc1.example.com", none⟩,
          [reqSpnFilter
            "(&(servicePrincipalName=host/dc1.example.com/example.com)(objectClass=user))",
            reqSpnMappings]⟩ := by
  decide

/-- C26, amended: for an offered service principal (desired format other than
UNKNOWN, Kerberos context available) whose parse without realm gives
`principal` and whose realm-less rendering is `short`, where the parse with
default flags does not give fewer than two components: if the principal has
exactly two components and the first equals `host` without regard to case, the
filter crack is entered with the disjunction of the filter on
`servicePrincipalName` and the filter on `cn` with the second component cut
before its first `.`; if it has another number of components, or its first
component is not `host`, the filter crack is entered with the filter on
`servicePrincipalName` alone. A name whose parse with default flags gives
fewer than two components yields NotFound without directory search. -/
theorem C26_spn_result_filter (env : Env) (fuel : Nat) (format_flags : FormatFlags)
    (format_desired : drsuapi_DsNameFormat) (name : String)
    (hd : format_desired ≠ UNKNOWN) (hinit : env.smb_krb5_init_context = true) :
    (∀ principal short c0 c1,
        (∀ p, env.krb5_parse_name_flags ParseFlags.NONE name = some p →
          2 ≤ p.components.length) →
        env.krb5_parse_name_flags ParseFlags.NO_REALM name = some principal →
        env.krb5_unparse_name_flags true false principal = some short →
        principal.components = [c0, c1] → strcasecmp_eq c0 "host" = true →
        DsCrackNameOneName env (fuel + 1) format_flags SERVICE_PRINCIPAL format_desired
            (some name) =
          crack_after_switch env (DsCrackNameOneName env fuel) (DsCrackNameOneFilter env fuel)
            (spnFilterArgs format_flags format_desired name (spn_host_filter env short c1)) []) ∧
      (∀ principal short,
        (∀ p, env.krb5_parse_name_flags ParseFlags.NONE name = some p →
          2 ≤ p.components.length) →
        env.krb5_parse_name_flags ParseFlags.NO_REALM name = some principal →
        env.krb5_unparse_name_flags true false principal = some short →
        (principal.components.length ≠ 2 ∨
          ∀ c0, principal.components[0]? = some c0 → strcasecmp_eq c0 "host" = false) →
        DsCrackNameOneName env (fuel + 1) format_flags SERVICE_PRINCIPAL format_desired
            (some name) =
          crack_after_switch env (DsCrackNameOneName env fuel) (DsCrackNameOneFilter env fuel)
            (spnFilterArgs format_flags format_desired name (spn_user_filter env short)) []) ∧
      (∀ p, env.krb5_parse_name_flags ParseFlags.NONE name = some p →
        p.components.length < 2 →
        DsCrackNameOneName env (fuel + 1) format_flags SERVICE_PRINCIPAL format_desired
            (some name) = some ⟨WERR_OK, ⟨NOT_FOUND, none, none⟩, []⟩) := by
  have hshort : (∀ p, env.krb5_parse_name_flags ParseFlags.NONE name = some p →
      2 ≤ p.components.length) →
      (match env.krb5_parse_name_flags ParseFlags.NONE name with
        | some principal => decide (principal.components.length < 2)
        | none => false) = false := by
    intro hlen
    cases hp : env.krb5_parse_name_flags ParseFlags.NONE name with
    | none => rfl
    | some p =>
      have := hlen p hp
      simp only [decide_eq_false_iff_not, not_lt]
      exact this
  refine ⟨?_, ?_, ?_⟩
  · intro principal short c0 c1 hlen hparse hunparse hcomp hhost
    rw [DsCrackNameOneName_succ]
    simp only [DsCrackNameOneName_body, if_neg hd, hinit, hparse, hunparse, hshort hlen,
      not_true_eq_false, if_false, Bool.false_eq_true, hcomp, List.length_cons,
      List.length_nil, List.getElem?_cons_zero, List.getElem?_cons_succ, hhost, if_true,
      Nat.reduceAdd, spnFilterArgs, spn_host_filter]
  · intro principal short hlen hparse hunparse hnot
    rw [DsCrackNameOneName_succ]
    simp only [DsCrackNameOneName_body, if_neg hd, hinit, hparse, hunparse, hshort hlen,
      not_true_eq_false, if_false, Bool.false_eq_true]
    have hfalse : (match (if principal.components.length = 2 then principal.components[0]?
          else none) with
        | some component => strcasecmp_eq component "host"
        | none => false) = false := by
      rcases hnot with h | h
      · simp only [h, if_false]
      · by_cases hl : principal.components.length = 2
        · simp only [hl, if_true]
          cases hc : principal.components[0]? with
          | none => rfl
          | some c0 => exact h c0 hc
        · simp only [hl, if_false]
    simp only [hfalse, Bool.false_eq_true, if_false, spnFilterArgs, spn_user_filter]
  · intro p hp hlt
    rw [DsCrackNameOneName_succ]
    simp only [DsCrackNameOneName_body, if_neg hd, hinit, hp, hlt, decide_True,
      not_true_eq_false, if_false, if_true, info1_init]

/-- C26, witness: `HOST/a.example.com` is a host principal with two components
and is searched with the disjunction, the computer name being `a`;
`cifs/a.example.com` is searched by `servicePrincipalName` alone; `host` alone
has one component and yields NotFound. -/
theorem C26_spn_result_filter_witness :
    DsCrackNameOneName (refEnv []) 1 noFlags SERVICE_PRINCIPAL FQDN_1779
        (some "HOST/a.example.com") =
        some ⟨WERR_OK, ⟨DOMAIN_ONLY, some "a.example.com", none⟩,
          [reqSpnFilter
            "(|(&(servicePrincipalName=HOST/a.example.com)(objectClass=user))(&(cn=a)(objectClass=computer)))",
            reqSpnMappings]⟩ ∧
      DsCrackNameOneName (refEnv []) 1 noFlags SERVICE_PRINCIPAL FQDN_1779
        (some "cifs/a.example.com") =
        some ⟨WERR_OK, ⟨DOMAIN_ONLY, some "a.example.com", none⟩,
          [reqSpnFilter "(&(servicePrincipalName=cifs/a.example.com)(objectClass=user))",
            reqSpnMappings]⟩ ∧
      DsCrackNameOneName (refEnv []) 1 noFlags SERVICE_PRINCIPAL FQDN_1779 (some "host") =
        some ⟨WERR_OK, ⟨NOT_FOUND, none, none⟩, []⟩ :=
  ⟨((C26_spn_result_filter (refEnv []) 0 noFlags FQDN_1779 "HOST/a.example.com" (by decide)
      rfl).1 ⟨["HOST", "a.example.com"], ""⟩ "HOST/a.example.com" "HOST" "a.example.com"
      (by decide) (by decide) (by decide) rfl (by decide)).trans (by decide),
    ((C26_spn_result_filter (refEnv []) 0 noFlags FQDN_1779 "cifs/a.example.com" (by decide)
      rfl).2.1 ⟨["cifs", "a.example.com"], ""⟩ "cifs/a.example.com"
      (by decide) (by decide) (by decide) (Or.inr (by decide))).trans (by decide),
    (C26_spn_result_filter (refEnv []) 0 noFlags FQDN_1779 "host" (by decide) rfl).2.2
      ⟨["host"], "EXAMPLE.COM"⟩ (by decide) (by decide)⟩


/-! ## A search failure inside the path walk -/

/-- C24, the code at the failing input: the search for the children of the
naming context named `Users` fails; `get_format_functional_filtering_param`
returns without hard failure, with status ResolveError and without result
filter. That status is the one the record was initialised with, so
`DsCrackNameOneName` goes on to the filter crack: it searches the crossRef
again, fetches the naming context object and ends with status Ok and the DN
of the domain for the name `example.com/Users/Administrator`. -/
theorem C24_walk_failure_not_terminal :
    dirWalkFails.search reqWalkUsers = ⟨1, []⟩ ∧
      get_format_functional_filtering_param dirWalkFails "Users/Administrator" info1_init
        filterDnsRootExample =
        ⟨WERR_OK, ⟨RESOLVE_ERROR, none, none⟩, none, none, [reqCrossRefWalk, reqWalkUsers]⟩ ∧
      DsCrackNameOneName dirWalkFails 1 noFlags CANONICAL FQDN_1779
        (some "example.com/Users/Administrator") =
        some ⟨WERR_OK, ⟨OK, some "example.com", some "DC=example,DC=com"⟩,
          [reqCrossRefWalk, reqWalkUsers, reqCrossRefStage, reqFetchDomainExample]⟩ ∧
      DsCrackNameOneName dirWalkFails 1 noFlags CANONICAL_EX FQDN_1779
        (some "example.com/Users\nAdministrator") =
        some ⟨WERR_OK, ⟨OK, some "example.com", some "DC=example,DC=com"⟩,
          [reqCrossRefWalk, reqWalkUsers, reqCrossRefStage, reqFetchDomainExample]⟩ := by
  decide


/-! ## Round trips through the DN -/

end Cracknames

namespace Secace

/-! ## The comparators -/

theorem inherit_comp_le_iff (c : SecConsts) (a b : security_ace) :
    nt_ace_inherit_comp c a b ≤ 0 ↔
      (a.flags &&& c.SEC_ACE_FLAG_INHERITED_ACE = b.flags &&& c.SEC_ACE_FLAG_INHERITED_ACE ∨
        a.flags &&& c.SEC_ACE_FLAG_INHERITED_ACE = 0) := by
  simp only [nt_ace_inherit_comp]
  split_ifs with h1 h2
  · simp [h1]
  · simp [h2.1]
  · constructor
    · intro h
      omega
    · rintro (h | h)
      · exact absurd h h1
      · exact absurd ⟨h, fun e => h1 (h.trans e.symm)⟩ h2

theorem single_bit (k x : Nat) : x &&& 2 ^ k = 0 ∨ x &&& 2 ^ k = 2 ^ k := by
  rw [Nat.and_two_pow]
  cases x.testBit k <;> simp

theorem inherit_comp_consistent (c : SecConsts)
    (hbit : ∃ k, c.SEC_ACE_FLAG_INHERITED_ACE = 2 ^ k) :
    ConsistentComparator (nt_ace_inherit_comp c) := by
  obtain ⟨k, hk⟩ := hbit
  have hb : ∀ x : Nat, x &&& c.SEC_ACE_FLAG_INHERITED_ACE = 0 ∨
      x &&& c.SEC_ACE_FLAG_INHERITED_ACE = c.SEC_ACE_FLAG_INHERITED_ACE := by
    intro x
    rw [hk]
    exact single_bit k x
  refine ⟨?_, ?_, ?_⟩
  · intro a
    simp [nt_ace_inherit_comp]
  · intro a b
    simp only [nt_ace_inherit_comp]
    rcases hb a.flags with ha | ha <;> rcases hb b.flags with hb' | hb' <;>
      by_cases hz : c.SEC_ACE_FLAG_INHERITED_ACE = 0 <;>
      simp [ha, hb', hz, eq_comm]
  · intro a b d hab hbd
    rw [inherit_comp_le_iff] at hab hbd ⊢
    rcases hab with hab | hab
    · rcases hbd with hbd | hbd
      · exact Or.inl (hab.trans hbd)
      · exact Or.inr (hab.trans hbd)
    · exact Or.inr hab

theorem canon_comp_le_iff (c : SecConsts) (a b : security_ace) :
    nt_ace_canon_comp c a b ≤ 0 ↔ canon_key c a ≤ canon_key c b := by
  simp only [nt_ace_canon_comp, canon_key]
  by_cases h1 : a.type = c.SEC_ACE_TYPE_ACCESS_DENIED <;>
    by_cases h2 : b.type = c.SEC_ACE_TYPE_ACCESS_DENIED <;>
    by_cases h3 : a.flags &&& c.SEC_ACE_FLAG_INHERIT_ONLY = 0 <;>
    by_cases h4 : b.flags &&& c.SEC_ACE_FLAG_INHERIT_ONLY = 0 <;>
    by_cases h5 : a.flags &&&
      (c.SEC_ACE_FLAG_CONTAINER_INHERIT ||| c.SEC_ACE_FLAG_OBJECT_INHERIT) = 0 <;>
    by_cases h6 : b.flags &&&
      (c.SEC_ACE_FLAG_CONTAINER_INHERIT ||| c.SEC_ACE_FLAG_OBJECT_INHERIT) = 0 <;>
    simp [h1, h2, h3, h4, h5, h6]

theorem canon_comp_values (c : SecConsts) (a b : security_ace) :
    (nt_ace_canon_comp c a b = 0 ∧ canon_key c a = canon_key c b) ∨
      (nt_ace_canon_comp c a b = -1 ∧ canon_key c a < canon_key c b) ∨
      (nt_ace_canon_comp c a b = 1 ∧ canon_key c b < canon_key c a) := by
  simp only [nt_ace_canon_comp, canon_key]
  by_cases h1 : a.type = c.SEC_ACE_TYPE_ACCESS_DENIED <;>
    by_cases h2 : b.type = c.SEC_ACE_TYPE_ACCESS_DENIED <;>
    by_cases h3 : a.flags &&& c.SEC_ACE_FLAG_INHERIT_ONLY = 0 <;>
    by_cases h4 : b.flags &&& c.SEC_ACE_FLAG_INHERIT_ONLY = 0 <;>
    by_cases h5 : a.flags &&&
      (c.SEC_ACE_FLAG_CONTAINER_INHERIT ||| c.SEC_ACE_FLAG_OBJECT_INHERIT) = 0 <;>
    by_cases h6 : b.flags &&&
      (c.SEC_ACE_FLAG_CONTAINER_INHERIT ||| c.SEC_ACE_FLAG_OBJECT_INHERIT) = 0 <;>
    simp [h1, h2, h3, h4, h5, h6]

theorem canon_comp_consistent (c : SecConsts) : ConsistentComparator (nt_ace_canon_comp c) := by
  refine ⟨?_, ?_, ?_⟩
  · intro a
    rcases canon_comp_values c a a with h | h | h
    · exact h.1
    · exact absurd h.2 (lt_irrefl _)
    · exact absurd h.2 (lt_irrefl _)
  · intro a b
    rcases canon_comp_values c a b with h | h | h <;>
      rcases canon_comp_values c b a with h' | h' | h' <;>
      omega
  · intro a b d hab hbd
    rw [canon_comp_le_iff] at hab hbd ⊢
    exact le_trans hab hbd

theorem inherit_comp_values (c : SecConsts) (a b : security_ace) :
    nt_ace_inherit_comp c a b = -1 ∨ nt_ace_inherit_comp c a b = 0 ∨
      nt_ace_inherit_comp c a b = 1 := by
  simp only [nt_ace_inherit_comp]
  split_ifs <;> simp

/-- C29: `nt_ace_canon_comp` and `nt_ace_inherit_comp` are consistent
comparators. For all ACEs the result is -1, 0 or 1, an ACE compares equal to
itself, swapping the arguments negates the result, and "not after" is
transitive. For `nt_ace_inherit_comp` this rests on the constant
`SEC_ACE_FLAG_INHERITED_ACE` being a single bit, since the function compares
the masked flag values for equality. -/
theorem C29_consistent_comparators (c : SecConsts)
    (hbit : ∃ k, c.SEC_ACE_FLAG_INHERITED_ACE = 2 ^ k) :
    (∀ a b, nt_ace_canon_comp c a b = -1 ∨ nt_ace_canon_comp c a b = 0 ∨
        nt_ace_canon_comp c a b = 1) ∧
      (∀ a, nt_ace_canon_comp c a a = 0) ∧
      (∀ a b, nt_ace_canon_comp c a b = -nt_ace_canon_comp c b a) ∧
      (∀ a b d, nt_ace_canon_comp c a b ≤ 0 → nt_ace_canon_comp c b d ≤ 0 →
        nt_ace_canon_comp c a d ≤ 0) ∧
      (∀ a b, nt_ace_inherit_comp c a b = -1 ∨ nt_ace_inherit_comp c a b = 0 ∨
        nt_ace_inherit_comp c a b = 1) ∧
      (∀ a, nt_ace_inherit_comp c a a = 0) ∧
      (∀ a b, nt_ace_inherit_comp c a b = -nt_ace_inherit_comp c b a) ∧
      (∀ a b d, nt_ace_inherit_comp c a b ≤ 0 → nt_ace_inherit_comp c b d ≤ 0 →
        nt_ace_inherit_comp c a d ≤ 0) := by
  have h1 := canon_comp_consistent c
  have h2 := inherit_comp_consistent c hbit
  refine ⟨?_, h1.refl, h1.antisymm, h1.trans, inherit_comp_values c, h2.refl, h2.antisymm,
    h2.trans⟩
  intro a b
  rcases canon_comp_values c a b with h | h | h
  · exact Or.inr (Or.inl h.1)
  · exact Or.inl h.1
  · exact Or.inr (Or.inr h.1)

/-- C29, witness: with the constants of the security IDL (inherited flag 0x10)
a deny ACE compares before an allow ACE and the allow ACE after the deny ACE;
an ACE without the inherited flag compares before one with it. -/
theorem C29_consistent_comparators_witness :
    (∃ k, ndrConsts.SEC_ACE_FLAG_INHERITED_ACE = 2 ^ k) ∧
      nt_ace_canon_comp ndrConsts (ace 1 0 3) (ace 0 0 5) = -1 ∧
      nt_ace_canon_comp ndrConsts (ace 0 0 5) (ace 1 0 3) = 1 ∧
      nt_ace_canon_comp ndrConsts (ace 0 0 5) (ace 1 0 3) =
        -nt_ace_canon_comp ndrConsts (ace 1 0 3) (ace 0 0 5) ∧
      nt_ace_inherit_comp ndrConsts (ace 0 0 5) (ace 0 16 1) =
        -nt_ace_inherit_comp ndrConsts (ace 0 16 1) (ace 0 0 5) ∧
      nt_ace_inherit_comp ndrConsts (ace 0 0 5) (ace 0 16 1) = -1 :=
  ⟨⟨4, rfl⟩, by decide, by decide,
    (C29_consistent_comparators ndrConsts ⟨4, rfl⟩).2.2.1 (ace 0 0 5) (ace 1 0 3),
    (C29_consistent_comparators ndrConsts ⟨4, rfl⟩).2.2.2.2.2.2.1 (ace 0 0 5) (ace 0 16 1),
    by decide⟩

/-! ## The sort -/

theorem ref_qsort_contract : QsortContract ref_qsort := by
  refine ⟨?_, ?_⟩
  · intro cmp aces _
    exact List.perm_insertionSort _ aces
  · intro cmp aces hc
    haveI : IsTotal security_ace (fun a b => cmp a b ≤ 0) := ⟨fun a b => by
      have := hc.antisymm a b
      by_cases h : cmp a b ≤ 0
      · exact Or.inl h
      · right
        omega⟩
    haveI : IsTrans security_ace (fun a b => cmp a b ≤ 0) := ⟨hc.trans⟩
    exact List.sorted_insertionSort (fun a b => cmp a b ≤ 0) aces

theorem boundary_take_not_inherited (c : SecConsts) :
    ∀ aces : List security_ace, ∀ a ∈ aces.take (inherited_boundary c aces),
      ace_inherited c a = false := by
  intro aces
  induction aces with
  | nil => simp [inherited_boundary]
  | cons x xs ih =>
    intro a ha
    by_cases hx : ace_inherited c x = true
    · simp [inherited_boundary, hx] at ha
    · simp only [inherited_boundary, hx, Bool.false_eq_true, if_false, List.take_succ_cons,
        List.mem_cons] at ha
      rcases ha with ha | ha
      · rw [ha]
        simpa using hx
      · exact ih a ha

theorem boundary_drop_inherited (c : SecConsts) :
    ∀ aces : List security_ace,
      aces.Pairwise (fun a b => ace_inherited c a = true → ace_inherited c b = true) →
      ∀ a ∈ aces.drop (inherited_boundary c aces), ace_inherited c a = true := by
  intro aces
  induction aces with
  | nil => simp [inherited_boundary]
  | cons x xs ih =>
    intro hp a ha
    rw [List.pairwise_cons] at hp
    by_cases hx : ace_inherited c x = true
    · simp only [inherited_boundary, hx, if_true, List.drop_zero, List.mem_cons] at ha
      rcases ha with ha | ha
      · rw [ha]
        exact hx
      · exact hp.1 a ha hx
    · simp only [inherited_boundary, hx, Bool.false_eq_true, if_false,
        List.drop_succ_cons] at ha
      exact ih hp.2 a ha

theorem inherit_sorted_inherited (c : SecConsts) (a b : security_ace)
    (h : nt_ace_inherit_comp c a b ≤ 0) :
    ace_inherited c a = true → ace_inherited c b = true := by
  rw [inherit_comp_le_iff] at h
  simp only [ace_inherited, decide_eq_true_eq]
  intro ha
  rcases h with h | h
  · rw [← h]
    exact ha
  · exact absurd h ha

/-- The two groups `dacl_sort_into_canonical_order` leaves behind. -/
theorem dacl_sort_groups (c : SecConsts) (qsort : QsortFn) (hq : QsortContract qsort)
    (hbit : ∃ k, c.SEC_ACE_FLAG_INHERITED_ACE = 2 ^ k) (aces : List security_ace)
    (num_aces : Nat) (hn : num_aces ≠ 0) :
    ∃ g1 g2, dacl_sort_into_canonical_order c qsort (some aces) num_aces =
        some (g1 ++ g2 ++ aces.drop num_aces) ∧
      (g1 ++ g2).Perm (aces.take num_aces) ∧
      (∀ a ∈ g1, ace_inherited c a = false) ∧ (∀ a ∈ g2, ace_inherited c a = true) ∧
      g1.Pairwise (fun a b => nt_ace_canon_comp c a b ≤ 0) ∧
      g2.Pairwise (fun a b => nt_ace_canon_comp c a b ≤ 0) := by
  have hi := inherit_comp_consistent c hbit
  have hc := canon_comp_consistent c
  have hsp := hq.perm (nt_ace_inherit_comp c) (aces.take num_aces) hi
  have hss := hq.sorted (nt_ace_inherit_comp c) (aces.take num_aces) hi
  have hss' : (qsort (nt_ace_inherit_comp c) (aces.take num_aces)).Pairwise
      (fun a b => ace_inherited c a = true → ace_inherited c b = true) :=
    hss.imp (fun {a b} h => inherit_sorted_inherited c a b h)
  refine ⟨qsort (nt_ace_canon_comp c)
      ((qsort (nt_ace_inherit_comp c) (aces.take num_aces)).take
        (inherited_boundary c (qsort (nt_ace_inherit_comp c) (aces.take num_aces)))),
    qsort (nt_ace_canon_comp c)
      ((qsort (nt_ace_inherit_comp c) (aces.take num_aces)).drop
        (inherited_boundary c (qsort (nt_ace_inherit_comp c) (aces.take num_aces)))),
    ?_, ?_, ?_, ?_, hq.sorted _ _ hc, hq.sorted _ _ hc⟩
  · simp only [dacl_sort_into_canonical_order, hn, if_false]
  · refine List.Perm.trans ?_ hsp
    refine List.Perm.trans (List.Perm.append (hq.perm _ _ hc) (hq.perm _ _ hc)) ?_
    rw [List.take_append_drop]
  · intro a ha
    exact boundary_take_not_inherited c _ a ((hq.perm _ _ hc).subset ha)
  · intro a ha
    exact boundary_drop_inherited c _ hss' a ((hq.perm _ _ hc).subset ha)

theorem canon_sorted_denied (c : SecConsts) (a b : security_ace)
    (h : nt_ace_canon_comp c a b ≤ 0) :
    b.type = c.SEC_ACE_TYPE_ACCESS_DENIED → a.type = c.SEC_ACE_TYPE_ACCESS_DENIED := by
  rw [canon_comp_le_iff] at h
  revert h
  simp only [canon_key]
  intro h hb
  by_contra ha
  simp only [ha, hb, if_false, if_true] at h
  split_ifs at h <;> omega

theorem canon_sorted_inherit_only (c : SecConsts) (a b : security_ace)
    (h : nt_ace_canon_comp c a b ≤ 0)
    (hd : a.type = c.SEC_ACE_TYPE_ACCESS_DENIED ↔ b.type = c.SEC_ACE_TYPE_ACCESS_DENIED) :
    a.flags &&& c.SEC_ACE_FLAG_INHERIT_ONLY ≠ 0 →
      b.flags &&& c.SEC_ACE_FLAG_INHERIT_ONLY ≠ 0 := by
  rw [canon_comp_le_iff] at h
  revert h
  simp only [canon_key]
  intro h ha hb
  by_cases hda : a.type = c.SEC_ACE_TYPE_ACCESS_DENIED
  · have hdb := hd.mp hda
    simp only [hda, hdb, ha, hb, if_false, if_true] at h
    split_ifs at h <;> omega
  · have hdb : ¬ b.type = c.SEC_ACE_TYPE_ACCESS_DENIED := fun e => hda (hd.mpr e)
    simp only [hda, hdb, ha, hb, if_false, if_true] at h
    split_ifs at h <;> omega

/-- C22: `dacl_sort_into_canonical_order` leaves a `NULL` array and an array
with count 0 untouched. For a count other than 0, with a C library sort that
keeps its contract and the inherited flag a single bit, the first `num_aces`
entries are rearranged (a permutation of what they were, the entries after
them untouched) so that no ACE with the flag `SEC_ACE_FLAG_INHERITED_ACE`
comes before an ACE without it; for the count of the whole array the array
after the call is a permutation of the array before. -/
theorem C22_noninherited_first (c : SecConsts) (qsort : QsortFn) (hq : QsortContract qsort)
    (hbit : ∃ k, c.SEC_ACE_FLAG_INHERITED_ACE = 2 ^ k) (aces : List security_ace)
    (num_aces : Nat) :
    dacl_sort_into_canonical_order c qsort none num_aces = none ∧
      dacl_sort_into_canonical_order c qsort (some aces) 0 = some aces ∧
      (num_aces ≠ 0 →
        ∃ sorted, dacl_sort_into_canonical_order c qsort (some aces) num_aces =
            some (sorted ++ aces.drop num_aces) ∧
          sorted.Perm (aces.take num_aces) ∧
          sorted.Pairwise
            (fun a b => ace_inherited c a = true → ace_inherited c b = true)) ∧
      (aces ≠ [] →
        ∃ out, dacl_sort_into_canonical_order c qsort (some aces) aces.length = some out ∧
          out.Perm aces ∧
          out.Pairwise (fun a b => ace_inherited c a = true → ace_inherited c b = true)) := by
  have key : ∀ n, n ≠ 0 →
      ∃ sorted, dacl_sort_into_canonical_order c qsort (some aces) n =
          some (sorted ++ aces.drop n) ∧
        sorted.Perm (aces.take n) ∧
        sorted.Pairwise (fun a b => ace_inherited c a = true → ace_inherited c b = true) := by
    intro n hn
    obtain ⟨g1, g2, hrun, hperm, h1, h2, _, _⟩ := dacl_sort_groups c qsort hq hbit aces n hn
    refine ⟨g1 ++ g2, hrun, hperm, ?_⟩
    rw [List.pairwise_append]
    refine ⟨?_, ?_, ?_⟩
    · refine List.pairwise_of_forall_mem_list (fun a ha b _ hinh => ?_)
      rw [h1 a ha] at hinh
      cases hinh
    · exact List.pairwise_of_forall_mem_list (fun a _ b hb _ => h2 b hb)
    · intro a _ b hb _
      exact h2 b hb
  refine ⟨rfl, ?_, key num_aces, ?_⟩
  · simp [dacl_sort_into_canonical_order]
  · intro hne
    have hlen : aces.length ≠ 0 := fun h => hne (List.length_eq_zero.mp h)
    obtain ⟨sorted, hrun, hperm, hpw⟩ := key aces.length hlen
    refine ⟨sorted, ?_, ?_, hpw⟩
    · rw [hrun]
      simp
    · simpa using hperm

/-- C22, witness: the example ACL of five ACEs sorted with the constants of
the security IDL: the three ACEs without the inherited flag come first. -/
theorem C22_noninherited_first_witness :
    (∃ out, dacl_sort_into_canonical_order ndrConsts ref_qsort (some aclExample)
          aclExample.length = some out ∧
        out.Perm aclExample ∧
        out.Pairwise
          (fun a b => ace_inherited ndrConsts a = true → ace_inherited ndrConsts b = true)) ∧
      dacl_sort_into_canonical_order ndrConsts ref_qsort (some aclExample) 5 =
        some [ace 1 0 3, ace 0 0 5, ace 0 11 2, ace 1 16 4, ace 0 16 1] :=
  ⟨(C22_noninherited_first ndrConsts ref_qsort ref_qsort_contract ⟨4, rfl⟩ aclExample 5).2.2.2
      (by decide),
    by decide⟩

theorem canon_order_in_groups (c : SecConsts) (qsort : QsortFn) (hq : QsortContract qsort)
    (hbit : ∃ k, c.SEC_ACE_FLAG_INHERITED_ACE = 2 ^ k) (aces : List security_ace)
    (num_aces : Nat) (hn : num_aces ≠ 0) :
    ∃ g1 g2, dacl_sort_into_canonical_order c qsort (some aces) num_aces =
        some (g1 ++ g2 ++ aces.drop num_aces) ∧
      (∀ a ∈ g1, ace_inherited c a = false) ∧ (∀ a ∈ g2, ace_inherited c a = true) ∧
      ∀ g, g = g1 ∨ g = g2 →
        g.Pairwise (fun a b => b.type = c.SEC_ACE_TYPE_ACCESS_DENIED →
            a.type = c.SEC_ACE_TYPE_ACCESS_DENIED) ∧
          g.Pairwise (fun a b =>
            (a.type = c.SEC_ACE_TYPE_ACCESS_DENIED ↔ b.type = c.SEC_ACE_TYPE_ACCESS_DENIED) →
            a.flags &&& c.SEC_ACE_FLAG_INHERIT_ONLY ≠ 0 →
            b.flags &&& c.SEC_ACE_FLAG_INHERIT_ONLY ≠ 0) := by
  obtain ⟨g1, g2, hrun, _, h1, h2, hs1, hs2⟩ := dacl_sort_groups c qsort hq hbit aces num_aces hn
  refine ⟨g1, g2, hrun, h1, h2, ?_⟩
  intro g hg
  have hs : g.Pairwise (fun a b => nt_ace_canon_comp c a b ≤ 0) := by
    rcases hg with hg | hg <;> rw [hg] <;> assumption
  exact ⟨hs.imp (fun {a b} h => canon_sorted_denied c a b h),
    hs.imp (fun {a b} h => canon_sorted_inherit_only c a b h)⟩

theorem ref_qsort_keeps (cmp : security_ace → security_ace → Int) (aces : List security_ace)
    (h : aces.Pairwise (fun a b => cmp a b ≤ 0)) : ref_qsort cmp aces = aces :=
  List.Sorted.insertionSort_eq h

/-- C23: the order quoted above `dacl_sort_into_canonical_order` is not kept
for an access-denied ACE of a type other than `SEC_ACE_TYPE_ACCESS_DENIED`.
`nt_ace_canon_comp` compares two ACEs whose types both differ from that
constant by their flags alone: with the same flags they compare equal in both
directions, whatever their types. So for an array of two such ACEs without
the inherited flag no call of the sort sees an ACE out of place, and a sort
that leaves an array already in order as it is returns the array unchanged:
an access-allowed ACE followed by an access-denied object ACE stays in that
order. -/
theorem C23_object_deny_not_ranked (c : SecConsts) (qsort : QsortFn)
    (hkeep : ∀ cmp aces, aces.Pairwise (fun x y => cmp x y ≤ 0) → qsort cmp aces = aces)
    (a b : security_ace)
    (ha : a.type ≠ c.SEC_ACE_TYPE_ACCESS_DENIED) (hb : b.type ≠ c.SEC_ACE_TYPE_ACCESS_DENIED)
    (hflags : a.flags = b.flags) (hinh : ace_inherited c a = false) :
    nt_ace_canon_comp c a b = 0 ∧ nt_ace_canon_comp c b a = 0 ∧
      nt_ace_inherit_comp c a b = 0 ∧
      dacl_sort_into_canonical_order c qsort (some [a, b]) 2 = some [a, b] := by
  have hab : nt_ace_canon_comp c a b = 0 := by
    simp [nt_ace_canon_comp, ha, hb, hflags]
  have hba : nt_ace_canon_comp c b a = 0 := by
    simp [nt_ace_canon_comp, ha, hb, hflags]
  have hi : nt_ace_inherit_comp c a b = 0 := by
    simp [nt_ace_inherit_comp, hflags]
  have hinhb : ace_inherited c b = false := by
    simp only [ace_inherited] at hinh ⊢
    rw [← hflags]
    exact hinh
  have h1 : qsort (nt_ace_inherit_comp c) [a, b] = [a, b] :=
    hkeep _ _ (by simp [hi])
  have h2 : qsort (nt_ace_canon_comp c) [a, b] = [a, b] :=
    hkeep _ _ (by simp [hab])
  have h3 : qsort (nt_ace_canon_comp c) [] = [] := hkeep _ _ List.Pairwise.nil
  refine ⟨hab, hba, hi, ?_⟩
  simp [dacl_sort_into_canonical_order, h1, inherited_boundary, hinh, hinhb, h2, h3]

/-- C23, at the failing input: with the constants of the security IDL and the
insertion sort, the array of an access-allowed ACE (type 0) followed by an
access-denied object ACE (type 6), both without flags, is returned as it
was, although the second ACE is access-denied and the first is not. -/
theorem C23_object_deny_not_ranked_witness :
    documented_access_denied ndrConsts (ace 0 0 1) = false ∧
      documented_access_denied ndrConsts (ace SEC_ACE_TYPE_ACCESS_DENIED_OBJECT 0 2) = true ∧
      (nt_ace_canon_comp ndrConsts (ace 0 0 1) (ace SEC_ACE_TYPE_ACCESS_DENIED_OBJECT 0 2) = 0 ∧
        nt_ace_canon_comp ndrConsts (ace SEC_ACE_TYPE_ACCESS_DENIED_OBJECT 0 2) (ace 0 0 1) = 0 ∧
        nt_ace_inherit_comp ndrConsts (ace 0 0 1) (ace SEC_ACE_TYPE_ACCESS_DENIED_OBJECT 0 2) = 0 ∧
        dacl_sort_into_canonical_order ndrConsts ref_qsort
          (some [ace 0 0 1, ace SEC_ACE_TYPE_ACCESS_DENIED_OBJECT 0 2]) 2 =
          some [ace 0 0 1, ace SEC_ACE_TYPE_ACCESS_DENIED_OBJECT 0 2]) :=
  ⟨by decide, by decide,
    C23_object_deny_not_ranked ndrConsts ref_qsort ref_qsort_keeps (ace 0 0 1)
      (ace SEC_ACE_TYPE_ACCESS_DENIED_OBJECT 0 2) (by decide) (by decide) rfl (by decide)⟩

end Secace

namespace Samdb

open Cracknames

/-! ## The SID list of a token -/

theorem token_add_sid_extends (env : TokenEnv) (token_sids : List dom_sid) (sid : dom_sid) :
    ∃ extra, token_add_sid env token_sids sid = token_sids ++ extra ∧ extra.Sublist [sid] := by
  simp only [token_add_sid]
  split
  · exact ⟨[], by simp, by simp⟩
  · exact ⟨[sid], rfl, List.Sublist.refl _⟩

theorem token_sid_loop_extends (env : TokenEnv) :
    ∀ (rest : List auth_SidAttr) (token_sids : List dom_sid),
      ∃ extra, token_sid_loop env rest token_sids = token_sids ++ extra ∧
        extra.Sublist (rest.map auth_SidAttr.sid) := by
  intro rest
  induction rest with
  | nil =>
    intro token_sids
    exact ⟨[], by simp [token_sid_loop], by simp⟩
  | cons s rest ih =>
    intro token_sids
    obtain ⟨e1, h1, hs1⟩ := token_add_sid_extends env token_sids s.sid
    obtain ⟨e2, h2, hs2⟩ := ih (token_add_sid env token_sids s.sid)
    refine ⟨e1 ++ e2, ?_, ?_⟩
    · rw [token_sid_loop, h2, h1, List.append_assoc]
    · have := List.Sublist.append hs1 hs2
      simpa using this

theorem token_add_sid_pairwise (env : TokenEnv) (token_sids : List dom_sid) (sid : dom_sid)
    (h : token_sids.Pairwise (fun a b => env.dom_sid_equal a b = false)) :
    (token_add_sid env token_sids sid).Pairwise (fun a b => env.dom_sid_equal a b = false) := by
  simp only [token_add_sid]
  split
  · exact h
  · rename_i hany
    rw [List.pairwise_append]
    refine ⟨h, by simp, ?_⟩
    intro a ha b hb
    simp only [List.mem_singleton] at hb
    subst hb
    simp only [List.any_eq_true, not_exists, not_and, Bool.not_eq_true] at hany
    exact hany a ha

theorem token_sid_loop_pairwise (env : TokenEnv) :
    ∀ (rest : List auth_SidAttr) (token_sids : List dom_sid),
      token_sids.Pairwise (fun a b => env.dom_sid_equal a b = false) →
      (token_sid_loop env rest token_sids).Pairwise
        (fun a b => env.dom_sid_equal a b = false) := by
  intro rest
  induction rest with
  | nil =>
    intro token_sids h
    simpa [token_sid_loop] using h
  | cons s rest ih =>
    intro token_sids h
    rw [token_sid_loop]
    exact ih _ (token_add_sid_pairwise env token_sids s.sid h)

theorem token_sid_loop_keeps (env : TokenEnv) (rest : List auth_SidAttr)
    (token_sids : List dom_sid) (t : dom_sid) (ht : t ∈ token_sids) :
    t ∈ token_sid_loop env rest token_sids := by
  obtain ⟨extra, h, _⟩ := token_sid_loop_extends env rest token_sids
  rw [h]
  exact List.mem_append_left _ ht

theorem token_sid_loop_covers (env : TokenEnv) :
    ∀ (rest : List auth_SidAttr) (token_sids : List dom_sid), ∀ s ∈ rest,
      s.sid ∈ token_sid_loop env rest token_sids ∨
        ∃ t ∈ token_sid_loop env rest token_sids, env.dom_sid_equal t s.sid = true := by
  intro rest
  induction rest with
  | nil =>
    intro token_sids s hs
    cases hs
  | cons x rest ih =>
    intro token_sids s hs
    rw [token_sid_loop]
    rcases List.mem_cons.mp hs with e | e
    · subst e
      by_cases hany : token_sids.any (fun t => env.dom_sid_equal t s.sid) = true
      · right
        obtain ⟨t, ht, heq⟩ := List.any_eq_true.mp hany
        exact ⟨t, token_sid_loop_keeps env rest _ t (by simp [token_add_sid, hany, ht]), heq⟩
      · left
        exact token_sid_loop_keeps env rest _ s.sid (by simp [token_add_sid, hany])
    · exact ih _ s e

theorem token_sid_loop_spec (env : TokenEnv)
    (htrans : ∀ a b d, env.dom_sid_equal a b = true → env.dom_sid_equal b d = true →
      env.dom_sid_equal a d = true) :
    ∀ (rest : List auth_SidAttr) (earlier token_sids : List dom_sid),
      (∀ a ∈ token_sids, a ∈ earlier) →
      (∀ e ∈ earlier, e ∈ token_sids ∨ ∃ a ∈ token_sids, env.dom_sid_equal a e = true) →
      token_sid_loop env rest token_sids =
        token_sids ++ drop_equal_to_earlier env.dom_sid_equal earlier
          (rest.map auth_SidAttr.sid) := by
  intro rest
  induction rest with
  | nil =>
    intro earlier token_sids _ _
    simp [token_sid_loop, drop_equal_to_earlier]
  | cons s rest ih =>
    intro earlier token_sids hsub hcov
    have hany : earlier.any (fun t => env.dom_sid_equal t s.sid) =
        token_sids.any (fun t => env.dom_sid_equal t s.sid) := by
      rw [Bool.eq_iff_iff]
      simp only [List.any_eq_true]
      constructor
      · rintro ⟨e, he, heq⟩
        rcases hcov e he with h | ⟨a, ha, hae⟩
        · exact ⟨e, h, heq⟩
        · exact ⟨a, ha, htrans a e s.sid hae heq⟩
      · rintro ⟨a, ha, heq⟩
        exact ⟨a, hsub a ha, heq⟩
    rw [token_sid_loop, List.map_cons, drop_equal_to_earlier, hany]
    by_cases h : token_sids.any (fun t => env.dom_sid_equal t s.sid) = true
    · have hadd : token_add_sid env token_sids s.sid = token_sids := by
        simp [token_add_sid, h]
      rw [hadd, if_pos h]
      refine ih (earlier ++ [s.sid]) token_sids ?_ ?_
      · intro a ha
        exact List.mem_append_left _ (hsub a ha)
      · intro e he
        rcases List.mem_append.mp he with he | he
        · exact hcov e he
        · simp only [List.mem_singleton] at he
          subst he
          obtain ⟨a, ha, heq⟩ := List.any_eq_true.mp h
          exact Or.inr ⟨a, ha, heq⟩
    · have hadd : token_add_sid env token_sids s.sid = token_sids ++ [s.sid] := by
        simp [token_add_sid, h]
      rw [hadd, if_neg h]
      rw [ih (earlier ++ [s.sid]) (token_sids ++ [s.sid]) ?_ ?_]
      · simp
      · intro a ha
        rcases List.mem_append.mp ha with ha | ha
        · exact List.mem_append_left _ (hsub a ha)
        · exact List.mem_append_right _ ha
      · intro e he
        rcases List.mem_append.mp he with he | he
        · rcases hcov e he with h1 | ⟨a, ha, hae⟩
          · exact Or.inl (List.mem_append_left _ h1)
          · exact Or.inr ⟨a, List.mem_append_left _ ha, hae⟩
        · exact Or.inl (List.mem_append_right _ he)

theorem security_token_create_sids (env : TokenEnv) (num_sids : Nat)
    (sids : List auth_SidAttr) (session_info_flags : Nat) (token : security_token)
    (h : security_token_create env num_sids sids session_info_flags =
      (NTSTATUS.NT_STATUS_OK, some token)) :
    token.sids = token_sid_loop env (sids.take num_sids) [] ∧
      token.num_sids = token.sids.length := by
  simp only [security_token_create] at h
  split at h
  · cases h
  · split at h
    · simp only [Prod.mk.injEq, Option.some.injEq, true_and] at h
      subst h
      exact ⟨rfl, rfl⟩
    · split at h
      · simp only [Prod.mk.injEq, reduceCtorEq, and_false] at h
      · simp only [Prod.mk.injEq, Option.some.injEq, true_and] at h
        subst h
        exact ⟨rfl, rfl⟩

/-- C30: `security_token_create` removes duplicate SIDs. For `num_sids` above
`UINT32_MAX - 6` it returns `NT_STATUS_INVALID_PARAMETER` and hands out no
token; below that bound and with simple privileges requested it returns
`NT_STATUS_OK` with a token. Whenever it returns `NT_STATUS_OK` for a list of
`num_sids` SIDs, the SID list of the token is what the loop builds from the
input: its count is its length and at most `num_sids`; no entry is
`dom_sid_equal` to a later one; it is a sublist of the input (the order of
first occurrence); every input SID is in it or `dom_sid_equal` to an entry. If
`dom_sid_equal` is transitive the list is the input with every SID equal to an
earlier one dropped; if `dom_sid_equal` is equality the entries are pairwise
distinct and every input SID occurs in the list. -/
theorem C30_token_sids_deduplicated (env : TokenEnv) (num_sids : Nat)
    (sids : List auth_SidAttr) (session_info_flags : Nat) :
    (num_sids > UINT32_MAX - 6 →
        security_token_create env num_sids sids session_info_flags =
          (NTSTATUS.NT_STATUS_INVALID_PARAMETER, none)) ∧
      (num_sids ≤ UINT32_MAX - 6 →
        session_info_flags &&& env.AUTH_SESSION_INFO_SIMPLE_PRIVILEGES ≠ 0 →
        ∃ token, security_token_create env num_sids sids session_info_flags =
          (NTSTATUS.NT_STATUS_OK, some token)) ∧
      (∀ token, sids.length = num_sids →
        security_token_create env num_sids sids session_info_flags =
          (NTSTATUS.NT_STATUS_OK, some token) →
        token.sids = token_sid_loop env sids [] ∧
          token.num_sids = token.sids.length ∧
          token.num_sids ≤ num_sids ∧
          token.sids.Pairwise (fun a b => env.dom_sid_equal a b = false) ∧
          token.sids.Sublist (sids.map auth_SidAttr.sid) ∧
          (∀ s ∈ sids, s.sid ∈ token.sids ∨
            ∃ t ∈ token.sids, env.dom_sid_equal t s.sid = true) ∧
          ((∀ a b d, env.dom_sid_equal a b = true → env.dom_sid_equal b d = true →
              env.dom_sid_equal a d = true) →
            token.sids = drop_equal_to_earlier env.dom_sid_equal []
              (sids.map auth_SidAttr.sid)) ∧
          ((∀ a b, env.dom_sid_equal a b = true ↔ a = b) →
            token.sids.Nodup ∧ ∀ s ∈ sids, s.sid ∈ token.sids)) := by
  refine ⟨?_, ?_, ?_⟩
  · intro h
    simp only [security_token_create, h, if_true]
  · intro h hflag
    have h' : ¬ num_sids > UINT32_MAX - 6 := by omega
    simp only [security_token_create, h', if_false, hflag, ne_eq, not_false_eq_true, if_true]
    exact ⟨_, rfl⟩
  · intro token hlen hrun
    obtain ⟨hs, hn⟩ := security_token_create_sids env num_sids sids session_info_flags token hrun
    have htake : sids.take num_sids = sids := by
      rw [← hlen]
      exact List.take_length sids
    rw [htake] at hs
    obtain ⟨extra, hext, hsub⟩ := token_sid_loop_extends env sids []
    have hsub' : token.sids.Sublist (sids.map auth_SidAttr.sid) := by
      rw [hs, hext]
      simpa using hsub
    have hcov := token_sid_loop_covers env sids []
    have hpw := token_sid_loop_pairwise env sids [] List.Pairwise.nil
    refine ⟨hs, hn, ?_, ?_, hsub', ?_, ?_, ?_⟩
    · rw [hn, ← hlen]
      have := hsub'.length_le
      simpa using this
    · rw [hs]
      exact hpw
    · rw [hs]
      exact hcov
    · intro htrans
      rw [hs, token_sid_loop_spec env htrans sids [] [] (by simp) (by simp)]
      simp
    · intro heq
      refine ⟨?_, ?_⟩
      · rw [hs]
        refine hpw.imp (fun {a b} h e => ?_)
        rw [(heq a b).mpr e] at h
        cases h
      · intro s hmem
        rw [hs]
        rcases hcov s hmem with h | ⟨t, ht, hts⟩
        · exact h
        · rw [← (heq t s.sid).mp hts]
          exact ht

/-- C30, witness: the list of five SIDs with the user and the first group
repeated gives a token with the three distinct SIDs in the order of their
first occurrence; a count above `UINT32_MAX - 6` gives
`NT_STATUS_INVALID_PARAMETER` and no token. -/
theorem C30_token_sids_deduplicated_witness :
    security_token_create tokenEnv 5 sidsExample 1 =
        (NTSTATUS.NT_STATUS_OK,
          some ⟨3, [sidAlice, sidAdministrators, sidBuiltinDomain], 0⟩) ∧
      ([sidAlice, sidAdministrators, sidBuiltinDomain] : List dom_sid) =
        drop_equal_to_earlier tokenEnv.dom_sid_equal [] (sidsExample.map auth_SidAttr.sid) ∧
      security_token_create tokenEnv 4294967290 sidsExample 1 =
        (NTSTATUS.NT_STATUS_INVALID_PARAMETER, none) :=
  ⟨by decide,
    ((C30_token_sids_deduplicated tokenEnv 5 sidsExample 1).2.2
      ⟨3, [sidAlice, sidAdministrators, sidBuiltinDomain], 0⟩ (by decide) (by decide)).2.2.2.2.2.2.1
      (fun a b d h1 h2 => by
        simp only [tokenEnv, decide_eq_true_eq] at h1 h2 ⊢
        exact h1.trans h2),
    (C30_token_sids_deduplicated tokenEnv 4294967290 sidsExample 1).1 (by decide)⟩

end Samdb
